import Mathlib

/-!
# Joystick arbitration (`xbmc/input/SDLJoystick.cpp`)

A shallow embedding of `CJoystick`: the member variables and the function-local
statics of the repeat timers become fields of one state record, each member
function becomes a function on that record, and the values the SDL library
hands over (device samples, tick counts, events) become arguments.

Numbers: `int` members are `Int`; `uint32_t` tick counts are `Nat` below `2 ^ 32`
with the subtraction taken modulo `2 ^ 32`; `float` results are exact rationals.
-/

namespace SDLJoystick

/-! ## Constants -/

/-- Modelled from the spec: `MAX_AXISAMOUNT` is a macro of `SDLJoystick.h`, which is not
among the sources. The spec fixes the raw axis range at the bounds of 16-bit signed
samples, and the source notes the range `[-32768 to 32767]` where `m_Amount` is written;
the macro is the magnitude of that range. -/
def MAX_AXISAMOUNT : Int := 32768

/-- Constants of headers that are not among the sources and whose values the spec leaves
open: `MAX_AXES` of `SDLJoystick.h` (the length of `m_Amount`) and the lengths of the
arrays `buttons`, `hats` and `axes` of `CRetroPlayerInput::Gamepad`. -/
structure Limits where
  MAX_AXES : Nat
  gamepadButtons : Nat
  gamepadHats : Nat
  gamepadAxes : Nat

/-- The value `SDL_HAT_CENTERED` of the SDL library. -/
def SDL_HAT_CENTERED : Nat := 0
/-- The bit `SDL_HAT_UP` of the SDL library. -/
def SDL_HAT_UP : Nat := 1
/-- The bit `SDL_HAT_RIGHT` of the SDL library. -/
def SDL_HAT_RIGHT : Nat := 2
/-- The bit `SDL_HAT_DOWN` of the SDL library. -/
def SDL_HAT_DOWN : Nat := 4
/-- The bit `SDL_HAT_LEFT` of the SDL library. -/
def SDL_HAT_LEFT : Nat := 8

/-- Number of values of a `uint32_t`. -/
def UINT32 : Nat := 4294967296

/-- Subtraction of two `uint32_t` tick counts, as the machine does it. -/
def sub32 (a b : Nat) : Nat := (a % UINT32 + UINT32 - b % UINT32) % UINT32

/-! ## Data model -/

/-- What the SDL library reports for one open device after `SDL_JoystickUpdate()`:
`SDL_JoystickIndex`, and the samples behind `SDL_JoystickGetButton`, `SDL_JoystickGetHat`
and `SDL_JoystickGetAxis`; the three counts are the lengths of the lists. -/
structure SDL_Joystick where
  index : Int
  buttons : List Bool
  hats : List Nat
  axes : List Int

/-- Modelled from the spec: the flag word `m_ActiveFlags` with its accessors
`SetButtonActive`, `SetHatActive`, `SetAxisActive`, `IsButtonActive`, `IsHatActive`,
`IsAxisActive` and the masks `JACTIVE_*` are declared in `SDLJoystick.h`, which is not
among the sources; each class (button, hat, axis) has one flag of its own, set or
cleared by its setter and read by its getter, and `JACTIVE_NONE` is no flag set. -/
structure ActiveFlags where
  button : Bool
  hat : Bool
  axis : Bool
deriving DecidableEq, Repr

/-- The value `JACTIVE_NONE`. -/
def JACTIVE_NONE : ActiveFlags := ⟨false, false, false⟩

/-- The three `static uint32_t` locals of `GetHat` and of `GetButton`. -/
structure RepeatStatics where
  lastPressTicks : Nat
  lastTicks : Nat
  nowTicks : Nat
deriving DecidableEq, Repr

/-- The members of `CJoystick`, with the function-local statics of the two queries. -/
structure CJoystick where
  m_Amount : Nat → Int
  m_AxisId : Int
  m_ButtonId : Int
  m_HatId : Int
  m_HatState : Nat
  m_JoyId : Int
  m_NumAxes : Int
  m_DeadzoneRange : Int
  m_joystickEnabled : Bool
  m_pressTicksButton : Nat
  m_pressTicksHat : Nat
  m_ActiveFlags : ActiveFlags
  m_Joysticks : List SDL_Joystick
  m_JoystickNames : List String
  hatStatics : RepeatStatics
  buttonStatics : RepeatStatics

/-- A hat of the snapshot, `CRetroPlayerInput::Hat`. -/
structure Hat where
  up : Bool
  down : Bool
  right : Bool
  left : Bool
deriving DecidableEq, Repr

/-- The snapshot of one device, `CRetroPlayerInput::Gamepad`; each array is given by the
entries below its count. -/
structure Gamepad where
  name : String
  id : Int
  buttonCount : Nat
  buttons : List Bool
  hatCount : Nat
  hats : List Hat
  axisCount : Nat
  axes : List ℚ

/-- The calls `UpdateEvent` makes on the input handler. -/
inductive HandlerCall where
  | ProcessButtonDown (name : String) (which button : Nat)
  | ProcessAxisState (name : String) (which axis : Nat) (value : ℚ)
  | ProcessHatState (name : String) (which hat : Nat) (state : Hat)

/-- The joystick events of the SDL library, by `joyEvent.type`. -/
inductive SDL_Event where
  | JOYBUTTONDOWN (which button : Nat)
  | JOYAXISMOTION (which axis : Nat) (value : Int)
  | JOYHATMOTION (which hat value : Nat)
  | JOYBALLMOTION
  | JOYBUTTONUP (which button : Nat)
  | other

namespace CJoystick

/-! ## Accessors of the header -/

/-- `IsEnabled()`. -/
def IsEnabled (s : CJoystick) : Bool := s.m_joystickEnabled

/-- `SetButtonActive(active)`. -/
def SetButtonActive (s : CJoystick) (active : Bool) : CJoystick :=
  { s with m_ActiveFlags := { s.m_ActiveFlags with button := active } }

/-- `SetHatActive(active)`. -/
def SetHatActive (s : CJoystick) (active : Bool) : CJoystick :=
  { s with m_ActiveFlags := { s.m_ActiveFlags with hat := active } }

/-- `SetAxisActive(active)`. -/
def SetAxisActive (s : CJoystick) (active : Bool) : CJoystick :=
  { s with m_ActiveFlags := { s.m_ActiveFlags with axis := active } }

/-- `IsButtonActive()`. -/
def IsButtonActive (s : CJoystick) : Bool := s.m_ActiveFlags.button

/-- `IsHatActive()`. -/
def IsHatActive (s : CJoystick) : Bool := s.m_ActiveFlags.hat

/-- `IsAxisActive()`. -/
def IsAxisActive (s : CJoystick) : Bool := s.m_ActiveFlags.axis

/-- Modelled from the spec: `ResetAxis(axisId)` is declared in `SDLJoystick.h`, which is
not among the sources; it clears the stored sample of one axis. -/
def ResetAxis (s : CJoystick) (axisId : Nat) : CJoystick :=
  { s with m_Amount := Function.update s.m_Amount axisId 0 }

/-! ## The axis normalizer -/

/-- `CJoystick::NormalizeAxis`, the quotient taken exactly. -/
def NormalizeAxis (s : CJoystick) (value : Int) : ℚ :=
  if value > s.m_DeadzoneRange then
    ((value - s.m_DeadzoneRange : Int) : ℚ) / ((MAX_AXISAMOUNT - s.m_DeadzoneRange : Int) : ℚ)
  else if value < -s.m_DeadzoneRange then
    ((value + s.m_DeadzoneRange : Int) : ℚ) / ((MAX_AXISAMOUNT - s.m_DeadzoneRange : Int) : ℚ)
  else 0

/-- `CJoystick::GetAmount`. -/
def GetAmount (s : CJoystick) (axis : Nat) : ℚ :=
  s.NormalizeAxis (s.m_Amount axis)

/-- The cast `(int)` of a `float`: the fraction is dropped. -/
def truncate (q : ℚ) : Int := if 0 ≤ q then ⌊q⌋ else ⌈q⌉

/-- `CJoystick::SetDeadzone`: the new state and the value returned. -/
def SetDeadzone (s : CJoystick) (val : ℚ) : CJoystick × ℚ :=
  let val := if val < 0 then 0 else val
  let val := if val > 1 then 1 else val
  ({ s with m_DeadzoneRange := truncate (val * MAX_AXISAMOUNT) }, val)

/-! ## Greatest-deviation selection -/

/-- The function `abs` of the C library on an `int`. -/
def cabs (x : Int) : Int := if x < 0 then -x else x

/-- One pass of the loop body of `GetAxisWithMaxAmount` at index `i`; the pair is
`(maxAmount, axis)`. -/
def axisStep (s : CJoystick) (acc : Int × Int) (i : Nat) : Int × Int :=
  let tempf := cabs (s.m_Amount i)
  if tempf > s.m_DeadzoneRange ∧ tempf > acc.1 then (tempf, (i : Int)) else acc

/-- The loop `for (int i = 1; i <= m_NumAxes; i++)` of `GetAxisWithMaxAmount`, started
with `maxAmount = 0` and `axis = 0`. -/
def axisScan (s : CJoystick) : Int × Int :=
  (List.range' 1 s.m_NumAxes.toNat).foldl (axisStep s) (0, 0)

/-- `CJoystick::GetAxisWithMaxAmount`: the new state and the value returned. The samples
are read as a function of the index: this definition agrees with the C++ where the loop
stays within the `MAX_AXES` entries of `m_Amount`, and `GetAxisWithMaxAmountChecked` below
gives no result where it reads past them. -/
def GetAxisWithMaxAmount (s : CJoystick) : CJoystick × Int :=
  let r := axisScan s
  (s.SetAxisActive (decide (0 ≠ r.1)), r.2)

/-- `CJoystick::Reset`. -/
def Reset (L : Limits) (s : CJoystick) (axis : Bool) : CJoystick :=
  if axis then
    (List.range L.MAX_AXES).foldl (fun t i => t.ResetAxis i) (s.SetAxisActive false)
  else s

/-! ## Polling mode -/

/-- The index at which a loop `for (k = 0; k < n; k++) if (p k) { ...; break; }` breaks. -/
def firstIndex {α : Type} (p : α → Bool) : List α → Option Nat
  | [] => none
  | x :: xs => if p x then some 0 else (firstIndex p xs).map (· + 1)

/-- The decomposition of a raw hat value in `Update(CRetroPlayerInput*)`. -/
def pollHat (hat : Nat) : Hat :=
  { up := decide (hat &&& SDL_HAT_UP ≠ 0)
    down := !decide (hat &&& SDL_HAT_UP ≠ 0) && decide (hat &&& SDL_HAT_DOWN ≠ 0)
    right := decide (hat &&& SDL_HAT_RIGHT ≠ 0)
    left := !decide (hat &&& SDL_HAT_RIGHT ≠ 0) && decide (hat &&& SDL_HAT_LEFT ≠ 0) }

/-- The gamepad object built for device `j` when a handler is supplied; `numax` is the
axis count after the clamp to `MAX_AXES`. -/
def pollGamepad (L : Limits) (s : CJoystick) (j : Nat) (joy : SDL_Joystick) (numax : Nat) :
    Gamepad :=
  { name := s.m_JoystickNames.getD j ""
    id := joy.index
    buttonCount := min L.gamepadButtons joy.buttons.length
    buttons := joy.buttons.take (min L.gamepadButtons joy.buttons.length)
    hatCount := min L.gamepadHats joy.hats.length
    hats := (joy.hats.take (min L.gamepadHats joy.hats.length)).map pollHat
    axisCount := min L.gamepadAxes numax
    axes := (joy.axes.take (min L.gamepadAxes numax)).map s.NormalizeAxis }

/-- The loop `for (int a = 0; a < numax; a++)` that stores the axis samples of one
device: a sample whose id `a + 1` is not below `MAX_AXES` is dropped. -/
def storeAxes (L : Limits) (joy : SDL_Joystick) (numax : Nat) (amount : Nat → Int) :
    Nat → Int :=
  (List.range numax).foldl
    (fun amt a =>
      let axisval := joy.axes.getD a 0
      let axisId := a + 1
      if axisId ≤ 0 ∨ axisId ≥ L.MAX_AXES then amt else Function.update amt axisId axisval)
    amount

/-- What one pass of the device loop leaves: the state, the locals `buttonId` and `hatId`,
and whether the loop ends with this pass (`j = numj-1` was assigned, or `break` taken). -/
structure PollStep where
  state : CJoystick
  buttonId : Int
  hatId : Int
  last : Bool

/-- The button loop of one device, `for (int b = 0; b < numb; b++)`: the state, the local
`buttonId`, and whether `j = numj-1` was assigned. -/
def pollButtons (joy : SDL_Joystick) (s : CJoystick) (buttonId : Int) :
    CJoystick × Int × Bool :=
  -- get button states first, they take priority over axis
  match firstIndex (fun b => b) joy.buttons with
  | some b => ({ s with m_JoyId := joy.index }, ((b : Int) + 1), true)
  | none => (s, buttonId, false)

/-- The hat loop of one device, `for (int h = 0; h < numhat; h++)`: the state, the local
`hatId`, and whether `j = numj-1` has been assigned by now. -/
def pollHats (joy : SDL_Joystick) (s : CJoystick) (hatId : Int) (last : Bool) :
    CJoystick × Int × Bool :=
  match firstIndex (fun hatval => decide (hatval ≠ SDL_HAT_CENTERED)) joy.hats with
  | some h =>
    ({ s with m_JoyId := joy.index, m_HatState := joy.hats.getD h 0 }, ((h : Int) + 1), true)
  | none => (s, hatId, last)

/-- The axis part of one device up to `m_AxisId = GetAxisWithMaxAmount()`. -/
def pollAxes (L : Limits) (joy : SDL_Joystick) (s : CJoystick) : CJoystick :=
  let numax := if joy.axes.length > L.MAX_AXES then L.MAX_AXES else joy.axes.length
  -- get axis states
  let s := { s with m_NumAxes := (numax : Int) }
  let s := { s with m_Amount := storeAxes L joy numax s.m_Amount }
  let r := s.GetAxisWithMaxAmount
  { r.1 with m_AxisId := r.2 }

/-- The body of the device loop of `Update(CRetroPlayerInput*)` after the snapshot:
buttons, hats, then axes, and the `break` when an axis is active. -/
def pollDevice (L : Limits) (joy : SDL_Joystick) (s : CJoystick) (buttonId hatId : Int) :
    PollStep :=
  let b := pollButtons joy s buttonId
  let h := pollHats joy b.1 hatId b.2.2
  let a := pollAxes L joy h.1
  if a.m_AxisId ≠ 0 then
    { state := { a with m_JoyId := joy.index }, buttonId := b.2.1, hatId := h.2.1,
      last := true }
  else
    { state := a, buttonId := b.2.1, hatId := h.2.1, last := h.2.2 }

/-- The loop `for (int j = 0; j < numj; j++)` of `Update(CRetroPlayerInput*)` from device
`j` on, over the devices not yet visited; `out` collects the snapshots handed to
`ProcessGamepad`. -/
def pollLoop (L : Limits) (handler : Bool) :
    Nat → List SDL_Joystick → CJoystick → Int → Int → List Gamepad →
      CJoystick × Int × Int × List Gamepad
  | _, [], s, buttonId, hatId, out => (s, buttonId, hatId, out)
  | j, joy :: rest, s, buttonId, hatId, out =>
    let numax := if joy.axes.length > L.MAX_AXES then L.MAX_AXES else joy.axes.length
    let out := if handler then out ++ [pollGamepad L s j joy numax] else out
    let r := pollDevice L joy s buttonId hatId
    if r.last then (r.state, r.buttonId, r.hatId, out)
    else pollLoop L handler (j + 1) rest r.state r.buttonId r.hatId out

/-- The hat bookkeeping after the device loop, `if(hatId==-1) ... else ...`. -/
def pollSettleHat (s : CJoystick) (hatId : Int) (ticks : Nat) : CJoystick :=
  if hatId = -1 then
    { (({ s with m_pressTicksHat := 0 } : CJoystick).SetHatActive false) with m_HatId := 0 }
  else
    let s := if hatId ≠ s.m_HatId then { s with m_HatId := hatId, m_pressTicksHat := ticks }
             else s
    s.SetHatActive true

/-- The button bookkeeping after the device loop, `if (buttonId==-1) ... else ...`. -/
def pollSettleButton (s : CJoystick) (buttonId : Int) (ticks : Nat) : CJoystick :=
  if buttonId = -1 then
    { (({ s with m_pressTicksButton := 0 } : CJoystick).SetButtonActive false) with
      m_ButtonId := 0 }
  else
    let s := if buttonId ≠ s.m_ButtonId then
               { s with m_ButtonId := buttonId, m_pressTicksButton := ticks }
             else s
    s.SetButtonActive true

/-- `CJoystick::Update(CRetroPlayerInput *joystickHandler)`: `handler` tells whether the
pointer is non-null, `ticks` is what `SDL_GetTicks()` returns during the call, and the
samples are those of `m_Joysticks` after `SDL_JoystickUpdate()`. The result is the new
state with the snapshots passed to the handler, in order. The log lines and the static
counter that paces them are left out. -/
def Update (L : Limits) (handler : Bool) (ticks : Nat) (s : CJoystick) :
    CJoystick × List Gamepad :=
  if !s.IsEnabled then (s, [])
  else if s.m_Joysticks.length ≤ 0 then (s, [])
  else
    -- buttonId, hatId start at -1; go through all joysticks
    let r := pollLoop L handler 0 s.m_Joysticks s (-1) (-1) []
    (pollSettleButton (pollSettleHat r.1 r.2.2.1 ticks) r.2.1 ticks, r.2.2.2)

/-! ## Event mode -/

/-- The decomposition of a raw hat value in `Update(SDL_Event&)`. -/
def eventHat (value : Nat) : Hat :=
  { up := decide (value &&& SDL_HAT_UP ≠ 0)
    down := !decide (value &&& SDL_HAT_UP ≠ 0) && decide (value &&& SDL_HAT_DOWN ≠ 0)
    right := decide (value &&& SDL_HAT_RIGHT ≠ 0)
    left := !decide (value &&& SDL_HAT_RIGHT ≠ 0) && decide (value &&& SDL_HAT_LEFT ≠ 0) }

/-- `CJoystick::Update(SDL_Event& joyEvent)`: `handler` tells whether a RetroPlayer input
handler was found, `ticks` is what `SDL_GetTicks()` returns during the call. The result is
the new state with the call made on the handler, if any. The C++ indexes `m_Joysticks`
and `m_JoystickNames` unchecked: this definition agrees with it where the event names a
device of the tables, reads the axis count 0 and the empty name elsewhere, and
`UpdateEventChecked` below gives no result there. -/
def UpdateEvent (L : Limits) (handler : Bool) (ticks : Nat) (joyEvent : SDL_Event)
    (s : CJoystick) : CJoystick × Option HandlerCall :=
  if !s.IsEnabled then (s, none)
  else
    match joyEvent with
    | .JOYBUTTONDOWN which button =>
      let s := { s with m_JoyId := (which : Int), m_ButtonId := (button : Int) + 1,
                        m_pressTicksButton := ticks }
      (s.SetButtonActive true,
        if handler then
          some (.ProcessButtonDown (s.m_JoystickNames.getD which "") which button)
        else none)
    | .JOYAXISMOTION which axis value =>
      let axisId : Int := (axis : Int) + 1
      let s := { s with m_NumAxes :=
        ((s.m_Joysticks[which]?).map (fun joy => (joy.axes.length : Int))).getD 0 }
      let call :=
        if handler then
          some (HandlerCall.ProcessAxisState (s.m_JoystickNames.getD which "") which axis
            (s.NormalizeAxis value))
        else none
      if axisId ≤ 0 ∨ axisId ≥ (L.MAX_AXES : Int) then (s, call)
      else
        let s := { s with m_JoyId := (which : Int) }
        let s :=
          if value = 0 then { s with m_Amount := Function.update s.m_Amount axisId.toNat 0 }
          else { s with m_Amount := Function.update s.m_Amount axisId.toNat value }
        let r := s.GetAxisWithMaxAmount
        ({ r.1 with m_AxisId := r.2 }, call)
    | .JOYHATMOTION which hat value =>
      let s := { s with m_JoyId := (which : Int), m_HatId := (hat : Int) + 1,
                        m_pressTicksHat := ticks, m_HatState := value }
      (s.SetHatActive (decide (s.m_HatState ≠ SDL_HAT_CENTERED)),
        if handler then
          some (.ProcessHatState (s.m_JoystickNames.getD which "") which hat (eventHat value))
        else none)
    | .JOYBALLMOTION => (s, none)
    | .JOYBUTTONUP which button =>
      let s := ({ s with m_pressTicksButton := 0 } : CJoystick).SetButtonActive false
      (s,
        if handler then
          some (.ProcessButtonDown (s.m_JoystickNames.getD which "") which button)
        else none)
    | .other => (s, none)

/-! ## Queries -/

/-- `CJoystick::GetHat(id, position, consider_repeat)`: `ticks` is what `SDL_GetTicks()`
returns during the call. The result is the return value, the variables `id` and `position`
afterwards (every path assigns both), and the new state. -/
def GetHat (s : CJoystick) (ticks : Nat) (consider_repeat : Bool) :
    Bool × Int × Int × CJoystick :=
  if !s.IsEnabled || !s.IsHatActive then (false, 0, 0, s)
  else
    let position : Int := (s.m_HatState : Int)
    let id := s.m_HatId
    if !consider_repeat then (true, id, position, s)
    else if s.m_HatId ≥ 0 ∧ s.m_pressTicksHat ≠ 0 then
      -- return the id if it's the first press
      if s.hatStatics.lastPressTicks ≠ s.m_pressTicksHat then
        (true, id, position,
          { s with hatStatics := { s.hatStatics with lastPressTicks := s.m_pressTicksHat } })
      else
        let s := { s with hatStatics := { s.hatStatics with nowTicks := ticks } }
        if sub32 s.hatStatics.nowTicks s.m_pressTicksHat < 500 then (false, id, position, s)
        else if sub32 s.hatStatics.nowTicks s.hatStatics.lastTicks < 100 then
          (false, id, position, s)
        else
          (true, id, position,
            { s with hatStatics := { s.hatStatics with lastTicks := s.hatStatics.nowTicks } })
    else (true, id, position, s)

/-- `CJoystick::GetButton(id, consider_repeat)`: `id` is the value the caller's variable
holds, `ticks` is what `SDL_GetTicks()` returns during the call. The result is the return
value, the variable afterwards, and the new state. -/
def GetButton (s : CJoystick) (ticks : Nat) (id : Int) (consider_repeat : Bool) :
    Bool × Int × CJoystick :=
  if !s.IsEnabled || !s.IsButtonActive then (false, 0, s)
  else if !consider_repeat then (true, s.m_ButtonId, s)
  else if s.m_ButtonId ≥ 0 ∧ s.m_pressTicksButton ≠ 0 then
    -- return the id if it's the first press
    if s.buttonStatics.lastPressTicks ≠ s.m_pressTicksButton then
      (true, s.m_ButtonId,
        { s with buttonStatics :=
            { s.buttonStatics with lastPressTicks := s.m_pressTicksButton } })
    else
      let s := { s with buttonStatics := { s.buttonStatics with nowTicks := ticks } }
      if sub32 s.buttonStatics.nowTicks s.m_pressTicksButton < 500 then (false, id, s)
      else if sub32 s.buttonStatics.nowTicks s.buttonStatics.lastTicks < 100 then
        (false, id, s)
      else
        (true, s.m_ButtonId,
          { s with buttonStatics :=
              { s.buttonStatics with lastTicks := s.buttonStatics.nowTicks } })
  else (true, s.m_ButtonId, s)

/-- `CJoystick::GetAxis(id)`: the return value and `id` afterwards. -/
def GetAxis (s : CJoystick) : Bool × Int :=
  if !s.IsEnabled || !s.IsAxisActive then (false, 0) else (true, s.m_AxisId)

/-! ## Teardown and construction -/

/-- `CJoystick::ReleaseJoysticks`: `stopped` tells whether `SDL_WasInit` reports the
subsystem stopped after `SDL_QuitSubSystem`. -/
def ReleaseJoysticks (L : Limits) (stopped : Bool) (s : CJoystick) : CJoystick × Bool :=
  let s := { s with m_Joysticks := [], m_JoystickNames := [], m_HatId := 0, m_ButtonId := 0,
                    m_HatState := SDL_HAT_CENTERED, m_ActiveFlags := JACTIVE_NONE }
  let s := Reset L s true
  (s, stopped)

/-- `CJoystick::CJoystick()` run on the zero-initialised object: the members the
constructor does not assign (the two press timestamps, the statics of the queries, the
empty vectors) keep their initial value. -/
def ctor (L : Limits) : CJoystick :=
  let s : CJoystick :=
    { m_Amount := fun _ => 0, m_AxisId := 0, m_ButtonId := 0, m_HatId := 0, m_HatState := 0,
      m_JoyId := 0, m_NumAxes := 0, m_DeadzoneRange := 0, m_joystickEnabled := false,
      m_pressTicksButton := 0, m_pressTicksHat := 0, m_ActiveFlags := JACTIVE_NONE,
      m_Joysticks := [], m_JoystickNames := [], hatStatics := ⟨0, 0, 0⟩,
      buttonStatics := ⟨0, 0, 0⟩ }
  let s := Reset L s true
  let s := { s with m_joystickEnabled := false, m_NumAxes := 0, m_AxisId := 0, m_JoyId := 0,
                    m_ButtonId := 0, m_HatId := 0, m_HatState := SDL_HAT_CENTERED,
                    m_ActiveFlags := JACTIVE_NONE }
  (s.SetDeadzone 0).1

end CJoystick

/-! ## States used as concrete inputs -/

/-- An enabled joystick with nothing active, no devices, and the deadzone threshold that
`SetDeadzone(0.1)` stores. -/
def idle : CJoystick :=
  { m_Amount := fun _ => 0, m_AxisId := 0, m_ButtonId := 0, m_HatId := 0, m_HatState := 0,
    m_JoyId := 0, m_NumAxes := 0, m_DeadzoneRange := 3276, m_joystickEnabled := true,
    m_pressTicksButton := 0, m_pressTicksHat := 0, m_ActiveFlags := JACTIVE_NONE,
    m_Joysticks := [], m_JoystickNames := [], hatStatics := ⟨0, 0, 0⟩,
    buttonStatics := ⟨0, 0, 0⟩ }

/-- A device with its first axis pushed far beyond the threshold and no button pressed. -/
def axisPad : SDL_Joystick :=
  { index := 0, buttons := [false, false], hats := [0], axes := [20000, 0] }

/-- A device with its second button pressed and both axes at rest. -/
def buttonPad : SDL_Joystick :=
  { index := 1, buttons := [false, true], hats := [0], axes := [0, 0] }

/-- Two open devices, the one with the deflected axis first in the table. -/
def axisPadFirst : CJoystick :=
  { idle with m_Joysticks := [axisPad, buttonPad], m_JoystickNames := ["a", "b"] }

/-- Two open devices, the one with the pressed button first in the table. -/
def buttonPadFirst : CJoystick :=
  { idle with m_Joysticks := [buttonPad, axisPad], m_JoystickNames := ["b", "a"] }

/-! ## Runs of queries and the repeat schedule -/

/-- The return values of successive calls `GetButton(id, true)` made at the ticks of the
list, each call starting from the state and the variable `id` the call before left. -/
def buttonQueries (s : CJoystick) (id : Int) : List Nat → List Bool
  | [] => []
  | t :: ts => (s.GetButton t id true).1 ::
      buttonQueries (s.GetButton t id true).2.2 (s.GetButton t id true).2.1 ts

/-- The return values of successive calls `GetHat(id, position, true)` made at the ticks
of the list. -/
def hatQueries (s : CJoystick) : List Nat → List Bool
  | [] => []
  | t :: ts => (s.GetHat t true).1 :: hatQueries (s.GetHat t true).2.2.2 ts

/-- The repeat schedule in the words of the spec, for a press at tick `p` whose first
query has been answered: a query at tick `t` is suppressed while `t - p < 500`; the first
query after that is answered, and each later one is answered exactly when at least 100
ticks have passed since `last`, the tick of the last answered one. -/
def repeatSchedule (p : Nat) : Option Nat → List Nat → List Bool
  | _, [] => []
  | last, t :: ts =>
    if t - p < 500 then false :: repeatSchedule p last ts
    else
      match last with
      | none => true :: repeatSchedule p (some t) ts
      | some l =>
        if 100 ≤ t - l then true :: repeatSchedule p (some t) ts
        else false :: repeatSchedule p (some l) ts

/-- A button held since tick `p ≠ 0` whose first query has been answered; `last` is the
tick of the last query answered after the delay, and `none` stands for no such query yet,
the static `lastTicks` then being left from before the press. -/
def buttonHeld (p : Nat) (last : Option Nat) (s : CJoystick) : Prop :=
  s.IsEnabled = true ∧ s.IsButtonActive = true ∧ 0 ≤ s.m_ButtonId ∧ p ≠ 0 ∧
    s.m_pressTicksButton = p ∧ s.buttonStatics.lastPressTicks = p ∧
    match last with
    | none => s.buttonStatics.lastTicks ≤ p
    | some l => s.buttonStatics.lastTicks = l ∧ p + 500 ≤ l

/-- A hat held off centre since tick `p ≠ 0` whose first query has been answered; `last`
is as for `buttonHeld`. -/
def hatHeld (p : Nat) (last : Option Nat) (s : CJoystick) : Prop :=
  s.IsEnabled = true ∧ s.IsHatActive = true ∧ 0 ≤ s.m_HatId ∧ p ≠ 0 ∧
    s.m_pressTicksHat = p ∧ s.hatStatics.lastPressTicks = p ∧
    match last with
    | none => s.hatStatics.lastTicks ≤ p
    | some l => s.hatStatics.lastTicks = l ∧ p + 500 ≤ l

/-- A button pressed at tick `p ≠ 0` whose first query is still to come: the press
timestamp differs from the one recorded at the last first-press answer, and the static
`lastTicks` is left from before the press. -/
def buttonPressed (p : Nat) (s : CJoystick) : Prop :=
  s.IsEnabled = true ∧ s.IsButtonActive = true ∧ 0 ≤ s.m_ButtonId ∧ p ≠ 0 ∧
    s.m_pressTicksButton = p ∧ s.buttonStatics.lastPressTicks ≠ p ∧
    s.buttonStatics.lastTicks ≤ p

/-- A hat pushed off centre at tick `p ≠ 0` whose first query is still to come. -/
def hatPressed (p : Nat) (s : CJoystick) : Prop :=
  s.IsEnabled = true ∧ s.IsHatActive = true ∧ 0 ≤ s.m_HatId ∧ p ≠ 0 ∧
    s.m_pressTicksHat = p ∧ s.hatStatics.lastPressTicks ≠ p ∧ s.hatStatics.lastTicks ≤ p

/-- The ticks of a run of queries: they do not decrease, none is before the press at `p`
or before `last`, and all are values of the 32-bit tick counter. -/
def ticksFrom (p : Nat) (last : Option Nat) (ts : List Nat) : Prop :=
  ts.Pairwise (· ≤ ·) ∧ ∀ t ∈ ts, p ≤ t ∧ t < UINT32 ∧ ∀ l, last = some l → l ≤ t

/-- The first button held since tick 1000, its first query answered. -/
def heldButton : CJoystick :=
  { idle with m_ButtonId := 1, m_pressTicksButton := 1000,
              m_ActiveFlags := { button := true, hat := false, axis := false },
              buttonStatics := { lastPressTicks := 1000, lastTicks := 0, nowTicks := 1000 } }

/-- The first hat held up since tick 1000, its first query answered. -/
def heldHat : CJoystick :=
  { idle with m_HatId := 1, m_HatState := SDL_HAT_UP, m_pressTicksHat := 1000,
              m_ActiveFlags := { button := false, hat := true, axis := false },
              hatStatics := { lastPressTicks := 1000, lastTicks := 0, nowTicks := 1000 } }

/-- One choice of the header constants, used where a concrete input is needed. -/
def sampleLimits : Limits :=
  { MAX_AXES := 64, gamepadButtons := 32, gamepadHats := 4, gamepadAxes := 6 }

/-- Event mode: button 0 goes down at tick 1000 and the first query is made at once. -/
def pressedAndQueried : CJoystick :=
  ((CJoystick.UpdateEvent sampleLimits false 1000 (.JOYBUTTONDOWN 0 0) idle).1.GetButton
    1000 0 true).2.2

/-- Then button 0 goes up and button 1 goes down, both within the same millisecond. -/
def pressedAgain : CJoystick :=
  (CJoystick.UpdateEvent sampleLimits false 1000 (.JOYBUTTONDOWN 0 1)
    (CJoystick.UpdateEvent sampleLimits false 1000 (.JOYBUTTONUP 0 0) pressedAndQueried).1).1

/-- Event mode: hat 0 goes up at tick 1000 and the first query is made at once. -/
def hatPushedAndQueried : CJoystick :=
  ((CJoystick.UpdateEvent sampleLimits false 1000 (.JOYHATMOTION 0 0 SDL_HAT_UP) idle).1.GetHat
    1000 true).2.2.2

/-- Then the hat is centred and pushed right, both within the same millisecond. -/
def hatPushedAgain : CJoystick :=
  (CJoystick.UpdateEvent sampleLimits false 1000 (.JOYHATMOTION 0 0 SDL_HAT_RIGHT)
    (CJoystick.UpdateEvent sampleLimits false 1000 (.JOYHATMOTION 0 0 SDL_HAT_CENTERED)
      hatPushedAndQueried).1).1

/-- A device that shows no activity under threshold `d`: no button pressed, every hat
centred, fewer than `MAX_AXES` axes and no axis sample beyond the threshold. -/
def quiet (L : Limits) (d : Int) (joy : SDL_Joystick) : Prop :=
  (∀ b ∈ joy.buttons, b = false) ∧ (∀ h ∈ joy.hats, h = SDL_HAT_CENTERED) ∧
    joy.axes.length < L.MAX_AXES ∧ ∀ a ∈ joy.axes, CJoystick.cabs a ≤ d

/-- The members a polling pass over the devices leaves alone. -/
def sameSettings (s t : CJoystick) : Prop :=
  t.m_DeadzoneRange = s.m_DeadzoneRange ∧ t.m_ButtonId = s.m_ButtonId ∧
    t.m_HatId = s.m_HatId ∧ t.m_joystickEnabled = s.m_joystickEnabled ∧
    t.m_pressTicksButton = s.m_pressTicksButton ∧ t.m_pressTicksHat = s.m_pressTicksHat ∧
    t.m_ActiveFlags.button = s.m_ActiveFlags.button ∧
    t.m_ActiveFlags.hat = s.m_ActiveFlags.hat ∧
    t.hatStatics = s.hatStatics ∧ t.buttonStatics = s.buttonStatics ∧
    t.m_Joysticks = s.m_Joysticks ∧ t.m_JoystickNames = s.m_JoystickNames

/-! ## Acquisition, and runs of calls -/

namespace CJoystick

/-- What a device that failed to open stands for in the table: the SDL library answers
every question about a null handle with no buttons, hats or axes and the index -1. -/
def nullJoystick : SDL_Joystick := { index := -1, buttons := [], hats := [], axes := [] }

/-- `CJoystick::Initialize`: `initOk` tells whether `SDL_InitSubSystem` succeeded,
`deadzone` is `g_advancedSettings.m_controllerDeadzone`, and `opened` gives, for every
connected device that is not skipped, what `SDL_JoystickOpen` returned (`none` for a null
handle) with the name the SDL library reports. -/
def Initialize (initOk : Bool) (deadzone : ℚ) (opened : List (Option SDL_Joystick × String))
    (s : CJoystick) : CJoystick :=
  if !s.IsEnabled then s
  else if !initOk then s
  else
    -- clear old joystick names
    let s := { s with m_JoystickNames := [] }
    -- any open ones? if so, close them.
    let s := if s.m_Joysticks.length > 0 then { s with m_Joysticks := [], m_JoyId := -1 } else s
    -- Set deadzone range
    let s := (s.SetDeadzone deadzone).1
    -- load joystick names and open all connected joysticks
    { s with
      m_Joysticks := s.m_Joysticks ++ opened.map (fun d => d.1.getD nullJoystick)
      m_JoystickNames := s.m_JoystickNames ++ opened.map (fun d => if d.1.isSome then d.2 else "") }

/-- `CJoystick::SetEnabled`; the arguments after `enabled` are those of `Initialize` and of
`ReleaseJoysticks`. -/
def SetEnabled (L : Limits) (enabled : Bool) (initOk : Bool) (deadzone : ℚ)
    (opened : List (Option SDL_Joystick × String)) (stopped : Bool) (s : CJoystick) :
    CJoystick :=
  if enabled && !s.m_joystickEnabled then
    Initialize initOk deadzone opened { s with m_joystickEnabled := true }
  else if !enabled && s.m_joystickEnabled then
    { (ReleaseJoysticks L stopped s).1 with m_joystickEnabled := false }
  else s

/-- `CJoystick::Reinitialize`: the new state and the value returned. -/
def Reinitialize (L : Limits) (initOk : Bool) (deadzone : ℚ)
    (opened : List (Option SDL_Joystick × String)) (stopped : Bool) (s : CJoystick) :
    CJoystick × Bool :=
  if !(ReleaseJoysticks L stopped s).2 then ((ReleaseJoysticks L stopped s).1, false)
  else (Initialize initOk deadzone opened (ReleaseJoysticks L stopped s).1, true)

/-- `SDL_JoystickUpdate()`: the open devices show new samples; `samples` lists them in
table order. -/
def refresh (samples : List SDL_Joystick) (s : CJoystick) : CJoystick :=
  if samples.length = s.m_Joysticks.length then { s with m_Joysticks := samples } else s

end CJoystick

/-- One call on the joystick object, with what the environment hands over during it. -/
inductive Action where
  | poll (handler : Bool) (ticks : Nat) (samples : List SDL_Joystick)
  | event (handler : Bool) (ticks : Nat) (joyEvent : SDL_Event)
  | getButton (ticks : Nat) (id : Int) (consider_repeat : Bool)
  | getHat (ticks : Nat) (consider_repeat : Bool)
  | setDeadzone (val : ℚ)
  | setEnabled (enabled initOk : Bool) (deadzone : ℚ)
      (opened : List (Option SDL_Joystick × String)) (stopped : Bool)
  | acquire (initOk : Bool) (deadzone : ℚ) (opened : List (Option SDL_Joystick × String))
  | release (stopped : Bool)
  | reacquire (initOk : Bool) (deadzone : ℚ)
      (opened : List (Option SDL_Joystick × String)) (stopped : Bool)

/-- The state after one call. -/
def perform (L : Limits) (s : CJoystick) : Action → CJoystick
  | .poll handler ticks samples => (CJoystick.Update L handler ticks (s.refresh samples)).1
  | .event handler ticks joyEvent => (CJoystick.UpdateEvent L handler ticks joyEvent s).1
  | .getButton ticks id consider_repeat => (s.GetButton ticks id consider_repeat).2.2
  | .getHat ticks consider_repeat => (s.GetHat ticks consider_repeat).2.2.2
  | .setDeadzone val => (s.SetDeadzone val).1
  | .setEnabled enabled initOk deadzone opened stopped =>
    CJoystick.SetEnabled L enabled initOk deadzone opened stopped s
  | .acquire initOk deadzone opened => CJoystick.Initialize initOk deadzone opened s
  | .release stopped => (CJoystick.ReleaseJoysticks L stopped s).1
  | .reacquire initOk deadzone opened stopped =>
    (CJoystick.Reinitialize L initOk deadzone opened stopped s).1

/-- The state after a sequence of calls. -/
def run (L : Limits) (s : CJoystick) (acts : List Action) : CJoystick :=
  acts.foldl (perform L) s

/-- A polling tick or a discrete event. -/
def Action.isInput : Action → Bool
  | .poll _ _ _ => true
  | .event _ _ _ => true
  | _ => false

/-- The neutral state of the arbitration: nothing active and both press timestamps 0. -/
def neutral (s : CJoystick) : Prop :=
  s.m_ActiveFlags = JACTIVE_NONE ∧ s.m_pressTicksButton = 0 ∧ s.m_pressTicksHat = 0

/-- A state the object can be in: the constructed object after some sequence of calls. -/
def Reachable (L : Limits) (s : CJoystick) : Prop :=
  ∃ acts : List Action, run L (CJoystick.ctor L) acts = s

/-- The second button held since tick 1000 on the one open device, its first query answered;
the device still reports that button pressed. -/
def secondButtonHeld : CJoystick :=
  { heldButton with m_ButtonId := 2, m_Joysticks := [buttonPad], m_JoystickNames := ["b"] }

/-- The first button held since tick 1000, while the device now reports only its second
button pressed. -/
def buttonSwitched : CJoystick :=
  { heldButton with m_Joysticks := [buttonPad], m_JoystickNames := ["b"] }

/-- A device with its first hat pushed up. -/
def hatPad : SDL_Joystick :=
  { index := 0, buttons := [false], hats := [0, SDL_HAT_UP], axes := [] }

/-- The first hat held since tick 1000, while the device now reports only its second hat
off centre. -/
def hatSwitched : CJoystick :=
  { heldHat with m_Joysticks := [hatPad], m_JoystickNames := ["h"] }

/-- The first hat of device 0 pushed up at tick 1000 and let go at tick 1200, both reported
as events. -/
def hatTapped : List Action :=
  [.event false 1000 (.JOYHATMOTION 0 0 SDL_HAT_UP),
   .event false 1200 (.JOYHATMOTION 0 0 SDL_HAT_CENTERED)]

/-- The calls that enable the joystick with one device found and then poll it while its
second hat is pushed up. -/
def enableAndPush : List Action :=
  [.setEnabled true true 0 [(some hatPad, "h")] true, .poll false 1000 [hatPad]]

/-- The state of the constructed object after `enableAndPush`. -/
def pushedAfterEnable : CJoystick :=
  run sampleLimits (CJoystick.ctor sampleLimits) enableAndPush

/-- Three axes known, the first at 5000, the second at -20000, the third at 20000. -/
def threeAxes : CJoystick :=
  { idle with m_NumAxes := 3,
              m_Amount := fun i =>
                if i = 1 then 5000 else if i = 2 then -20000 else if i = 3 then 20000 else 0 }

namespace CJoystick

/-- The indices at which the loop `for (int i = 1; i <= m_NumAxes; i++)` of
`GetAxisWithMaxAmount` reads `m_Amount[i]`, in order. -/
def axisScanReads (s : CJoystick) : List Nat := List.range' 1 s.m_NumAxes.toNat

/-- The indices the scan reads in the axis part of one device of a polling pass: the scan
runs after `m_NumAxes = numax`, with `numax` clamped to `MAX_AXES`. -/
def pollAxesReads (L : Limits) (joy : SDL_Joystick) (s : CJoystick) : List Nat :=
  let numax := if joy.axes.length > L.MAX_AXES then L.MAX_AXES else joy.axes.length
  axisScanReads { s with m_NumAxes := (numax : Int) }

/-- The indices the scan reads during an axis-motion event for the zero-based axis `axis`
of device `which`: none when the axis id is out of range, otherwise the scan runs after
`m_NumAxes = SDL_JoystickNumAxes(m_Joysticks[joyId])`. -/
def eventAxisReads (L : Limits) (which axis : Nat) (s : CJoystick) : List Nat :=
  let axisId : Int := (axis : Int) + 1
  if axisId ≤ 0 ∨ axisId ≥ (L.MAX_AXES : Int) then []
  else
    axisScanReads { s with m_NumAxes :=
      ((s.m_Joysticks[which]?).map (fun joy => (joy.axes.length : Int))).getD 0 }

end CJoystick

/-- A device that reports 64 axes, all at rest, and nothing else. -/
def wideJoy : SDL_Joystick :=
  { index := 0, buttons := [], hats := [], axes := List.replicate 64 0 }

/-- The enabled joystick with `wideJoy` as its one open device. -/
def widePad : CJoystick :=
  { idle with m_Joysticks := [wideJoy], m_JoystickNames := ["w"] }

/-! ## The bounds of the vectors and of `m_Amount`

`UpdateEvent` and `GetAxisWithMaxAmount` above give a value to every input; the C++ indexes
`m_Joysticks`, `m_JoystickNames` and `m_Amount` unchecked. The definitions below tell where
every such access is within bounds, and give no result elsewhere. -/

namespace CJoystick

/-- Whether every index the loop of `GetAxisWithMaxAmount` reads lies in the array
`int m_Amount[MAX_AXES]`. -/
def scanInBounds (L : Limits) (s : CJoystick) : Bool :=
  (axisScanReads s).all (fun i => decide (i < L.MAX_AXES))

/-- `CJoystick::GetAxisWithMaxAmount` on the array `int m_Amount[MAX_AXES]`: the result of
the call when every read is within the array, and `none` when the loop reads past its end,
where the C++ has no defined result. -/
def GetAxisWithMaxAmountChecked (L : Limits) (s : CJoystick) : Option (CJoystick × Int) :=
  if scanInBounds L s then some s.GetAxisWithMaxAmount else none

/-- Whether every unchecked access of `Update(SDL_Event&)` is within bounds, for an enabled
joystick: `m_JoystickNames[which]` where a handler is called, `m_Joysticks[joyId]` for an
axis event, and the reads of the scan when the axis id is in range. -/
def eventInBounds (L : Limits) (handler : Bool) (joyEvent : SDL_Event) (s : CJoystick) :
    Bool :=
  match joyEvent with
  | .JOYBUTTONDOWN which _ => !handler || decide (which < s.m_JoystickNames.length)
  | .JOYAXISMOTION which axis _ =>
    decide (which < s.m_Joysticks.length) &&
      (!handler || decide (which < s.m_JoystickNames.length)) &&
      (eventAxisReads L which axis s).all (fun i => decide (i < L.MAX_AXES))
  | .JOYHATMOTION which _ _ => !handler || decide (which < s.m_JoystickNames.length)
  | .JOYBALLMOTION => true
  | .JOYBUTTONUP which _ => !handler || decide (which < s.m_JoystickNames.length)
  | .other => true

/-- `CJoystick::Update(SDL_Event& joyEvent)` with the bounds made explicit: the result of
the call when the joystick is disabled (the call returns at once) or every access is within
bounds, and `none` otherwise, where the C++ has no defined result. -/
def UpdateEventChecked (L : Limits) (handler : Bool) (ticks : Nat) (joyEvent : SDL_Event)
    (s : CJoystick) : Option (CJoystick × Option HandlerCall) :=
  if !s.IsEnabled then some (s, none)
  else if eventInBounds L handler joyEvent s then some (UpdateEvent L handler ticks joyEvent s)
  else none

end CJoystick

/-- The enabled joystick with an empty table and 64 as the stored axis count, every sample
at rest. -/
def wideScan : CJoystick := { idle with m_NumAxes := 64 }

/-! ## Theorems: the axis normalizer -/

theorem truncate_of_nonneg (q : ℚ) (h : 0 ≤ q) : CJoystick.truncate q = ⌊q⌋ := by
  simp [CJoystick.truncate, h]

/-- The threshold stored by `SetDeadzone` lies between 0 and `MAX_AXISAMOUNT`. -/
theorem setDeadzone_threshold_range (s : CJoystick) (v : ℚ) :
    0 ≤ (s.SetDeadzone v).1.m_DeadzoneRange ∧
      (s.SetDeadzone v).1.m_DeadzoneRange ≤ MAX_AXISAMOUNT := by
  simp only [CJoystick.SetDeadzone, MAX_AXISAMOUNT]
  have key : ∀ w : ℚ, 0 ≤ w → w ≤ 1 →
      0 ≤ CJoystick.truncate (w * ((32768 : Int) : ℚ)) ∧
        CJoystick.truncate (w * ((32768 : Int) : ℚ)) ≤ 32768 := by
    intro w h0 h1
    have hq : (0 : ℚ) ≤ w * ((32768 : Int) : ℚ) := by push_cast; positivity
    rw [truncate_of_nonneg _ hq]
    refine ⟨Int.floor_nonneg.mpr hq, ?_⟩
    have h2 : ((⌊w * ((32768 : Int) : ℚ)⌋ : Int) : ℚ) ≤ 32768 := by
      refine le_trans (Int.floor_le _) ?_
      push_cast; nlinarith
    exact_mod_cast h2
  by_cases h0 : v < 0
  · simpa [h0] using key 0 le_rfl zero_le_one
  · by_cases h1 : v > 1
    · simpa [h0, h1] using key 1 zero_le_one le_rfl
    · simpa [h0, h1] using key v (not_lt.mp h0) (not_lt.mp h1)

/-- The divisor of `NormalizeAxis` is positive whenever the threshold is below
`MAX_AXISAMOUNT`. -/
theorem divisor_pos (s : CJoystick) (h : s.m_DeadzoneRange < MAX_AXISAMOUNT) :
    (0 : ℚ) < ((MAX_AXISAMOUNT - s.m_DeadzoneRange : Int) : ℚ) := by
  exact_mod_cast (by omega : (0 : Int) < MAX_AXISAMOUNT - s.m_DeadzoneRange)

/-- Above the threshold `NormalizeAxis` is the first quotient. -/
theorem normalizeAxis_above (s : CJoystick) (r : Int) (h : r > s.m_DeadzoneRange) :
    s.NormalizeAxis r =
      ((r - s.m_DeadzoneRange : Int) : ℚ) / ((MAX_AXISAMOUNT - s.m_DeadzoneRange : Int) : ℚ) := by
  unfold CJoystick.NormalizeAxis
  rw [if_pos h]

/-- Below the negated threshold `NormalizeAxis` is the second quotient. -/
theorem normalizeAxis_below (s : CJoystick) (r : Int) (hd : 0 ≤ s.m_DeadzoneRange)
    (h : r < -s.m_DeadzoneRange) :
    s.NormalizeAxis r =
      ((r + s.m_DeadzoneRange : Int) : ℚ) / ((MAX_AXISAMOUNT - s.m_DeadzoneRange : Int) : ℚ) := by
  unfold CJoystick.NormalizeAxis
  rw [if_neg (by omega), if_pos h]

/-- Inside the deadzone `NormalizeAxis` is 0. -/
theorem normalizeAxis_inside (s : CJoystick) (r : Int) (h1 : r ≤ s.m_DeadzoneRange)
    (h2 : -s.m_DeadzoneRange ≤ r) : s.NormalizeAxis r = 0 := by
  unfold CJoystick.NormalizeAxis
  rw [if_neg (by omega), if_neg (by omega)]

/-- Every 16-bit sample normalizes into `[-1, 1]` for a threshold in `[0, MAX_AXISAMOUNT]`. -/
theorem normalizeAxis_mem_unit (s : CJoystick) (r : Int) (hd0 : 0 ≤ s.m_DeadzoneRange)
    (hdM : s.m_DeadzoneRange ≤ MAX_AXISAMOUNT) (hlo : -32768 ≤ r) (hhi : r ≤ 32767) :
    -1 ≤ s.NormalizeAxis r ∧ s.NormalizeAxis r ≤ 1 := by
  have hM : MAX_AXISAMOUNT = 32768 := rfl
  by_cases h1 : r > s.m_DeadzoneRange
  · have hpos := divisor_pos s (by omega)
    rw [normalizeAxis_above s r h1]
    constructor
    · rw [le_div_iff₀ hpos]
      exact_mod_cast
        (by omega : (-1 : Int) * (MAX_AXISAMOUNT - s.m_DeadzoneRange) ≤ r - s.m_DeadzoneRange)
    · rw [div_le_one hpos]
      exact_mod_cast (by omega : r - s.m_DeadzoneRange ≤ MAX_AXISAMOUNT - s.m_DeadzoneRange)
  · by_cases h2 : r < -s.m_DeadzoneRange
    · have hpos := divisor_pos s (by omega)
      rw [normalizeAxis_below s r hd0 h2]
      constructor
      · rw [le_div_iff₀ hpos]
        exact_mod_cast
          (by omega : (-1 : Int) * (MAX_AXISAMOUNT - s.m_DeadzoneRange) ≤ r + s.m_DeadzoneRange)
      · rw [div_le_one hpos]
        exact_mod_cast (by omega : r + s.m_DeadzoneRange ≤ MAX_AXISAMOUNT - s.m_DeadzoneRange)
    · rw [normalizeAxis_inside s r (by omega) (by omega)]
      norm_num

/-- The call an axis-motion event makes on the handler: the normalized value. -/
theorem updateEvent_axis_call (L : Limits) (handler : Bool) (ticks which axis : Nat)
    (value : Int) (s : CJoystick) (hen : s.IsEnabled = true) :
    (CJoystick.UpdateEvent L handler ticks (.JOYAXISMOTION which axis value) s).2 =
      if handler then
        some (.ProcessAxisState (s.m_JoystickNames.getD which "") which axis
          (s.NormalizeAxis value))
      else none := by
  simp only [CJoystick.UpdateEvent, hen, Bool.not_true, Bool.false_eq_true, if_false]
  split_ifs <;> rfl

/-- Claim C4 (deadzone rejection): for every threshold `d ≥ 0` and every raw integer
sample `r` with `|r| ≤ d`, `NormalizeAxis(r)` is exactly 0. -/
theorem deadzone_rejection (s : CJoystick) (r : Int) (_hd : 0 ≤ s.m_DeadzoneRange)
    (hr : |r| ≤ s.m_DeadzoneRange) : s.NormalizeAxis r = 0 := by
  have h := abs_le.mp hr
  exact normalizeAxis_inside s r h.2 h.1

/-- At threshold 3276 the raw sample 3000 normalizes to 0. -/
theorem deadzone_rejection_witness : idle.NormalizeAxis 3000 = 0 :=
  deadzone_rejection idle 3000 (by decide) (by decide)

/-- Claim C5 (bounded output): for every threshold in `[0, MAX_AXISAMOUNT]` and every raw
sample in `-32768..32767`, `NormalizeAxis` lies in `[-1, 1]` and the divisor is not zero
on either branch that divides; hence `GetAmount` of a stored 16-bit sample, every axis
value of a polling snapshot and the value handed to `ProcessAxisState` lie in `[-1, 1]`. -/
theorem normalizeAxis_bounded (L : Limits) (s : CJoystick) (hd0 : 0 ≤ s.m_DeadzoneRange)
    (hdM : s.m_DeadzoneRange ≤ MAX_AXISAMOUNT) :
    (∀ r : Int, -32768 ≤ r → r ≤ 32767 →
      (-1 ≤ s.NormalizeAxis r ∧ s.NormalizeAxis r ≤ 1) ∧
      ((r > s.m_DeadzoneRange ∨ r < -s.m_DeadzoneRange) →
        ((MAX_AXISAMOUNT - s.m_DeadzoneRange : Int) : ℚ) ≠ 0)) ∧
    (∀ axis : Nat, -32768 ≤ s.m_Amount axis → s.m_Amount axis ≤ 32767 →
      -1 ≤ s.GetAmount axis ∧ s.GetAmount axis ≤ 1) ∧
    (∀ (j : Nat) (joy : SDL_Joystick) (numax : Nat),
      (∀ a ∈ joy.axes, -32768 ≤ a ∧ a ≤ 32767) →
      ∀ q ∈ (CJoystick.pollGamepad L s j joy numax).axes, -1 ≤ q ∧ q ≤ 1) ∧
    (∀ (handler : Bool) (ticks which axis : Nat) (value : Int) (name : String) (w a : Nat)
      (q : ℚ), -32768 ≤ value → value ≤ 32767 →
      (CJoystick.UpdateEvent L handler ticks (.JOYAXISMOTION which axis value) s).2 =
        some (.ProcessAxisState name w a q) → -1 ≤ q ∧ q ≤ 1) := by
  have hM : MAX_AXISAMOUNT = 32768 := rfl
  refine ⟨?_, ?_, ?_, ?_⟩
  · intro r hlo hhi
    refine ⟨normalizeAxis_mem_unit s r hd0 hdM hlo hhi, ?_⟩
    intro hbr
    exact ne_of_gt (divisor_pos s (by omega))
  · intro axis hlo hhi
    exact normalizeAxis_mem_unit s _ hd0 hdM hlo hhi
  · intro j joy numax hax q hq
    simp only [CJoystick.pollGamepad, List.mem_map] at hq
    obtain ⟨a, ha, rfl⟩ := hq
    have := hax a (List.mem_of_mem_take ha)
    exact normalizeAxis_mem_unit s a hd0 hdM this.1 this.2
  · intro handler ticks which axis value name w a q hlo hhi hcall
    by_cases hen : s.IsEnabled = true
    · rw [updateEvent_axis_call L handler ticks which axis value s hen] at hcall
      cases handler
      · simp at hcall
      · simp only [if_true, Option.some.injEq, HandlerCall.ProcessAxisState.injEq] at hcall
        rw [← hcall.2.2.2]
        exact normalizeAxis_mem_unit s value hd0 hdM hlo hhi
    · have hdis : (CJoystick.UpdateEvent L handler ticks (.JOYAXISMOTION which axis value) s).2
          = none := by
        simp [CJoystick.UpdateEvent, hen]
      rw [hdis] at hcall
      exact absurd hcall (by simp)

/-- At threshold 3276 the bounds hold, e.g. for the extreme sample -32768. -/
theorem normalizeAxis_bounded_witness :
    -1 ≤ idle.NormalizeAxis (-32768) ∧ idle.NormalizeAxis (-32768) ≤ 1 :=
  ((normalizeAxis_bounded sampleLimits idle (by decide) (by decide)).1 (-32768)
    (by decide) (by decide)).1

/-- Claim C6, as stated, fails: after `SetDeadzone(1)` the threshold is `MAX_AXISAMOUNT`
itself, and both `MAX_AXISAMOUNT` and `-MAX_AXISAMOUNT` normalize to 0, not to 1 and -1. -/
theorem full_scale_fails_at_full_deadzone :
    (idle.SetDeadzone 1).1.m_DeadzoneRange = MAX_AXISAMOUNT ∧
    (idle.SetDeadzone 1).1.NormalizeAxis MAX_AXISAMOUNT = 0 ∧
    (idle.SetDeadzone 1).1.NormalizeAxis (-MAX_AXISAMOUNT) = 0 ∧
    (idle.SetDeadzone 1).1.NormalizeAxis MAX_AXISAMOUNT ≠ 1 ∧
    (idle.SetDeadzone 1).1.NormalizeAxis (-MAX_AXISAMOUNT) ≠ -1 := by
  have hd : (idle.SetDeadzone 1).1.m_DeadzoneRange = MAX_AXISAMOUNT := by
    norm_num [CJoystick.SetDeadzone, CJoystick.truncate, MAX_AXISAMOUNT]
  have hM : MAX_AXISAMOUNT = 32768 := rfl
  have h1 : (idle.SetDeadzone 1).1.NormalizeAxis MAX_AXISAMOUNT = 0 :=
    normalizeAxis_inside _ _ (by omega) (by omega)
  have h2 : (idle.SetDeadzone 1).1.NormalizeAxis (-MAX_AXISAMOUNT) = 0 :=
    normalizeAxis_inside _ _ (by omega) (by omega)
  refine ⟨hd, h1, h2, ?_, ?_⟩
  · rw [h1]; norm_num
  · rw [h2]; norm_num

/-- Claim C6 (full-scale mapping), amended: for every threshold `d` with
`0 ≤ d < MAX_AXISAMOUNT`, `NormalizeAxis(MAX_AXISAMOUNT) = 1` and
`NormalizeAxis(-MAX_AXISAMOUNT) = -1`. -/
theorem full_scale_mapping (s : CJoystick) (hd0 : 0 ≤ s.m_DeadzoneRange)
    (hdM : s.m_DeadzoneRange < MAX_AXISAMOUNT) :
    s.NormalizeAxis MAX_AXISAMOUNT = 1 ∧ s.NormalizeAxis (-MAX_AXISAMOUNT) = -1 := by
  have hpos := divisor_pos s hdM
  constructor
  · rw [normalizeAxis_above s _ hdM]
    exact div_self (ne_of_gt hpos)
  · rw [normalizeAxis_below s _ hd0 (by omega)]
    rw [div_eq_iff (ne_of_gt hpos)]
    push_cast
    ring

/-- At threshold 3276 the two full-scale values map to 1 and -1. -/
theorem full_scale_mapping_witness :
    idle.NormalizeAxis MAX_AXISAMOUNT = 1 ∧ idle.NormalizeAxis (-MAX_AXISAMOUNT) = -1 :=
  full_scale_mapping idle (by decide) (by decide)

/-- For a threshold in `[0, MAX_AXISAMOUNT)` the one raw value that `NormalizeAxis` maps
to exactly 1 is `MAX_AXISAMOUNT`, whatever the value of the macro. -/
theorem normalizeAxis_eq_one_iff (s : CJoystick) (r : Int) (hd0 : 0 ≤ s.m_DeadzoneRange)
    (hdM : s.m_DeadzoneRange < MAX_AXISAMOUNT) :
    s.NormalizeAxis r = 1 ↔ r = MAX_AXISAMOUNT := by
  have hpos := divisor_pos s hdM
  constructor
  · intro h
    by_cases h1 : r > s.m_DeadzoneRange
    · rw [normalizeAxis_above s r h1, div_eq_one_iff_eq (ne_of_gt hpos)] at h
      have h2 : r - s.m_DeadzoneRange = MAX_AXISAMOUNT - s.m_DeadzoneRange := by
        exact_mod_cast h
      omega
    · by_cases h2 : r < -s.m_DeadzoneRange
      · rw [normalizeAxis_below s r hd0 h2, div_eq_one_iff_eq (ne_of_gt hpos)] at h
        have h3 : r + s.m_DeadzoneRange = MAX_AXISAMOUNT - s.m_DeadzoneRange := by
          exact_mod_cast h
        omega
      · rw [normalizeAxis_inside s r (by omega) (by omega)] at h
        exact absurd h (by norm_num)
  · intro h
    rw [h]
    rw [normalizeAxis_above s _ hdM]
    exact div_self (ne_of_gt hpos)

/-- Claim C8 (sign preservation): for every threshold in `[0, MAX_AXISAMOUNT]` and every
raw sample `r` in `-32768..32767` with `|r| > d`, `NormalizeAxis(r)` is strictly positive
when `r > 0` and strictly negative when `r < 0`. -/
theorem sign_preservation (s : CJoystick) (r : Int) (hd0 : 0 ≤ s.m_DeadzoneRange)
    (_hdM : s.m_DeadzoneRange ≤ MAX_AXISAMOUNT) (hlo : -32768 ≤ r) (hhi : r ≤ 32767)
    (hr : |r| > s.m_DeadzoneRange) :
    (r > 0 → 0 < s.NormalizeAxis r) ∧ (r < 0 → s.NormalizeAxis r < 0) := by
  have hM : MAX_AXISAMOUNT = 32768 := rfl
  constructor
  · intro hpos
    rw [abs_of_pos hpos] at hr
    rw [normalizeAxis_above s r hr]
    apply div_pos
    · exact_mod_cast (by omega : (0 : Int) < r - s.m_DeadzoneRange)
    · exact divisor_pos s (by omega)
  · intro hneg
    rw [abs_of_neg hneg] at hr
    rw [normalizeAxis_below s r hd0 (by omega)]
    apply div_neg_of_neg_of_pos
    · exact_mod_cast (by omega : r + s.m_DeadzoneRange < (0 : Int))
    · exact divisor_pos s (by omega)

/-- At threshold 3276 the sample -20000 normalizes to a negative value. -/
theorem sign_preservation_witness : idle.NormalizeAxis (-20000) < 0 :=
  (sign_preservation idle (-20000) (by decide) (by decide) (by decide) (by decide)
    (by decide)).2 (by decide)

/-- Claim C9 (symmetry and continuity): for every threshold `d` with
`0 ≤ d < MAX_AXISAMOUNT` and every raw integer `r`, `NormalizeAxis(-r) = -NormalizeAxis(r)`;
the rescaling quotient `(r - d) / (MAX_AXISAMOUNT - d)` gives the value of `NormalizeAxis`
on the whole closed range `r ≥ d`, the boundary `r = d` included, where it is 0 (and
likewise `(r + d) / (MAX_AXISAMOUNT - d)` for `r ≤ -d`). -/
theorem symmetry_and_continuity (s : CJoystick) (hd0 : 0 ≤ s.m_DeadzoneRange)
    (_hdM : s.m_DeadzoneRange < MAX_AXISAMOUNT) :
    (∀ r : Int, s.NormalizeAxis (-r) = -s.NormalizeAxis r) ∧
    (∀ r : Int, r ≥ s.m_DeadzoneRange → s.NormalizeAxis r =
      ((r - s.m_DeadzoneRange : Int) : ℚ) / ((MAX_AXISAMOUNT - s.m_DeadzoneRange : Int) : ℚ)) ∧
    (∀ r : Int, r ≤ -s.m_DeadzoneRange → s.NormalizeAxis r =
      ((r + s.m_DeadzoneRange : Int) : ℚ) / ((MAX_AXISAMOUNT - s.m_DeadzoneRange : Int) : ℚ)) ∧
    ((s.m_DeadzoneRange - s.m_DeadzoneRange : Int) : ℚ) /
      ((MAX_AXISAMOUNT - s.m_DeadzoneRange : Int) : ℚ) = 0 ∧
    s.NormalizeAxis s.m_DeadzoneRange = 0 ∧ s.NormalizeAxis (-s.m_DeadzoneRange) = 0 := by
  refine ⟨?_, ?_, ?_, by simp, normalizeAxis_inside s _ (by omega) (by omega),
    normalizeAxis_inside s _ (by omega) (by omega)⟩
  · intro r
    by_cases h1 : r > s.m_DeadzoneRange
    · rw [normalizeAxis_above s r h1, normalizeAxis_below s (-r) hd0 (by omega), ← neg_div]
      congr 1
      push_cast
      ring
    · by_cases h2 : r < -s.m_DeadzoneRange
      · rw [normalizeAxis_below s r hd0 h2, normalizeAxis_above s (-r) (by omega), ← neg_div]
        congr 1
        push_cast
        ring
      · rw [normalizeAxis_inside s r (by omega) (by omega),
          normalizeAxis_inside s (-r) (by omega) (by omega)]
        simp
  · intro r hr
    by_cases h : r > s.m_DeadzoneRange
    · exact normalizeAxis_above s r h
    · have : r = s.m_DeadzoneRange := by omega
      subst this
      rw [normalizeAxis_inside s _ (by omega) (by omega)]
      simp
  · intro r hr
    by_cases h : r < -s.m_DeadzoneRange
    · exact normalizeAxis_below s r hd0 h
    · have : r = -s.m_DeadzoneRange := by omega
      rw [this, normalizeAxis_inside s _ (by omega) (by omega)]
      simp

/-- At threshold 3276 the samples 20000 and -20000 normalize to opposite values. -/
theorem symmetry_and_continuity_witness :
    idle.NormalizeAxis (-20000) = -idle.NormalizeAxis 20000 :=
  (symmetry_and_continuity idle (by decide) (by decide)).1 20000

/-! ## Theorems: the polling pass -/

theorem cabs_nonneg (x : Int) : 0 ≤ CJoystick.cabs x := by
  unfold CJoystick.cabs; split_ifs <;> omega

/-- What the scan loop of `GetAxisWithMaxAmount` has found after the indices `1..n`. -/
theorem axisFold_spec (s : CJoystick) (hd : 0 ≤ s.m_DeadzoneRange) (n : Nat) :
    ((List.range' 1 n).foldl (CJoystick.axisStep s) (0, 0) = (0, 0) ∧
      ∀ i : Nat, 1 ≤ i → i ≤ n → CJoystick.cabs (s.m_Amount i) ≤ s.m_DeadzoneRange) ∨
    (∃ a : Nat, 1 ≤ a ∧ a ≤ n ∧
      (List.range' 1 n).foldl (CJoystick.axisStep s) (0, 0) =
        (CJoystick.cabs (s.m_Amount a), (a : Int)) ∧
      CJoystick.cabs (s.m_Amount a) > s.m_DeadzoneRange ∧
      (∀ i : Nat, 1 ≤ i → i ≤ n → CJoystick.cabs (s.m_Amount i) ≤ CJoystick.cabs (s.m_Amount a)) ∧
      (∀ i : Nat, 1 ≤ i → i < a → CJoystick.cabs (s.m_Amount i) < CJoystick.cabs (s.m_Amount a))) := by
  induction n with
  | zero =>
    left
    refine ⟨rfl, ?_⟩
    intro i h1 h2; omega
  | succ n ih =>
    rw [List.range'_1_concat, List.foldl_append]
    simp only [List.foldl_cons, List.foldl_nil]
    rcases ih with ⟨h0, hall⟩ | ⟨a, ha1, ha2, hr, hgt, hmax, hfirst⟩
    · rw [h0]
      by_cases hc : CJoystick.cabs (s.m_Amount (1 + n)) > s.m_DeadzoneRange
      · right
        refine ⟨1 + n, by omega, by omega, ?_, hc, ?_, ?_⟩
        · simp only [CJoystick.axisStep]
          rw [if_pos ⟨hc, by omega⟩]
        · intro i h1 h2
          by_cases hi : i = 1 + n
          · rw [hi]
          · have := hall i h1 (by omega); omega
        · intro i h1 h2
          have := hall i h1 (by omega); omega
      · left
        refine ⟨?_, ?_⟩
        · simp only [CJoystick.axisStep]
          rw [if_neg (fun h => hc h.1)]
        · intro i h1 h2
          by_cases hi : i = 1 + n
          · rw [hi]; omega
          · exact hall i h1 (by omega)
    · rw [hr]
      by_cases hc : CJoystick.cabs (s.m_Amount (1 + n)) > CJoystick.cabs (s.m_Amount a)
      · right
        refine ⟨1 + n, by omega, by omega, ?_, by omega, ?_, ?_⟩
        · simp only [CJoystick.axisStep]
          rw [if_pos ⟨by omega, hc⟩]
        · intro i h1 h2
          by_cases hi : i = 1 + n
          · rw [hi]
          · have := hmax i h1 (by omega); omega
        · intro i h1 h2
          have := hmax i h1 (by omega); omega
      · right
        refine ⟨a, ha1, by omega, ?_, hgt, ?_, hfirst⟩
        · simp only [CJoystick.axisStep]
          rw [if_neg (fun h => hc h.2)]
        · intro i h1 h2
          by_cases hi : i = 1 + n
          · rw [hi]; omega
          · exact hmax i h1 (by omega)

/-- The sample stored at index `i` by the axis loop of the polling pass. -/
theorem storeAxes_apply (L : Limits) (joy : SDL_Joystick) (amount : Nat → Int) (numax i : Nat) :
    CJoystick.storeAxes L joy numax amount i =
      if 1 ≤ i ∧ i ≤ numax ∧ i < L.MAX_AXES then joy.axes.getD (i - 1) 0 else amount i := by
  induction numax with
  | zero =>
    rw [if_neg (by omega)]
    rfl
  | succ n ih =>
    unfold CJoystick.storeAxes at ih ⊢
    rw [List.range_succ, List.foldl_append]
    simp only [List.foldl_cons, List.foldl_nil]
    by_cases hn : n + 1 ≤ 0 ∨ n + 1 ≥ L.MAX_AXES
    · rw [if_pos hn, ih]
      by_cases hi : i = n + 1
      · subst hi
        rw [if_neg (by omega), if_neg (by omega)]
      · by_cases h : 1 ≤ i ∧ i ≤ n ∧ i < L.MAX_AXES
        · rw [if_pos h, if_pos ⟨h.1, by omega, h.2.2⟩]
        · rw [if_neg h, if_neg (by omega)]
    · rw [if_neg hn]
      by_cases hi : i = n + 1
      · subst hi
        rw [Function.update_same, if_pos (by omega)]
        simp
      · rw [Function.update_noteq hi, ih]
        by_cases h : 1 ≤ i ∧ i ≤ n ∧ i < L.MAX_AXES
        · rw [if_pos h, if_pos ⟨h.1, by omega, h.2.2⟩]
        · rw [if_neg h, if_neg (by omega)]

theorem sameSettings_refl (s : CJoystick) : sameSettings s s := by
  simp [sameSettings]

theorem sameSettings_trans {s t u : CJoystick} (h1 : sameSettings s t) (h2 : sameSettings t u) :
    sameSettings s u := by
  unfold sameSettings at *
  obtain ⟨a1, a2, a3, a4, a5, a6, a7, a8, a9, a10, a11, a12⟩ := h1
  obtain ⟨b1, b2, b3, b4, b5, b6, b7, b8, b9, b10, b11, b12⟩ := h2
  exact ⟨b1.trans a1, b2.trans a2, b3.trans a3, b4.trans a4, b5.trans a5, b6.trans a6,
    b7.trans a7, b8.trans a8, b9.trans a9, b10.trans a10, b11.trans a11, b12.trans a12⟩

theorem firstIndex_none {α : Type} (p : α → Bool) (l : List α) (h : ∀ x ∈ l, p x = false) :
    CJoystick.firstIndex p l = none := by
  induction l with
  | nil => rfl
  | cons x xs ih =>
    simp only [CJoystick.firstIndex]
    rw [if_neg (by simp [h x (List.mem_cons_self x xs)])]
    rw [ih (fun y hy => h y (List.mem_cons_of_mem x hy))]
    rfl

theorem firstIndex_some {α : Type} (p : α → Bool) (l : List α) (h : ∃ x ∈ l, p x = true) :
    ∃ k, CJoystick.firstIndex p l = some k ∧ k < l.length := by
  induction l with
  | nil => simp at h
  | cons x xs ih =>
    simp only [CJoystick.firstIndex]
    by_cases hx : p x = true
    · exact ⟨0, by rw [if_pos hx], by simp⟩
    · rw [if_neg hx]
      obtain ⟨y, hy, hpy⟩ := h
      rcases List.mem_cons.mp hy with rfl | hy'
      · exact absurd hpy hx
      · obtain ⟨k, hk, hlt⟩ := ih ⟨y, hy', hpy⟩
        exact ⟨k + 1, by rw [hk]; rfl, by simp; omega⟩

theorem pollButtons_sameSettings (joy : SDL_Joystick) (s : CJoystick) (b : Int) :
    sameSettings s (CJoystick.pollButtons joy s b).1 := by
  unfold CJoystick.pollButtons
  split <;> simp [sameSettings]

theorem pollHats_sameSettings (joy : SDL_Joystick) (s : CJoystick) (h : Int) (last : Bool) :
    sameSettings s (CJoystick.pollHats joy s h last).1 := by
  unfold CJoystick.pollHats
  split <;> simp [sameSettings]

theorem pollAxes_sameSettings (L : Limits) (joy : SDL_Joystick) (s : CJoystick) :
    sameSettings s (CJoystick.pollAxes L joy s) := by
  simp [sameSettings, CJoystick.pollAxes, CJoystick.GetAxisWithMaxAmount,
    CJoystick.SetAxisActive]

theorem pollDevice_sameSettings (L : Limits) (joy : SDL_Joystick) (s : CJoystick) (b h : Int) :
    sameSettings s (CJoystick.pollDevice L joy s b h).state := by
  have h1 := pollButtons_sameSettings joy s b
  have h2 := pollHats_sameSettings joy (CJoystick.pollButtons joy s b).1 h
    (CJoystick.pollButtons joy s b).2.2
  have h3 := pollAxes_sameSettings L joy
    (CJoystick.pollHats joy (CJoystick.pollButtons joy s b).1 h
      (CJoystick.pollButtons joy s b).2.2).1
  have h123 := sameSettings_trans (sameSettings_trans h1 h2) h3
  unfold CJoystick.pollDevice
  simp only
  split_ifs
  · exact sameSettings_trans h123 (by simp [sameSettings])
  · exact h123

/-- The axis part of one device with fewer than `MAX_AXES` axes: either no sample is
beyond the threshold and the axis class is left inactive with id 0, or the id is the
lowest index of a sample of greatest magnitude, which is beyond the threshold. -/
theorem pollAxes_spec (L : Limits) (joy : SDL_Joystick) (s : CJoystick)
    (hd : 0 ≤ s.m_DeadzoneRange) (hlen : joy.axes.length < L.MAX_AXES) :
    ((∀ i : Nat, i < joy.axes.length → CJoystick.cabs (joy.axes.getD i 0) ≤ s.m_DeadzoneRange) ∧
      (CJoystick.pollAxes L joy s).m_AxisId = 0 ∧
      (CJoystick.pollAxes L joy s).IsAxisActive = false) ∨
    (∃ k : Nat, k < joy.axes.length ∧
      (CJoystick.pollAxes L joy s).m_AxisId = (k : Int) + 1 ∧
      (CJoystick.pollAxes L joy s).IsAxisActive = true ∧
      CJoystick.cabs (joy.axes.getD k 0) > s.m_DeadzoneRange ∧
      (∀ i : Nat, i < joy.axes.length →
        CJoystick.cabs (joy.axes.getD i 0) ≤ CJoystick.cabs (joy.axes.getD k 0)) ∧
      (∀ i : Nat, i < k →
        CJoystick.cabs (joy.axes.getD i 0) < CJoystick.cabs (joy.axes.getD k 0))) := by
  have hnumax : (if joy.axes.length > L.MAX_AXES then L.MAX_AXES else joy.axes.length)
      = joy.axes.length := by
    rw [if_neg (by omega)]
  -- the state the scan runs on
  obtain ⟨t, ht, htd, htn, hta⟩ : ∃ t : CJoystick,
      CJoystick.pollAxes L joy s =
        { (t.SetAxisActive (decide (0 ≠ (CJoystick.axisScan t).1))) with
          m_AxisId := (CJoystick.axisScan t).2 } ∧
      t.m_DeadzoneRange = s.m_DeadzoneRange ∧ t.m_NumAxes = (joy.axes.length : Int) ∧
      ∀ i : Nat, 1 ≤ i → i ≤ joy.axes.length → t.m_Amount i = joy.axes.getD (i - 1) 0 := by
    refine ⟨{ s with m_NumAxes := (joy.axes.length : Int),
                     m_Amount := CJoystick.storeAxes L joy joy.axes.length s.m_Amount },
      ?_, rfl, rfl, ?_⟩
    · simp only [CJoystick.pollAxes, hnumax, CJoystick.GetAxisWithMaxAmount]
    · intro i h1 h2
      simp only [storeAxes_apply]
      rw [if_pos ⟨h1, h2, by omega⟩]
  have hscan : CJoystick.axisScan t =
      (List.range' 1 joy.axes.length).foldl (CJoystick.axisStep t) (0, 0) := by
    simp [CJoystick.axisScan, htn]
  rcases axisFold_spec t (by omega) joy.axes.length with ⟨h0, hall⟩ | ⟨a, ha1, ha2, hr, hgt, hmax, hfirst⟩
  · left
    refine ⟨?_, ?_, ?_⟩
    · intro i hi
      have := hall (i + 1) (by omega) (by omega)
      rw [hta (i + 1) (by omega) (by omega)] at this
      simpa [htd] using this
    · rw [ht, hscan, h0]
    · rw [ht, hscan, h0]; rfl
  · right
    have hk := hta a ha1 ha2
    refine ⟨a - 1, by omega, ?_, ?_, ?_, ?_, ?_⟩
    · rw [ht, hscan, hr]
      simp only
      omega
    · rw [ht, hscan, hr]
      have hne : (0 : Int) ≠ CJoystick.cabs (t.m_Amount a) := by omega
      simp [CJoystick.IsAxisActive, CJoystick.SetAxisActive, hne]
    · rw [← hk, ← htd]; exact hgt
    · intro i hi
      have := hmax (i + 1) (by omega) (by omega)
      rw [hta (i + 1) (by omega) (by omega), hk] at this
      simpa using this
    · intro i hi
      have := hfirst (i + 1) (by omega) (by omega)
      rw [hta (i + 1) (by omega) (by omega), hk] at this
      simpa using this

theorem mem_getD_of_lt (l : List Int) (i : Nat) (h : i < l.length) : l.getD i 0 ∈ l := by
  rw [List.getD_eq_getElem l 0 h]
  exact List.getElem_mem h

/-- The pass over a quiet device changes nothing but the stored axis samples: the locals
keep their values and the loop goes on. -/
theorem pollDevice_quiet (L : Limits) (joy : SDL_Joystick) (s : CJoystick) (b h : Int)
    (hd : 0 ≤ s.m_DeadzoneRange) (hq : quiet L s.m_DeadzoneRange joy) :
    CJoystick.pollDevice L joy s b h =
      { state := CJoystick.pollAxes L joy s, buttonId := b, hatId := h, last := false } ∧
    (CJoystick.pollAxes L joy s).m_AxisId = 0 ∧
    (CJoystick.pollAxes L joy s).IsAxisActive = false := by
  obtain ⟨hb, hh, hlen, ha⟩ := hq
  have h1 : CJoystick.pollButtons joy s b = (s, b, false) := by
    unfold CJoystick.pollButtons
    rw [firstIndex_none _ _ (by simpa using hb)]
  have h2 : CJoystick.pollHats joy s h false = (s, h, false) := by
    unfold CJoystick.pollHats
    rw [firstIndex_none _ _ (by simpa using hh)]
  have h3 : (CJoystick.pollAxes L joy s).m_AxisId = 0 ∧
      (CJoystick.pollAxes L joy s).IsAxisActive = false := by
    rcases pollAxes_spec L joy s hd hlen with ⟨_, h0, h0'⟩ | ⟨k, hk, _, _, hgt, _, _⟩
    · exact ⟨h0, h0'⟩
    · have := ha _ (mem_getD_of_lt joy.axes k hk)
      omega
  refine ⟨?_, h3⟩
  unfold CJoystick.pollDevice
  simp only [h1, h2]
  rw [if_neg (by simp [h3.1])]

/-- The device loop runs through a run of quiet devices and arrives at the next device
with its locals unchanged. -/
theorem pollLoop_quiet (L : Limits) (handler : Bool) (d : Int) (hd : 0 ≤ d)
    (rest : List SDL_Joystick) (pre : List SDL_Joystick) :
    (∀ q ∈ pre, quiet L d q) →
    ∀ (j : Nat) (s : CJoystick) (b h : Int) (out : List Gamepad), s.m_DeadzoneRange = d →
    ∃ (s' : CJoystick) (out' : List Gamepad),
      CJoystick.pollLoop L handler j (pre ++ rest) s b h out =
        CJoystick.pollLoop L handler (j + pre.length) rest s' b h out' ∧
      sameSettings s s' ∧
      (pre ≠ [] → s'.m_AxisId = 0 ∧ s'.IsAxisActive = false) ∧
      (pre = [] → s' = s) ∧
      out'.length = out.length + (if handler then pre.length else 0) := by
  induction pre with
  | nil =>
    intro _ j s b h out _
    exact ⟨s, out, rfl, sameSettings_refl s, fun hne => absurd rfl hne, fun _ => rfl, by simp⟩
  | cons joy pre ih =>
    intro hq j s b h out hsd
    have hqj : quiet L s.m_DeadzoneRange joy := by
      rw [hsd]; exact hq joy (List.mem_cons_self joy pre)
    obtain ⟨hdev, hax0, haxf⟩ := pollDevice_quiet L joy s b h (by omega) hqj
    have hss := pollAxes_sameSettings L joy s
    obtain ⟨s', out', heq, hsame, hne, hnil, hlen⟩ :=
      ih (fun q hq' => hq q (List.mem_cons_of_mem joy hq')) (j + 1)
        (CJoystick.pollAxes L joy s) b h
        (if handler then out ++ [CJoystick.pollGamepad L s j joy
          (if joy.axes.length > L.MAX_AXES then L.MAX_AXES else joy.axes.length)] else out)
        (by rw [hss.1, hsd])
    refine ⟨s', out', ?_, sameSettings_trans hss hsame, ?_, by simp, ?_⟩
    · rw [List.cons_append, CJoystick.pollLoop]
      simp only [hdev]
      rw [heq]
      simp only [Bool.false_eq_true, if_false, List.length_cons]
      congr 1
      omega
    · intro _
      by_cases hp : pre = []
      · rw [hnil hp]; exact ⟨hax0, haxf⟩
      · exact hne hp
    · rw [hlen]
      cases handler <;> simp
      omega

/-- A device with a pressed button sets the local `buttonId` to a positive id and ends the
device loop. -/
theorem pollDevice_button (L : Limits) (joy : SDL_Joystick) (s : CJoystick) (b h : Int)
    (hb : true ∈ joy.buttons) :
    ∃ k : Nat, k < joy.buttons.length ∧
      (CJoystick.pollDevice L joy s b h).buttonId = (k : Int) + 1 ∧
      (CJoystick.pollDevice L joy s b h).last = true := by
  obtain ⟨k, hk, hlt⟩ := firstIndex_some (fun b => b) joy.buttons ⟨true, hb, rfl⟩
  have h1 : CJoystick.pollButtons joy s b = ({ s with m_JoyId := joy.index }, (k : Int) + 1, true) := by
    unfold CJoystick.pollButtons
    rw [hk]
  have h2 : ∀ t hid, (CJoystick.pollHats joy t hid true).2.2 = true := by
    intro t hid
    unfold CJoystick.pollHats
    split <;> rfl
  refine ⟨k, hlt, ?_, ?_⟩
  · unfold CJoystick.pollDevice
    simp only [h1]
    split_ifs <;> rfl
  · unfold CJoystick.pollDevice
    simp only [h1]
    split_ifs
    · rfl
    · exact h2 _ _

/-- The axis id and the axis flag after the pass over one device with fewer than
`MAX_AXES` axes. -/
theorem pollDevice_axis_spec (L : Limits) (joy : SDL_Joystick) (s : CJoystick) (b h : Int)
    (hd : 0 ≤ s.m_DeadzoneRange) (hlen : joy.axes.length < L.MAX_AXES) :
    ((∀ i : Nat, i < joy.axes.length → CJoystick.cabs (joy.axes.getD i 0) ≤ s.m_DeadzoneRange) ∧
      (CJoystick.pollDevice L joy s b h).state.m_AxisId = 0 ∧
      (CJoystick.pollDevice L joy s b h).state.IsAxisActive = false) ∨
    (∃ k : Nat, k < joy.axes.length ∧
      (CJoystick.pollDevice L joy s b h).state.m_AxisId = (k : Int) + 1 ∧
      (CJoystick.pollDevice L joy s b h).state.IsAxisActive = true ∧
      (CJoystick.pollDevice L joy s b h).last = true ∧
      CJoystick.cabs (joy.axes.getD k 0) > s.m_DeadzoneRange ∧
      (∀ i : Nat, i < joy.axes.length →
        CJoystick.cabs (joy.axes.getD i 0) ≤ CJoystick.cabs (joy.axes.getD k 0)) ∧
      (∀ i : Nat, i < k →
        CJoystick.cabs (joy.axes.getD i 0) < CJoystick.cabs (joy.axes.getD k 0))) := by
  have h1 := pollButtons_sameSettings joy s b
  have h2 := pollHats_sameSettings joy (CJoystick.pollButtons joy s b).1 h
    (CJoystick.pollButtons joy s b).2.2
  have h12 := sameSettings_trans h1 h2
  have hdz := h12.1
  rcases pollAxes_spec L joy _ (by rw [hdz]; exact hd) hlen with
    ⟨hall, h0, hf⟩ | ⟨k, hk, hid, hact, hgt, hmax, hfirst⟩
  · left
    rw [hdz] at hall
    refine ⟨hall, ?_, ?_⟩
    · unfold CJoystick.pollDevice
      simp only [h0, ne_eq, not_true_eq_false, if_false]
    · unfold CJoystick.pollDevice
      simp only [h0, ne_eq, not_true_eq_false, if_false]
      exact hf
  · right
    rw [hdz] at hgt
    have hne : (CJoystick.pollAxes L joy (CJoystick.pollHats joy (CJoystick.pollButtons joy s b).1 h
        (CJoystick.pollButtons joy s b).2.2).1).m_AxisId ≠ 0 := by
      rw [hid]; omega
    refine ⟨k, hk, ?_, ?_, ?_, hgt, hmax, hfirst⟩
    · unfold CJoystick.pollDevice
      simp only [if_pos hne]
      exact hid
    · unfold CJoystick.pollDevice
      simp only [if_pos hne]
      exact hact
    · unfold CJoystick.pollDevice
      simp only [if_pos hne]

/-- A device with a pressed button, a hat off centre or an axis beyond the threshold ends
the device loop. -/
theorem pollDevice_last (L : Limits) (joy : SDL_Joystick) (s : CJoystick) (b h : Int)
    (hd : 0 ≤ s.m_DeadzoneRange) (hlen : joy.axes.length < L.MAX_AXES)
    (hact : true ∈ joy.buttons ∨ (∃ x ∈ joy.hats, x ≠ SDL_HAT_CENTERED) ∨
      ∃ a ∈ joy.axes, CJoystick.cabs a > s.m_DeadzoneRange) :
    (CJoystick.pollDevice L joy s b h).last = true := by
  rcases hact with hb | ⟨x, hx, hxc⟩ | ⟨a, ha, hgt⟩
  · obtain ⟨k, _, _, hl⟩ := pollDevice_button L joy s b h hb
    exact hl
  · obtain ⟨k, hk, _⟩ := firstIndex_some (fun hatval => decide (hatval ≠ SDL_HAT_CENTERED))
      joy.hats ⟨x, hx, by simpa using hxc⟩
    have h2 : ∀ t hid l, (CJoystick.pollHats joy t hid l).2.2 = true := by
      intro t hid l
      unfold CJoystick.pollHats
      rw [hk]
    unfold CJoystick.pollDevice
    simp only
    split_ifs
    · rfl
    · exact h2 _ _ _
  · rcases pollDevice_axis_spec L joy s b h hd hlen with ⟨hall, _, _⟩ | ⟨k, _, _, _, hl, _⟩
    · obtain ⟨i, hi, rfl⟩ := List.mem_iff_getElem.mp ha
      have := hall i hi
      rw [List.getD_eq_getElem joy.axes 0 hi] at this
      omega
    · exact hl

theorem pollSettleHat_frame (s : CJoystick) (hatId : Int) (ticks : Nat) :
    (CJoystick.pollSettleHat s hatId ticks).m_joystickEnabled = s.m_joystickEnabled ∧
    (CJoystick.pollSettleHat s hatId ticks).m_ButtonId = s.m_ButtonId ∧
    (CJoystick.pollSettleHat s hatId ticks).m_AxisId = s.m_AxisId ∧
    (CJoystick.pollSettleHat s hatId ticks).IsAxisActive = s.IsAxisActive ∧
    (CJoystick.pollSettleHat s hatId ticks).m_Amount = s.m_Amount := by
  unfold CJoystick.pollSettleHat
  split_ifs <;> simp [CJoystick.SetHatActive, CJoystick.IsAxisActive]

theorem pollSettleButton_frame (s : CJoystick) (buttonId : Int) (ticks : Nat) :
    (CJoystick.pollSettleButton s buttonId ticks).m_joystickEnabled = s.m_joystickEnabled ∧
    (CJoystick.pollSettleButton s buttonId ticks).m_AxisId = s.m_AxisId ∧
    (CJoystick.pollSettleButton s buttonId ticks).IsAxisActive = s.IsAxisActive ∧
    (CJoystick.pollSettleButton s buttonId ticks).m_Amount = s.m_Amount := by
  unfold CJoystick.pollSettleButton
  split_ifs <;> simp [CJoystick.SetButtonActive, CJoystick.IsAxisActive]

theorem pollSettleButton_found (s : CJoystick) (buttonId : Int) (ticks : Nat)
    (h : buttonId ≠ -1) :
    (CJoystick.pollSettleButton s buttonId ticks).IsButtonActive = true ∧
    (CJoystick.pollSettleButton s buttonId ticks).m_ButtonId = buttonId := by
  unfold CJoystick.pollSettleButton
  rw [if_neg h]
  by_cases hb : buttonId = s.m_ButtonId
  · simp [hb, CJoystick.SetButtonActive, CJoystick.IsButtonActive]
  · simp [hb, CJoystick.SetButtonActive, CJoystick.IsButtonActive]

/-- The polling pass over a table that starts with a run of quiet devices followed by a
device that ends the loop: the outcome is that of this one device. -/
theorem update_first_active (L : Limits) (handler : Bool) (ticks : Nat) (s : CJoystick)
    (pre post : List SDL_Joystick) (joy : SDL_Joystick)
    (hen : s.IsEnabled = true) (hd : 0 ≤ s.m_DeadzoneRange)
    (htab : s.m_Joysticks = pre ++ joy :: post)
    (hpre : ∀ q ∈ pre, quiet L s.m_DeadzoneRange q)
    (hlast : ∀ t : CJoystick, sameSettings s t →
      (CJoystick.pollDevice L joy t (-1) (-1)).last = true) :
    ∃ t : CJoystick, sameSettings s t ∧
      (CJoystick.Update L handler ticks s).1 =
        CJoystick.pollSettleButton
          (CJoystick.pollSettleHat (CJoystick.pollDevice L joy t (-1) (-1)).state
            (CJoystick.pollDevice L joy t (-1) (-1)).hatId ticks)
          (CJoystick.pollDevice L joy t (-1) (-1)).buttonId ticks := by
  obtain ⟨t, out', heq, hsame, _, _, _⟩ :=
    pollLoop_quiet L handler s.m_DeadzoneRange hd (joy :: post) pre hpre 0 s (-1) (-1) [] rfl
  refine ⟨t, hsame, ?_⟩
  have hl := hlast t hsame
  unfold CJoystick.Update
  rw [if_neg (by simp [hen]), if_neg (by rw [htab]; simp)]
  simp only
  rw [htab, heq, CJoystick.pollLoop]
  simp only [hl, if_true]

/-- A device with no pressed button leaves the local `buttonId` as it was. -/
theorem pollDevice_no_button (L : Limits) (joy : SDL_Joystick) (s : CJoystick) (b h : Int)
    (hb : ∀ x ∈ joy.buttons, x = false) :
    (CJoystick.pollDevice L joy s b h).buttonId = b := by
  have h1 : CJoystick.pollButtons joy s b = (s, b, false) := by
    unfold CJoystick.pollButtons
    rw [firstIndex_none _ _ (by simpa using hb)]
  unfold CJoystick.pollDevice
  simp only [h1]
  split_ifs <;> rfl

/-- Claim C1, as stated, fails: with an axis deflected on the first device and a button
pressed on the second, the loop leaves at the first device and the button class is
inactive after the tick (`GetButton` returns false with id 0). -/
theorem button_priority_fails_behind_axis :
    axisPadFirst.IsEnabled = true ∧
    (∃ joy ∈ axisPadFirst.m_Joysticks, true ∈ joy.buttons) ∧
    (∃ joy ∈ axisPadFirst.m_Joysticks, ∃ a ∈ joy.axes,
      CJoystick.cabs a > axisPadFirst.m_DeadzoneRange) ∧
    (CJoystick.Update sampleLimits false 1000 axisPadFirst).1.IsButtonActive = false ∧
    ((CJoystick.Update sampleLimits false 1000 axisPadFirst).1.GetButton 1000 7 false).1
      = false ∧
    ((CJoystick.Update sampleLimits false 1000 axisPadFirst).1.GetButton 1000 7 false).2.1
      = 0 := by
  refine ⟨by decide, ⟨buttonPad, by simp [axisPadFirst], by decide⟩,
    ⟨axisPad, by simp [axisPadFirst], 20000, by simp [axisPad], by decide⟩,
    by decide, by decide, by decide⟩

/-- Claim C1 (button priority in polling mode), amended: for every device table and every
polling tick with the joystick enabled and a threshold that is not negative, let every
device before some device of the table be quiet (no pressed button, every hat centred,
fewer than `MAX_AXES` axes, no axis beyond the threshold). If that device has a pressed
button, the button class is active after the tick and `GetButton(id, false)` returns true
with a non-zero id, whatever the axes of that device and the later devices do. If that
device has no pressed button, fewer than `MAX_AXES` axes, and a hat off centre or an axis
beyond the threshold, the button class is inactive after the tick and `GetButton(id, false)`
returns false with the id 0, whatever buttons the later devices have pressed. -/
theorem button_priority (L : Limits) (handler : Bool) (ticks now : Nat) (id0 : Int)
    (s : CJoystick) (hen : s.IsEnabled = true) (hd : 0 ≤ s.m_DeadzoneRange) :
    (∀ (pre post : List SDL_Joystick) (joy : SDL_Joystick),
      s.m_Joysticks = pre ++ joy :: post →
      (∀ q ∈ pre, quiet L s.m_DeadzoneRange q) →
      true ∈ joy.buttons →
      (CJoystick.Update L handler ticks s).1.IsButtonActive = true ∧
      ((CJoystick.Update L handler ticks s).1.GetButton now id0 false).1 = true ∧
      ((CJoystick.Update L handler ticks s).1.GetButton now id0 false).2.1 ≠ 0 ∧
      ((CJoystick.Update L handler ticks s).1.GetButton now id0 false).2.1 =
        (CJoystick.Update L handler ticks s).1.m_ButtonId) ∧
    (∀ (pre post : List SDL_Joystick) (joy : SDL_Joystick),
      s.m_Joysticks = pre ++ joy :: post →
      (∀ q ∈ pre, quiet L s.m_DeadzoneRange q) →
      (∀ b ∈ joy.buttons, b = false) →
      joy.axes.length < L.MAX_AXES →
      ((∃ x ∈ joy.hats, x ≠ SDL_HAT_CENTERED) ∨
        ∃ a ∈ joy.axes, CJoystick.cabs a > s.m_DeadzoneRange) →
      (CJoystick.Update L handler ticks s).1.IsButtonActive = false ∧
      ((CJoystick.Update L handler ticks s).1.GetButton now id0 false).1 = false ∧
      ((CJoystick.Update L handler ticks s).1.GetButton now id0 false).2.1 = 0) := by
  constructor
  · intro pre post joy htab hpre hb
    obtain ⟨t, hsame, hupd⟩ := update_first_active L handler ticks s pre post joy hen hd htab
      hpre (fun t _ => (pollDevice_button L joy t (-1) (-1) hb).choose_spec.2.2)
    obtain ⟨k, _, hk, _⟩ := pollDevice_button L joy t (-1) (-1) hb
    have hfound := pollSettleButton_found
      (CJoystick.pollSettleHat (CJoystick.pollDevice L joy t (-1) (-1)).state
        (CJoystick.pollDevice L joy t (-1) (-1)).hatId ticks)
      (CJoystick.pollDevice L joy t (-1) (-1)).buttonId ticks (by rw [hk]; omega)
    have hen' : (CJoystick.Update L handler ticks s).1.IsEnabled = true := by
      rw [hupd]
      unfold CJoystick.IsEnabled
      rw [(pollSettleButton_frame _ _ _).1, (pollSettleHat_frame _ _ _).1,
        (pollDevice_sameSettings L joy t (-1) (-1)).2.2.2.1, hsame.2.2.2.1]
      exact hen
    have hact : (CJoystick.Update L handler ticks s).1.IsButtonActive = true := by
      rw [hupd]; exact hfound.1
    have hid : (CJoystick.Update L handler ticks s).1.m_ButtonId = (k : Int) + 1 := by
      rw [hupd, hfound.2, hk]
    have hget : (CJoystick.Update L handler ticks s).1.GetButton now id0 false =
        (true, (CJoystick.Update L handler ticks s).1.m_ButtonId,
          (CJoystick.Update L handler ticks s).1) := by
      unfold CJoystick.GetButton
      simp [hen', hact]
    refine ⟨hact, ?_, ?_, ?_⟩
    · rw [hget]
    · rw [hget]; simp only; rw [hid]; omega
    · rw [hget]
  · intro pre post joy htab hpre hnb hlen hact
    obtain ⟨t, hsame, hupd⟩ := update_first_active L handler ticks s pre post joy hen hd htab
      hpre (fun t ht => pollDevice_last L joy t (-1) (-1) (by rw [ht.1]; exact hd) hlen
        (by rw [ht.1]; exact Or.inr hact))
    have hbid : (CJoystick.pollDevice L joy t (-1) (-1)).buttonId = -1 :=
      pollDevice_no_button L joy t (-1) (-1) hnb
    have hoff : (CJoystick.Update L handler ticks s).1.IsButtonActive = false := by
      rw [hupd, hbid]
      unfold CJoystick.pollSettleButton
      simp [CJoystick.SetButtonActive, CJoystick.IsButtonActive]
    have hget : (CJoystick.Update L handler ticks s).1.GetButton now id0 false =
        (false, 0, (CJoystick.Update L handler ticks s).1) := by
      unfold CJoystick.GetButton
      simp [hoff]
    refine ⟨hoff, ?_, ?_⟩
    · rw [hget]
    · rw [hget]

/-- The amended C1 at concrete inputs: with the pressed button on the first device the
button class is active after the tick, although an axis of the second device is beyond the
threshold; with the deflected axis on the first device the button class is inactive,
although a button of the second device is pressed. -/
theorem button_priority_witness :
    ((CJoystick.Update sampleLimits false 1000 buttonPadFirst).1.IsButtonActive = true ∧
      ((CJoystick.Update sampleLimits false 1000 buttonPadFirst).1.GetButton 1000 7 false).1
        = true ∧
      ((CJoystick.Update sampleLimits false 1000 buttonPadFirst).1.GetButton 1000 7 false).2.1
        ≠ 0 ∧
      ((CJoystick.Update sampleLimits false 1000 buttonPadFirst).1.GetButton 1000 7 false).2.1
        = (CJoystick.Update sampleLimits false 1000 buttonPadFirst).1.m_ButtonId) ∧
    ((CJoystick.Update sampleLimits false 1000 axisPadFirst).1.IsButtonActive = false ∧
      ((CJoystick.Update sampleLimits false 1000 axisPadFirst).1.GetButton 1000 7 false).1
        = false ∧
      ((CJoystick.Update sampleLimits false 1000 axisPadFirst).1.GetButton 1000 7 false).2.1
        = 0) :=
  ⟨(button_priority sampleLimits false 1000 1000 7 buttonPadFirst (by decide) (by decide)).1
      [] [axisPad] buttonPad rfl (by simp) (by decide),
    (button_priority sampleLimits false 1000 1000 7 axisPadFirst (by decide) (by decide)).2
      [] [buttonPad] axisPad rfl (by simp) (by decide) (by decide)
      (Or.inr ⟨20000, by simp [axisPad], by decide⟩)⟩

/-- Claim C10, as stated, fails: with a button pressed on the first device the loop ends
there; the axis of the second device, the greatest deflection of the table and beyond
the threshold, is neither stored nor selected, and the axis class is inactive. -/
theorem axis_arbitration_stops_at_button :
    buttonPadFirst.IsEnabled = true ∧
    (∃ joy ∈ buttonPadFirst.m_Joysticks, ∃ a ∈ joy.axes,
      CJoystick.cabs a > buttonPadFirst.m_DeadzoneRange) ∧
    (CJoystick.Update sampleLimits false 1000 buttonPadFirst).1.m_AxisId = 0 ∧
    (CJoystick.Update sampleLimits false 1000 buttonPadFirst).1.IsAxisActive = false ∧
    (CJoystick.Update sampleLimits false 1000 buttonPadFirst).1.GetAxis = (false, 0) ∧
    (CJoystick.Update sampleLimits false 1000 buttonPadFirst).1.m_Amount 1 = 0 := by
  refine ⟨by decide, ⟨axisPad, by simp [buttonPadFirst], 20000, by simp [axisPad], by decide⟩,
    by decide, by decide, by decide, by decide⟩

/-- Claim C10 (axis arbitration in polling mode), amended: the devices are visited in
table order up to and including the first one that has a pressed button, a hat off centre
or an axis beyond the threshold, and the axes of later devices are not evaluated. After
the tick the active axis is the lowest-numbered axis of greatest absolute sample of that
device when this sample is beyond the threshold, and otherwise no axis is active (id 0);
when every device is quiet no axis is active. (Devices with fewer than `MAX_AXES` axes.) -/
theorem axis_arbitration (L : Limits) (handler : Bool) (ticks : Nat) (s : CJoystick)
    (hen : s.IsEnabled = true) (hd : 0 ≤ s.m_DeadzoneRange) :
    (∀ (pre post : List SDL_Joystick) (joy : SDL_Joystick),
      s.m_Joysticks = pre ++ joy :: post →
      (∀ q ∈ pre, quiet L s.m_DeadzoneRange q) →
      joy.axes.length < L.MAX_AXES →
      (true ∈ joy.buttons ∨ (∃ x ∈ joy.hats, x ≠ SDL_HAT_CENTERED) ∨
        ∃ a ∈ joy.axes, CJoystick.cabs a > s.m_DeadzoneRange) →
      ((∀ i : Nat, i < joy.axes.length →
          CJoystick.cabs (joy.axes.getD i 0) ≤ s.m_DeadzoneRange) ∧
        (CJoystick.Update L handler ticks s).1.m_AxisId = 0 ∧
        (CJoystick.Update L handler ticks s).1.IsAxisActive = false) ∨
      (∃ k : Nat, k < joy.axes.length ∧
        (CJoystick.Update L handler ticks s).1.m_AxisId = (k : Int) + 1 ∧
        (CJoystick.Update L handler ticks s).1.IsAxisActive = true ∧
        CJoystick.cabs (joy.axes.getD k 0) > s.m_DeadzoneRange ∧
        (∀ i : Nat, i < joy.axes.length →
          CJoystick.cabs (joy.axes.getD i 0) ≤ CJoystick.cabs (joy.axes.getD k 0)) ∧
        (∀ i : Nat, i < k →
          CJoystick.cabs (joy.axes.getD i 0) < CJoystick.cabs (joy.axes.getD k 0)))) ∧
    (s.m_Joysticks ≠ [] → (∀ q ∈ s.m_Joysticks, quiet L s.m_DeadzoneRange q) →
      (CJoystick.Update L handler ticks s).1.m_AxisId = 0 ∧
      (CJoystick.Update L handler ticks s).1.IsAxisActive = false) := by
  constructor
  · intro pre post joy htab hpre hlen hact
    obtain ⟨t, hsame, hupd⟩ := update_first_active L handler ticks s pre post joy hen hd htab
      hpre (fun t ht => pollDevice_last L joy t (-1) (-1) (by rw [ht.1]; exact hd) hlen
        (by rw [ht.1]; exact hact))
    have hid : (CJoystick.Update L handler ticks s).1.m_AxisId =
        (CJoystick.pollDevice L joy t (-1) (-1)).state.m_AxisId := by
      rw [hupd, (pollSettleButton_frame _ _ _).2.1, (pollSettleHat_frame _ _ _).2.2.1]
    have hfl : (CJoystick.Update L handler ticks s).1.IsAxisActive =
        (CJoystick.pollDevice L joy t (-1) (-1)).state.IsAxisActive := by
      rw [hupd, (pollSettleButton_frame _ _ _).2.2.1, (pollSettleHat_frame _ _ _).2.2.2.1]
    rw [hid, hfl]
    have hspec := pollDevice_axis_spec L joy t (-1) (-1) (by rw [hsame.1]; exact hd) hlen
    rw [hsame.1] at hspec
    rcases hspec with ⟨h1, h2, h3⟩ | ⟨k, hk, h1, h2, _, h4, h5, h6⟩
    · exact Or.inl ⟨h1, h2, h3⟩
    · exact Or.inr ⟨k, hk, h1, h2, h4, h5, h6⟩
  · intro hne hall
    obtain ⟨t, out', heq, _, hax, _, _⟩ :=
      pollLoop_quiet L handler s.m_DeadzoneRange hd [] s.m_Joysticks hall 0 s (-1) (-1) [] rfl
    rw [List.append_nil] at heq
    have hupd : (CJoystick.Update L handler ticks s).1 =
        CJoystick.pollSettleButton (CJoystick.pollSettleHat t (-1) ticks) (-1) ticks := by
      unfold CJoystick.Update
      rw [if_neg (by simp [hen]), if_neg (by
        have := List.length_pos.mpr hne
        omega)]
      simp only
      rw [heq, CJoystick.pollLoop]
    rw [hupd, (pollSettleButton_frame _ _ _).2.1, (pollSettleHat_frame _ _ _).2.2.1,
      (pollSettleButton_frame _ _ _).2.2.1, (pollSettleHat_frame _ _ _).2.2.2.1]
    exact hax hne

/-- With the deflected device first in the table, the theorem applies to it: its first
axis is beyond the threshold, so the second alternative holds. -/
theorem axis_arbitration_witness :
    ((∀ i : Nat, i < axisPad.axes.length →
        CJoystick.cabs (axisPad.axes.getD i 0) ≤ axisPadFirst.m_DeadzoneRange) ∧
      (CJoystick.Update sampleLimits false 1000 axisPadFirst).1.m_AxisId = 0 ∧
      (CJoystick.Update sampleLimits false 1000 axisPadFirst).1.IsAxisActive = false) ∨
    (∃ k : Nat, k < axisPad.axes.length ∧
      (CJoystick.Update sampleLimits false 1000 axisPadFirst).1.m_AxisId = (k : Int) + 1 ∧
      (CJoystick.Update sampleLimits false 1000 axisPadFirst).1.IsAxisActive = true ∧
      CJoystick.cabs (axisPad.axes.getD k 0) > axisPadFirst.m_DeadzoneRange ∧
      (∀ i : Nat, i < axisPad.axes.length →
        CJoystick.cabs (axisPad.axes.getD i 0) ≤ CJoystick.cabs (axisPad.axes.getD k 0)) ∧
      (∀ i : Nat, i < k →
        CJoystick.cabs (axisPad.axes.getD i 0) < CJoystick.cabs (axisPad.axes.getD k 0))) :=
  (axis_arbitration sampleLimits false 1000 axisPadFirst (by decide) (by decide)).1
    [] [buttonPad] axisPad rfl (by simp) (by decide)
    (Or.inr (Or.inr ⟨20000, by simp [axisPad], by decide⟩))

/-! ## Theorems: the repeat timer -/

theorem sub32_of_le (a b : Nat) (h : b ≤ a) (ha : a < UINT32) : sub32 a b = a - b := by
  unfold sub32 UINT32 at *
  omega

theorem repeatSchedule_cons (p : Nat) (last : Option Nat) (t : Nat) (ts : List Nat) :
    repeatSchedule p last (t :: ts) =
      if t - p < 500 then false :: repeatSchedule p last ts
      else
        match last with
        | none => true :: repeatSchedule p (some t) ts
        | some l =>
          if 100 ≤ t - l then true :: repeatSchedule p (some t) ts
          else false :: repeatSchedule p (some l) ts := by
  cases last <;> rfl

/-- One query of a held button. -/
theorem getButton_held (s : CJoystick) (p : Nat) (last : Option Nat) (t : Nat) (id : Int)
    (h : buttonHeld p last s) :
    s.GetButton t id true =
      if sub32 t p < 500 then
        (false, id, { s with buttonStatics := { s.buttonStatics with nowTicks := t } })
      else if sub32 t s.buttonStatics.lastTicks < 100 then
        (false, id, { s with buttonStatics := { s.buttonStatics with nowTicks := t } })
      else
        (true, s.m_ButtonId,
          { s with buttonStatics := { s.buttonStatics with nowTicks := t, lastTicks := t } }) := by
  obtain ⟨hen, hact, hid, hp, hpress, hlp, _⟩ := h
  unfold CJoystick.GetButton
  simp only [hen, hact, hpress, hlp]
  simp [hid, hp]

/-- One query of a held button agrees with one step of the repeat schedule and leaves
the button held. -/
theorem getButton_step (s : CJoystick) (p : Nat) (last : Option Nat) (t : Nat) (id : Int)
    (h : buttonHeld p last s) (hpt : p ≤ t) (htU : t < UINT32)
    (hlt : ∀ l, last = some l → l ≤ t) :
    ∃ last' : Option Nat, (last' = last ∨ last' = some t) ∧
      buttonHeld p last' (s.GetButton t id true).2.2 ∧
      ∀ ts : List Nat, (s.GetButton t id true).1 :: repeatSchedule p last' ts =
        repeatSchedule p last (t :: ts) := by
  have hq := getButton_held s p last t id h
  obtain ⟨hen, hact, hid, hp, hpress, hlp, hlast⟩ := h
  rw [sub32_of_le t p hpt htU] at hq
  by_cases h500 : t - p < 500
  · rw [if_pos h500] at hq
    refine ⟨last, Or.inl rfl, ?_, ?_⟩
    · rw [hq]
      refine ⟨hen, hact, hid, hp, hpress, hlp, ?_⟩
      cases last <;> exact hlast
    · intro ts
      rw [hq, repeatSchedule_cons, if_pos h500]
  · rw [if_neg h500] at hq
    cases last with
    | none =>
      simp only at hlast
      rw [sub32_of_le t _ (by omega) htU, if_neg (by omega)] at hq
      refine ⟨some t, Or.inr rfl, ?_, ?_⟩
      · rw [hq]
        exact ⟨hen, hact, hid, hp, hpress, hlp, rfl, by omega⟩
      · intro ts
        rw [hq, repeatSchedule_cons, if_neg h500]
    | some l =>
      simp only at hlast
      have hlle := hlt l rfl
      rw [hlast.1, sub32_of_le t l hlle htU] at hq
      by_cases h100 : 100 ≤ t - l
      · rw [if_neg (by omega)] at hq
        refine ⟨some t, Or.inr rfl, ?_, ?_⟩
        · rw [hq]
          exact ⟨hen, hact, hid, hp, hpress, hlp, rfl, by omega⟩
        · intro ts
          rw [hq, repeatSchedule_cons, if_neg h500]
          simp only [if_pos h100]
      · rw [if_pos (by omega)] at hq
        refine ⟨some l, Or.inl rfl, ?_, ?_⟩
        · rw [hq]
          exact ⟨hen, hact, hid, hp, hpress, hlp, hlast.1, hlast.2⟩
        · intro ts
          rw [hq, repeatSchedule_cons, if_neg h500]
          simp only [if_neg h100]

theorem ticksFrom_tail (p : Nat) (last last' : Option Nat) (t : Nat) (ts : List Nat)
    (h : ticksFrom p last (t :: ts)) (hl : last' = last ∨ last' = some t) :
    ticksFrom p last' ts := by
  obtain ⟨hpw, hbd⟩ := h
  have hpw' := List.pairwise_cons.mp hpw
  refine ⟨hpw'.2, fun x hx => ?_⟩
  obtain ⟨h1, h2, h3⟩ := hbd x (List.mem_cons_of_mem t hx)
  refine ⟨h1, h2, ?_⟩
  rcases hl with rfl | rfl
  · exact h3
  · intro l hl
    simp only [Option.some.injEq] at hl
    have := hpw'.1 x hx
    omega

/-- A run of queries of a held button follows the repeat schedule. -/
theorem buttonQueries_schedule (p : Nat) (ts : List Nat) :
    ∀ (last : Option Nat) (s : CJoystick) (id : Int), buttonHeld p last s →
      ticksFrom p last ts → buttonQueries s id ts = repeatSchedule p last ts := by
  induction ts with
  | nil => intro last s id _ _; cases last <;> rfl
  | cons t ts ih =>
    intro last s id hheld hticks
    obtain ⟨hpt, htU, hlt⟩ := hticks.2 t (List.mem_cons_self t ts)
    obtain ⟨last', hl', hheld', hstep⟩ := getButton_step s p last t id hheld hpt htU hlt
    rw [← hstep ts, ← ih last' _ (s.GetButton t id true).2.1 hheld'
      (ticksFrom_tail p last last' t ts hticks hl')]
    rfl

/-- One query of a held hat. -/
theorem getHat_held (s : CJoystick) (p : Nat) (last : Option Nat) (t : Nat)
    (h : hatHeld p last s) :
    s.GetHat t true =
      if sub32 t p < 500 then
        (false, s.m_HatId, (s.m_HatState : Int),
          { s with hatStatics := { s.hatStatics with nowTicks := t } })
      else if sub32 t s.hatStatics.lastTicks < 100 then
        (false, s.m_HatId, (s.m_HatState : Int),
          { s with hatStatics := { s.hatStatics with nowTicks := t } })
      else
        (true, s.m_HatId, (s.m_HatState : Int),
          { s with hatStatics := { s.hatStatics with nowTicks := t, lastTicks := t } }) := by
  obtain ⟨hen, hact, hid, hp, hpress, hlp, _⟩ := h
  unfold CJoystick.GetHat
  simp only [hen, hact, hpress, hlp]
  simp [hid, hp]

/-- One query of a held hat agrees with one step of the repeat schedule and leaves the
hat held. -/
theorem getHat_step (s : CJoystick) (p : Nat) (last : Option Nat) (t : Nat)
    (h : hatHeld p last s) (hpt : p ≤ t) (htU : t < UINT32)
    (hlt : ∀ l, last = some l → l ≤ t) :
    ∃ last' : Option Nat, (last' = last ∨ last' = some t) ∧
      hatHeld p last' (s.GetHat t true).2.2.2 ∧
      ∀ ts : List Nat, (s.GetHat t true).1 :: repeatSchedule p last' ts =
        repeatSchedule p last (t :: ts) := by
  have hq := getHat_held s p last t h
  obtain ⟨hen, hact, hid, hp, hpress, hlp, hlast⟩ := h
  rw [sub32_of_le t p hpt htU] at hq
  by_cases h500 : t - p < 500
  · rw [if_pos h500] at hq
    refine ⟨last, Or.inl rfl, ?_, ?_⟩
    · rw [hq]
      refine ⟨hen, hact, hid, hp, hpress, hlp, ?_⟩
      cases last <;> exact hlast
    · intro ts
      rw [hq, repeatSchedule_cons, if_pos h500]
  · rw [if_neg h500] at hq
    cases last with
    | none =>
      simp only at hlast
      rw [sub32_of_le t _ (by omega) htU, if_neg (by omega)] at hq
      refine ⟨some t, Or.inr rfl, ?_, ?_⟩
      · rw [hq]
        exact ⟨hen, hact, hid, hp, hpress, hlp, rfl, by omega⟩
      · intro ts
        rw [hq, repeatSchedule_cons, if_neg h500]
    | some l =>
      simp only at hlast
      have hlle := hlt l rfl
      rw [hlast.1, sub32_of_le t l hlle htU] at hq
      by_cases h100 : 100 ≤ t - l
      · rw [if_neg (by omega)] at hq
        refine ⟨some t, Or.inr rfl, ?_, ?_⟩
        · rw [hq]
          exact ⟨hen, hact, hid, hp, hpress, hlp, rfl, by omega⟩
        · intro ts
          rw [hq, repeatSchedule_cons, if_neg h500]
          simp only [if_pos h100]
      · rw [if_pos (by omega)] at hq
        refine ⟨some l, Or.inl rfl, ?_, ?_⟩
        · rw [hq]
          exact ⟨hen, hact, hid, hp, hpress, hlp, hlast.1, hlast.2⟩
        · intro ts
          rw [hq, repeatSchedule_cons, if_neg h500]
          simp only [if_neg h100]

/-- A run of queries of a held hat follows the repeat schedule. -/
theorem hatQueries_schedule (p : Nat) (ts : List Nat) :
    ∀ (last : Option Nat) (s : CJoystick), hatHeld p last s →
      ticksFrom p last ts → hatQueries s ts = repeatSchedule p last ts := by
  induction ts with
  | nil => intro last s _ _; cases last <;> rfl
  | cons t ts ih =>
    intro last s hheld hticks
    obtain ⟨hpt, htU, hlt⟩ := hticks.2 t (List.mem_cons_self t ts)
    obtain ⟨last', hl', hheld', hstep⟩ := getHat_step s p last t hheld hpt htU hlt
    rw [← hstep ts, ← ih last' _ hheld' (ticksFrom_tail p last last' t ts hticks hl')]
    rfl

/-- The first query after a press answers true and leaves the button held. -/
theorem getButton_first (s : CJoystick) (p t : Nat) (id : Int) (h : buttonPressed p s) :
    (s.GetButton t id true).1 = true ∧ (s.GetButton t id true).2.1 = s.m_ButtonId ∧
      buttonHeld p none (s.GetButton t id true).2.2 := by
  obtain ⟨hen, hact, hid, hp, hpress, hlp, hlast⟩ := h
  have hq : s.GetButton t id true = (true, s.m_ButtonId,
      { s with buttonStatics := { s.buttonStatics with lastPressTicks := s.m_pressTicksButton } }) := by
    unfold CJoystick.GetButton
    simp only [hen, hact, hpress]
    simp [hid, hp, hlp]
  rw [hq]
  exact ⟨rfl, rfl, hen, hact, hid, hp, hpress, hpress, hlast⟩

/-- The first query after a hat press answers true and leaves the hat held. -/
theorem getHat_first (s : CJoystick) (p t : Nat) (h : hatPressed p s) :
    (s.GetHat t true).1 = true ∧ (s.GetHat t true).2.1 = s.m_HatId ∧
      hatHeld p none (s.GetHat t true).2.2.2 := by
  obtain ⟨hen, hact, hid, hp, hpress, hlp, hlast⟩ := h
  have hq : s.GetHat t true = (true, s.m_HatId, (s.m_HatState : Int),
      { s with hatStatics := { s.hatStatics with lastPressTicks := s.m_pressTicksHat } }) := by
    unfold CJoystick.GetHat
    simp only [hen, hact, hpress]
    simp [hid, hp, hlp]
  rw [hq]
  exact ⟨rfl, rfl, hen, hact, hid, hp, hpress, hpress, hlast⟩

theorem repeatSchedule_example (p : Nat) :
    repeatSchedule p none [p + 200, p + 600, p + 1100] = [false, true, true] := by
  rw [repeatSchedule_cons, if_pos (by omega), repeatSchedule_cons, if_neg (by omega)]
  simp only
  rw [repeatSchedule_cons, if_neg (by omega)]
  simp only
  rw [if_pos (by omega)]
  rfl

theorem ticksFrom_example (p : Nat) (h : p + 1100 < UINT32) :
    ticksFrom p none [p + 200, p + 600, p + 1100] := by
  unfold UINT32 at h
  refine ⟨by simp, ?_⟩
  intro t ht
  simp only [List.mem_cons, List.mem_singleton, List.not_mem_nil, or_false] at ht
  refine ⟨by omega, by unfold UINT32; omega, by simp⟩

/-- Claim C2 (repeat schedule): for a held activation with non-zero press timestamp `p`
whose first query has been answered, a run of later queries `GetButton(id, true)` at
non-decreasing ticks returns what the repeat schedule says: false while `t - p < 500`,
true at the first query with `t - p ≥ 500`, and after that true exactly when at least 100
ticks have passed since the last query answered true; the same for `GetHat`. The run may
start before the first repeat (`last = none`) or after a repeat at tick `l`
(`last = some l`). For a fresh press at `p`, queries at `p`, `p+200`, `p+600`, `p+1100`
return true, false, true, true. -/
theorem repeat_schedule (p : Nat) (s : CJoystick) (id : Int) :
    (∀ (last : Option Nat) (ts : List Nat), buttonHeld p last s → ticksFrom p last ts →
      buttonQueries s id ts = repeatSchedule p last ts) ∧
    (∀ (last : Option Nat) (ts : List Nat), hatHeld p last s → ticksFrom p last ts →
      hatQueries s ts = repeatSchedule p last ts) ∧
    (buttonPressed p s → p + 1100 < UINT32 →
      buttonQueries s id [p, p + 200, p + 600, p + 1100] = [true, false, true, true]) ∧
    (hatPressed p s → p + 1100 < UINT32 →
      hatQueries s [p, p + 200, p + 600, p + 1100] = [true, false, true, true]) := by
  refine ⟨fun last ts h1 h2 => buttonQueries_schedule p ts last s id h1 h2,
    fun last ts h1 h2 => hatQueries_schedule p ts last s h1 h2, ?_, ?_⟩
  · intro hpr hU
    obtain ⟨h1, _, h3⟩ := getButton_first s p p id hpr
    show (s.GetButton p id true).1 :: buttonQueries (s.GetButton p id true).2.2
      (s.GetButton p id true).2.1 [p + 200, p + 600, p + 1100] = _
    rw [h1, buttonQueries_schedule p _ none _ _ h3 (ticksFrom_example p hU),
      repeatSchedule_example]
  · intro hpr hU
    obtain ⟨h1, _, h3⟩ := getHat_first s p p hpr
    show (s.GetHat p true).1 :: hatQueries (s.GetHat p true).2.2.2
      [p + 200, p + 600, p + 1100] = _
    rw [h1, hatQueries_schedule p _ none _ h3 (ticksFrom_example p hU),
      repeatSchedule_example]

/-- A button held since tick 1000 and queried at 1200, 1600, 1650, 1700 and 2100. -/
theorem repeat_schedule_witness :
    buttonQueries heldButton 1 [1200, 1600, 1650, 1700, 2100] =
      repeatSchedule 1000 none [1200, 1600, 1650, 1700, 2100] :=
  (repeat_schedule 1000 heldButton 1).1 none [1200, 1600, 1650, 1700, 2100]
    ⟨rfl, rfl, by decide, by decide, rfl, rfl, by decide⟩
    ⟨by decide, by decide⟩


/-- Claim C3, as stated, fails: a press whose timestamp equals the one recorded at the
last first-press answer is not recognised as new. Button 0 is pressed at tick 1000 and
queried (true, id 1), released, and button 1 is pressed within the same millisecond: the
press timestamp is set anew to 1000 and button 2 is active, but the first query after it
returns false, at tick 1000 and at tick 1200 alike. The same happens for the hat. -/
theorem edge_trigger_fails_on_equal_timestamp :
    ((CJoystick.UpdateEvent sampleLimits false 1000 (.JOYBUTTONDOWN 0 0) idle).1.GetButton
      1000 0 true).1 = true ∧
    pressedAgain.IsEnabled = true ∧ pressedAgain.IsButtonActive = true ∧
    pressedAgain.m_ButtonId = 2 ∧ pressedAgain.m_pressTicksButton = 1000 ∧
    (pressedAgain.GetButton 1000 0 true).1 = false ∧
    (pressedAgain.GetButton 1200 0 true).1 = false ∧
    hatPushedAgain.IsHatActive = true ∧ hatPushedAgain.m_HatState = SDL_HAT_RIGHT ∧
    hatPushedAgain.m_pressTicksHat = 1000 ∧
    (hatPushedAgain.GetHat 1000 true).1 = false ∧
    (hatPushedAgain.GetHat 1200 true).1 = false := by
  refine ⟨by decide, by decide, by decide, by decide, by decide, by decide, by decide,
    by decide, by decide, by decide, by decide, by decide⟩

/-- Claim C3 (edge trigger), amended: the first `GetButton(id, true)` query after a press
returns true with the active button id whenever the new press timestamp is 0 or differs
from the timestamp recorded at the last first-press answer (the static `lastPressTicks`),
and likewise the first `GetHat(id, position, true)` after a hat press; this holds for a
button-down or hat-motion event at tick `ticks` and for any state in which the class is
active. When the new timestamp is non-zero and equal to the recorded one, the query is
taken for a repeat and is suppressed during the 500 ticks after the press. -/
theorem edge_trigger (L : Limits) (handler : Bool) (ticks now : Nat) (id0 : Int)
    (s : CJoystick) (hen : s.IsEnabled = true) :
    (∀ which button : Nat, ticks = 0 ∨ ticks ≠ s.buttonStatics.lastPressTicks →
      ((CJoystick.UpdateEvent L handler ticks (.JOYBUTTONDOWN which button) s).1.GetButton
        now id0 true).1 = true ∧
      ((CJoystick.UpdateEvent L handler ticks (.JOYBUTTONDOWN which button) s).1.GetButton
        now id0 true).2.1 = (button : Int) + 1) ∧
    (∀ which hat value : Nat, value ≠ SDL_HAT_CENTERED →
      ticks = 0 ∨ ticks ≠ s.hatStatics.lastPressTicks →
      ((CJoystick.UpdateEvent L handler ticks (.JOYHATMOTION which hat value) s).1.GetHat
        now true).1 = true ∧
      ((CJoystick.UpdateEvent L handler ticks (.JOYHATMOTION which hat value) s).1.GetHat
        now true).2.1 = (hat : Int) + 1 ∧
      ((CJoystick.UpdateEvent L handler ticks (.JOYHATMOTION which hat value) s).1.GetHat
        now true).2.2.1 = (value : Int)) ∧
    (s.IsButtonActive = true →
      s.m_pressTicksButton = 0 ∨ s.m_pressTicksButton ≠ s.buttonStatics.lastPressTicks →
      (s.GetButton now id0 true).1 = true ∧ (s.GetButton now id0 true).2.1 = s.m_ButtonId) ∧
    (s.IsHatActive = true →
      s.m_pressTicksHat = 0 ∨ s.m_pressTicksHat ≠ s.hatStatics.lastPressTicks →
      (s.GetHat now true).1 = true ∧ (s.GetHat now true).2.1 = s.m_HatId) ∧
    (∀ which button : Nat, ticks ≠ 0 → ticks = s.buttonStatics.lastPressTicks →
      sub32 now ticks < 500 →
      ((CJoystick.UpdateEvent L handler ticks (.JOYBUTTONDOWN which button) s).1.GetButton
        now id0 true).1 = false) ∧
    (∀ which hat value : Nat, value ≠ SDL_HAT_CENTERED → ticks ≠ 0 →
      ticks = s.hatStatics.lastPressTicks → sub32 now ticks < 500 →
      ((CJoystick.UpdateEvent L handler ticks (.JOYHATMOTION which hat value) s).1.GetHat
        now true).1 = false) := by
  have hen' : s.m_joystickEnabled = true := hen
  have genB : ∀ t : CJoystick, t.IsEnabled = true → t.IsButtonActive = true →
      t.m_pressTicksButton = 0 ∨ t.m_pressTicksButton ≠ t.buttonStatics.lastPressTicks →
      (t.GetButton now id0 true).1 = true ∧ (t.GetButton now id0 true).2.1 = t.m_ButtonId := by
    intro t h1 h2 h3
    unfold CJoystick.GetButton
    simp only [h1, h2]
    rcases h3 with h0 | hne
    · simp [h0]
    · by_cases hc : t.m_ButtonId ≥ 0 ∧ t.m_pressTicksButton ≠ 0
      · simp [hc, Ne.symm hne]
      · simp [hc]
  have genH : ∀ t : CJoystick, t.IsEnabled = true → t.IsHatActive = true →
      t.m_pressTicksHat = 0 ∨ t.m_pressTicksHat ≠ t.hatStatics.lastPressTicks →
      (t.GetHat now true).1 = true ∧ (t.GetHat now true).2.1 = t.m_HatId ∧
        (t.GetHat now true).2.2.1 = (t.m_HatState : Int) := by
    intro t h1 h2 h3
    unfold CJoystick.GetHat
    simp only [h1, h2]
    rcases h3 with h0 | hne
    · simp [h0]
    · by_cases hc : t.m_HatId ≥ 0 ∧ t.m_pressTicksHat ≠ 0
      · simp [hc, Ne.symm hne]
      · simp [hc]
  refine ⟨?_, ?_, genB s hen, ?_, ?_, ?_⟩
  · intro which button hcond
    have := genB (CJoystick.UpdateEvent L handler ticks (.JOYBUTTONDOWN which button) s).1
      (by simp [CJoystick.UpdateEvent, CJoystick.IsEnabled, CJoystick.SetButtonActive, hen'])
      (by simp [CJoystick.UpdateEvent, CJoystick.IsEnabled, CJoystick.SetButtonActive,
        CJoystick.IsButtonActive, hen'])
      (by simpa [CJoystick.UpdateEvent, CJoystick.IsEnabled, CJoystick.SetButtonActive,
        hen'] using hcond)
    refine ⟨this.1, ?_⟩
    rw [this.2]
    simp [CJoystick.UpdateEvent, CJoystick.IsEnabled, CJoystick.SetButtonActive, hen']
  · intro which hat value hval hcond
    have := genH (CJoystick.UpdateEvent L handler ticks (.JOYHATMOTION which hat value) s).1
      (by simp [CJoystick.UpdateEvent, CJoystick.IsEnabled, CJoystick.SetHatActive, hen'])
      (by simpa [CJoystick.UpdateEvent, CJoystick.IsEnabled, CJoystick.SetHatActive,
        CJoystick.IsHatActive, hen'] using hval)
      (by simpa [CJoystick.UpdateEvent, CJoystick.IsEnabled, CJoystick.SetHatActive,
        hen'] using hcond)
    refine ⟨this.1, ?_, ?_⟩
    · rw [this.2.1]
      simp [CJoystick.UpdateEvent, CJoystick.IsEnabled, CJoystick.SetHatActive, hen']
    · rw [this.2.2]
      simp [CJoystick.UpdateEvent, CJoystick.IsEnabled, CJoystick.SetHatActive, hen']
  · intro h1 h2
    exact ⟨(genH s hen h1 h2).1, (genH s hen h1 h2).2.1⟩
  · intro which button h0 heq hlt
    have hid : (0 : Int) ≤ (button : Int) + 1 := by omega
    simp [CJoystick.UpdateEvent, CJoystick.IsEnabled, CJoystick.SetButtonActive,
      CJoystick.GetButton, CJoystick.IsButtonActive, hen', h0, ← heq, hlt, hid]
  · intro which hat value hval h0 heq hlt
    have hid : (0 : Int) ≤ (hat : Int) + 1 := by omega
    simp [CJoystick.UpdateEvent, CJoystick.IsEnabled, CJoystick.SetHatActive,
      CJoystick.GetHat, CJoystick.IsHatActive, hen', h0, ← heq, hlt, hid, hval]

/-- Button 3 of device 0 goes down at tick 1000 in the idle state: the first query returns
true with id 4. -/
theorem edge_trigger_witness :
    ((CJoystick.UpdateEvent sampleLimits false 1000 (.JOYBUTTONDOWN 0 3) idle).1.GetButton
      1000 0 true).1 = true ∧
    ((CJoystick.UpdateEvent sampleLimits false 1000 (.JOYBUTTONDOWN 0 3) idle).1.GetButton
      1000 0 true).2.1 = ((3 : Nat) : Int) + 1 :=
  (edge_trigger sampleLimits false 1000 1000 0 idle (by decide)).1 0 3 (Or.inr (by decide))

/-! ## Theorems: press timestamps across a polling pass -/

/-- The device loop leaves the settings alone, whatever the devices report. -/
theorem pollLoop_sameSettings (L : Limits) (handler : Bool) (joys : List SDL_Joystick) :
    ∀ (j : Nat) (s : CJoystick) (b h : Int) (out : List Gamepad),
      sameSettings s (CJoystick.pollLoop L handler j joys s b h out).1 := by
  induction joys with
  | nil => intro j s b h out; exact sameSettings_refl s
  | cons joy rest ih =>
    intro j s b h out
    have hdev := pollDevice_sameSettings L joy s b h
    rw [CJoystick.pollLoop]
    by_cases hl : (CJoystick.pollDevice L joy s b h).last = true
    · simp only [hl, if_true]
      exact hdev
    · simp only [hl, if_false]
      exact sameSettings_trans hdev (ih _ _ _ _ _)

/-- The polling pass when the joystick is enabled and the table is not empty. -/
theorem update_eq (L : Limits) (handler : Bool) (ticks : Nat) (s : CJoystick)
    (hen : s.IsEnabled = true) (hne : s.m_Joysticks ≠ []) :
    CJoystick.Update L handler ticks s =
      (CJoystick.pollSettleButton
        (CJoystick.pollSettleHat (CJoystick.pollLoop L handler 0 s.m_Joysticks s (-1) (-1) []).1
          (CJoystick.pollLoop L handler 0 s.m_Joysticks s (-1) (-1) []).2.2.1 ticks)
        (CJoystick.pollLoop L handler 0 s.m_Joysticks s (-1) (-1) []).2.1 ticks,
       (CJoystick.pollLoop L handler 0 s.m_Joysticks s (-1) (-1) []).2.2.2) := by
  unfold CJoystick.Update
  rw [if_neg (by simp [hen]), if_neg (by
    have := List.length_pos.mpr hne
    omega)]

/-- The polling pass when the joystick is disabled or no device is open. -/
theorem update_idle (L : Limits) (handler : Bool) (ticks : Nat) (s : CJoystick)
    (h : s.IsEnabled = false ∨ s.m_Joysticks = []) :
    CJoystick.Update L handler ticks s = (s, []) := by
  unfold CJoystick.Update
  rcases h with h | h
  · rw [if_pos (by simp [h])]
  · by_cases hen : (!s.IsEnabled) = true
    · rw [if_pos hen]
    · rw [if_neg hen, if_pos (by simp [h])]

theorem pollSettleHat_button (s : CJoystick) (hatId : Int) (ticks : Nat) :
    (CJoystick.pollSettleHat s hatId ticks).m_pressTicksButton = s.m_pressTicksButton ∧
    (CJoystick.pollSettleHat s hatId ticks).m_ActiveFlags.button = s.m_ActiveFlags.button ∧
    (CJoystick.pollSettleHat s hatId ticks).buttonStatics = s.buttonStatics ∧
    (CJoystick.pollSettleHat s hatId ticks).hatStatics = s.hatStatics := by
  unfold CJoystick.pollSettleHat
  split_ifs <;> simp [CJoystick.SetHatActive]

theorem pollSettleButton_hat (s : CJoystick) (buttonId : Int) (ticks : Nat) :
    (CJoystick.pollSettleButton s buttonId ticks).m_HatId = s.m_HatId ∧
    (CJoystick.pollSettleButton s buttonId ticks).m_pressTicksHat = s.m_pressTicksHat ∧
    (CJoystick.pollSettleButton s buttonId ticks).m_ActiveFlags.hat = s.m_ActiveFlags.hat ∧
    (CJoystick.pollSettleButton s buttonId ticks).m_HatState = s.m_HatState ∧
    (CJoystick.pollSettleButton s buttonId ticks).buttonStatics = s.buttonStatics ∧
    (CJoystick.pollSettleButton s buttonId ticks).hatStatics = s.hatStatics := by
  unfold CJoystick.pollSettleButton
  split_ifs <;> simp [CJoystick.SetButtonActive]

/-- What the button bookkeeping does to the class, by the local `buttonId`. -/
theorem pollSettleButton_cases (s : CJoystick) (buttonId : Int) (ticks : Nat) :
    (buttonId = -1 ∧ (CJoystick.pollSettleButton s buttonId ticks).IsButtonActive = false ∧
      (CJoystick.pollSettleButton s buttonId ticks).m_pressTicksButton = 0 ∧
      (CJoystick.pollSettleButton s buttonId ticks).m_ButtonId = 0) ∨
    (buttonId ≠ -1 ∧ (CJoystick.pollSettleButton s buttonId ticks).IsButtonActive = true ∧
      (CJoystick.pollSettleButton s buttonId ticks).m_ButtonId = buttonId ∧
      (buttonId = s.m_ButtonId →
        (CJoystick.pollSettleButton s buttonId ticks).m_pressTicksButton = s.m_pressTicksButton) ∧
      (buttonId ≠ s.m_ButtonId →
        (CJoystick.pollSettleButton s buttonId ticks).m_pressTicksButton = ticks)) := by
  unfold CJoystick.pollSettleButton
  by_cases h : buttonId = -1
  · left
    simp [h, CJoystick.SetButtonActive, CJoystick.IsButtonActive]
  · right
    by_cases hb : buttonId = s.m_ButtonId
    · subst hb
      simp [h, CJoystick.SetButtonActive, CJoystick.IsButtonActive]
    · simp [h, hb, CJoystick.SetButtonActive, CJoystick.IsButtonActive]

/-- What the hat bookkeeping does to the class, by the local `hatId`. -/
theorem pollSettleHat_cases (s : CJoystick) (hatId : Int) (ticks : Nat) :
    (hatId = -1 ∧ (CJoystick.pollSettleHat s hatId ticks).IsHatActive = false ∧
      (CJoystick.pollSettleHat s hatId ticks).m_pressTicksHat = 0 ∧
      (CJoystick.pollSettleHat s hatId ticks).m_HatId = 0) ∨
    (hatId ≠ -1 ∧ (CJoystick.pollSettleHat s hatId ticks).IsHatActive = true ∧
      (CJoystick.pollSettleHat s hatId ticks).m_HatId = hatId ∧
      (hatId = s.m_HatId →
        (CJoystick.pollSettleHat s hatId ticks).m_pressTicksHat = s.m_pressTicksHat) ∧
      (hatId ≠ s.m_HatId →
        (CJoystick.pollSettleHat s hatId ticks).m_pressTicksHat = ticks)) := by
  unfold CJoystick.pollSettleHat
  by_cases h : hatId = -1
  · left
    simp [h, CJoystick.SetHatActive, CJoystick.IsHatActive]
  · right
    by_cases hb : hatId = s.m_HatId
    · subst hb
      simp [h, CJoystick.SetHatActive, CJoystick.IsHatActive]
    · simp [h, hb, CJoystick.SetHatActive, CJoystick.IsHatActive]
/-- C11, refuted as stated: the first button is the active one since tick 1000, the device
reports only its second button pressed, and the polling pass at tick 2000 leaves the button
class active, makes the second button the active one and moves the press timestamp from 1000
to 2000; with the hats likewise. -/
theorem press_timestamp_moves_with_the_id :
    buttonSwitched.IsButtonActive = true ∧ buttonSwitched.m_pressTicksButton = 1000 ∧
    (CJoystick.Update sampleLimits false 2000 buttonSwitched).1.IsButtonActive = true ∧
    (CJoystick.Update sampleLimits false 2000 buttonSwitched).1.m_ButtonId = 2 ∧
    (CJoystick.Update sampleLimits false 2000 buttonSwitched).1.m_pressTicksButton = 2000 ∧
    hatSwitched.IsHatActive = true ∧ hatSwitched.m_pressTicksHat = 1000 ∧
    (CJoystick.Update sampleLimits false 2000 hatSwitched).1.IsHatActive = true ∧
    (CJoystick.Update sampleLimits false 2000 hatSwitched).1.m_HatId = 2 ∧
    (CJoystick.Update sampleLimits false 2000 hatSwitched).1.m_pressTicksHat = 2000 := by
  decide

/-- C11, amended: when a polling pass leaves the button class active, the press timestamp is
unchanged if the active button id is the one stored before the pass, and it is the tick of
the pass if the id has changed; the same holds of the hat class with the hat id. -/
theorem press_timestamp_persistence (L : Limits) (handler : Bool) (ticks : Nat)
    (s : CJoystick) :
    ((CJoystick.Update L handler ticks s).1.IsButtonActive = true →
      ((CJoystick.Update L handler ticks s).1.m_ButtonId = s.m_ButtonId →
        (CJoystick.Update L handler ticks s).1.m_pressTicksButton = s.m_pressTicksButton) ∧
      ((CJoystick.Update L handler ticks s).1.m_ButtonId ≠ s.m_ButtonId →
        (CJoystick.Update L handler ticks s).1.m_pressTicksButton = ticks)) ∧
    ((CJoystick.Update L handler ticks s).1.IsHatActive = true →
      ((CJoystick.Update L handler ticks s).1.m_HatId = s.m_HatId →
        (CJoystick.Update L handler ticks s).1.m_pressTicksHat = s.m_pressTicksHat) ∧
      ((CJoystick.Update L handler ticks s).1.m_HatId ≠ s.m_HatId →
        (CJoystick.Update L handler ticks s).1.m_pressTicksHat = ticks)) := by
  by_cases hrun : s.IsEnabled = true ∧ s.m_Joysticks ≠ []
  · obtain ⟨hen, hne⟩ := hrun
    rw [update_eq L handler ticks s hen hne]
    simp only
    obtain ⟨-, hb, hh, -, hpb, hph, -, -, -, -, -, -⟩ :=
      pollLoop_sameSettings L handler s.m_Joysticks 0 s (-1) (-1) []
    generalize CJoystick.pollLoop L handler 0 s.m_Joysticks s (-1) (-1) [] = r at hb hh hpb hph
    obtain ⟨-, hfb, -, -, -⟩ := pollSettleHat_frame r.1 r.2.2.1 ticks
    obtain ⟨hfp, -, -, -⟩ := pollSettleHat_button r.1 r.2.2.1 ticks
    obtain ⟨gid, gp, -, -, -, -⟩ :=
      pollSettleButton_hat (CJoystick.pollSettleHat r.1 r.2.2.1 ticks) r.2.1 ticks
    constructor
    · intro hact
      rcases pollSettleButton_cases (CJoystick.pollSettleHat r.1 r.2.2.1 ticks) r.2.1 ticks with
        ⟨-, hoff, -, -⟩ | ⟨-, -, hid, hsame, hdiff⟩
      · rw [hoff] at hact; exact absurd hact (by decide)
      · rw [hid, ← hpb, ← hb, ← hfb, ← hfp]
        exact ⟨hsame, hdiff⟩
    · intro hact
      have hact' : (CJoystick.pollSettleHat r.1 r.2.2.1 ticks).IsHatActive = true := by
        have := (pollSettleButton_hat (CJoystick.pollSettleHat r.1 r.2.2.1 ticks) r.2.1 ticks).2.2.1
        unfold CJoystick.IsHatActive at hact ⊢
        rw [← this]; exact hact
      rw [gid, gp]
      rcases pollSettleHat_cases r.1 r.2.2.1 ticks with
        ⟨-, hoff, -, -⟩ | ⟨-, -, hid, hsame, hdiff⟩
      · rw [hoff] at hact'; exact absurd hact' (by decide)
      · rw [hid, ← hph, ← hh]
        exact ⟨hsame, hdiff⟩
  · have hidle : s.IsEnabled = false ∨ s.m_Joysticks = [] := by
      by_cases hen : s.IsEnabled = true
      · right
        by_contra hne
        exact hrun ⟨hen, hne⟩
      · left
        simpa using hen
    rw [update_idle L handler ticks s hidle]
    simp

/-- The amended C11 at a concrete input: the second button stays the active one over a
polling pass at tick 2000 and its press timestamp stays 1000. -/
theorem press_timestamp_persistence_witness :
    (CJoystick.Update sampleLimits false 2000 secondButtonHeld).1.IsButtonActive = true ∧
    (CJoystick.Update sampleLimits false 2000 secondButtonHeld).1.m_ButtonId = 2 ∧
    (CJoystick.Update sampleLimits false 2000 secondButtonHeld).1.m_pressTicksButton = 1000 :=
  ⟨by decide, by decide,
    ((press_timestamp_persistence sampleLimits false 2000 secondButtonHeld).1
      (by decide)).1 (by decide)⟩

/-! ## Theorems: press timestamps of inactive classes -/

/-- After a polling pass an inactive class has the press timestamp 0, if it had before. -/
theorem update_cleared (L : Limits) (handler : Bool) (ticks : Nat) (s : CJoystick)
    (hb : s.IsButtonActive = false → s.m_pressTicksButton = 0)
    (hh : s.IsHatActive = false → s.m_pressTicksHat = 0) :
    ((CJoystick.Update L handler ticks s).1.IsButtonActive = false →
      (CJoystick.Update L handler ticks s).1.m_pressTicksButton = 0) ∧
    ((CJoystick.Update L handler ticks s).1.IsHatActive = false →
      (CJoystick.Update L handler ticks s).1.m_pressTicksHat = 0) := by
  by_cases hrun : s.IsEnabled = true ∧ s.m_Joysticks ≠ []
  · obtain ⟨hen, hne⟩ := hrun
    rw [update_eq L handler ticks s hen hne]
    simp only
    generalize CJoystick.pollLoop L handler 0 s.m_Joysticks s (-1) (-1) [] = r
    constructor
    · intro hoff
      rcases pollSettleButton_cases (CJoystick.pollSettleHat r.1 r.2.2.1 ticks) r.2.1 ticks with
        ⟨-, -, hz, -⟩ | ⟨-, hon, -, -, -⟩
      · exact hz
      · rw [hon] at hoff; exact absurd hoff (by decide)
    · obtain ⟨-, gp, gf, -, -, -⟩ :=
        pollSettleButton_hat (CJoystick.pollSettleHat r.1 r.2.2.1 ticks) r.2.1 ticks
      intro hoff
      rw [gp]
      unfold CJoystick.IsHatActive at hoff
      rw [gf] at hoff
      rcases pollSettleHat_cases r.1 r.2.2.1 ticks with ⟨-, -, hz, -⟩ | ⟨-, hon, -, -, -⟩
      · exact hz
      · unfold CJoystick.IsHatActive at hon
        rw [hon] at hoff; exact absurd hoff (by decide)
  · have hidle : s.IsEnabled = false ∨ s.m_Joysticks = [] := by
      by_cases hen : s.IsEnabled = true
      · right
        by_contra hne
        exact hrun ⟨hen, hne⟩
      · left
        simpa using hen
    rw [update_idle L handler ticks s hidle]
    exact ⟨hb, hh⟩

/-- After an event an inactive button class has the press timestamp 0, if it had before. -/
theorem updateEvent_button_cleared (L : Limits) (handler : Bool) (ticks : Nat)
    (joyEvent : SDL_Event) (s : CJoystick)
    (hb : s.IsButtonActive = false → s.m_pressTicksButton = 0) :
    (CJoystick.UpdateEvent L handler ticks joyEvent s).1.IsButtonActive = false →
      (CJoystick.UpdateEvent L handler ticks joyEvent s).1.m_pressTicksButton = 0 := by
  unfold CJoystick.UpdateEvent
  by_cases hen : s.IsEnabled = true
  · simp only [hen, Bool.not_true, Bool.false_eq_true, if_false]
    cases joyEvent with
    | JOYBUTTONDOWN which button =>
      simp [CJoystick.SetButtonActive, CJoystick.IsButtonActive]
    | JOYAXISMOTION which axis value =>
      simp only
      split_ifs <;>
        simpa [CJoystick.GetAxisWithMaxAmount, CJoystick.IsButtonActive] using hb
    | JOYHATMOTION which hat value =>
      simpa [CJoystick.SetHatActive, CJoystick.IsButtonActive] using hb
    | JOYBALLMOTION => exact hb
    | JOYBUTTONUP which button =>
      simp [CJoystick.SetButtonActive, CJoystick.IsButtonActive]
    | other => exact hb
  · simp only [hen, Bool.not_false, if_true]
    exact hb
/-- The button half of the timestamp invariant holds along every run of polling ticks and
events: an inactive button class has the press timestamp 0. -/
theorem button_timestamp_cleared (L : Limits) (acts : List Action) :
    ∀ s : CJoystick, (∀ a ∈ acts, a.isInput = true) →
      (s.IsButtonActive = false → s.m_pressTicksButton = 0) →
      (run L s acts).IsButtonActive = false → (run L s acts).m_pressTicksButton = 0 := by
  induction acts with
  | nil => intro s _ hb; exact hb
  | cons a rest ih =>
    intro s hin hb
    have hrest : ∀ b ∈ rest, b.isInput = true := fun b hmem =>
      hin b (List.mem_cons_of_mem a hmem)
    have ha : a.isInput = true := hin a (List.mem_cons_self a rest)
    have hstep : (perform L s a).IsButtonActive = false →
        (perform L s a).m_pressTicksButton = 0 := by
      cases a with
      | poll handler ticks samples =>
        by_cases hrun : (s.refresh samples).IsEnabled = true ∧ (s.refresh samples).m_Joysticks ≠ []
        · show (CJoystick.Update L handler ticks (s.refresh samples)).1.IsButtonActive = false →
            (CJoystick.Update L handler ticks (s.refresh samples)).1.m_pressTicksButton = 0
          rw [update_eq L handler ticks _ hrun.1 hrun.2]
          simp only
          intro hoff
          rcases pollSettleButton_cases
            (CJoystick.pollSettleHat
              (CJoystick.pollLoop L handler 0 (s.refresh samples).m_Joysticks (s.refresh samples)
                (-1) (-1) []).1
              (CJoystick.pollLoop L handler 0 (s.refresh samples).m_Joysticks (s.refresh samples)
                (-1) (-1) []).2.2.1 ticks)
            (CJoystick.pollLoop L handler 0 (s.refresh samples).m_Joysticks (s.refresh samples)
                (-1) (-1) []).2.1 ticks with
            ⟨-, -, hz, -⟩ | ⟨-, hon, -, -, -⟩
          · exact hz
          · rw [hon] at hoff; exact absurd hoff (by decide)
        · have hidle : (s.refresh samples).IsEnabled = false ∨ (s.refresh samples).m_Joysticks = [] := by
            by_cases hen : (s.refresh samples).IsEnabled = true
            · right
              by_contra hne
              exact hrun ⟨hen, hne⟩
            · left
              simpa using hen
          show (CJoystick.Update L handler ticks (s.refresh samples)).1.IsButtonActive = false →
            (CJoystick.Update L handler ticks (s.refresh samples)).1.m_pressTicksButton = 0
          rw [update_idle L handler ticks _ hidle]
          unfold CJoystick.refresh
          split_ifs
          · exact hb
          · exact hb
      | event handler ticks joyEvent =>
        exact updateEvent_button_cleared L handler ticks joyEvent s hb
      | getButton _ _ _ => exact absurd ha (by simp [Action.isInput])
      | getHat _ _ => exact absurd ha (by simp [Action.isInput])
      | setDeadzone _ => exact absurd ha (by simp [Action.isInput])
      | setEnabled _ _ _ _ _ => exact absurd ha (by simp [Action.isInput])
      | acquire _ _ _ => exact absurd ha (by simp [Action.isInput])
      | release _ => exact absurd ha (by simp [Action.isInput])
      | reacquire _ _ _ _ => exact absurd ha (by simp [Action.isInput])
    exact ih (perform L s a) hrest hstep

/-- C12, the failing input: the neutral state, then the event that a hat is pushed up at
tick 1000 and the event that it is centred again at tick 1200. Both steps are discrete
events; afterwards the hat class is inactive and the hat press timestamp is 1200, not 0. -/
theorem hat_timestamp_survives_centering :
    neutral idle ∧ (∀ a ∈ hatTapped, a.isInput = true) ∧
    (run sampleLimits idle hatTapped).IsHatActive = false ∧
    (run sampleLimits idle hatTapped).m_pressTicksHat = 1200 := by
  refine ⟨⟨rfl, rfl, rfl⟩, by decide, by decide, by decide⟩

/-! ## Theorems: teardown -/

/-- The loop of `Reset` in closed form. -/
theorem resetAxes_fold (n : Nat) (s : CJoystick) :
    (List.range n).foldl (fun t i => CJoystick.ResetAxis t i) s =
      { s with m_Amount := fun i => if i < n then 0 else s.m_Amount i } := by
  induction n with
  | zero => simp
  | succ n ih =>
    rw [List.range_succ, List.foldl_append, ih]
    simp only [List.foldl_cons, List.foldl_nil, CJoystick.ResetAxis]
    congr 1
    funext i
    by_cases hi : i = n
    · subst hi
      simp
    · rw [Function.update_noteq hi]
      by_cases hlt : i < n
      · simp [hlt, Nat.lt_succ_of_lt hlt]
      · have : ¬ i < n + 1 := by omega
        simp [hlt, this]

/-- The teardown in closed form. -/
theorem releaseJoysticks_eq (L : Limits) (stopped : Bool) (s : CJoystick) :
    CJoystick.ReleaseJoysticks L stopped s =
      ({ s with m_Joysticks := [], m_JoystickNames := [], m_HatId := 0, m_ButtonId := 0,
                m_HatState := SDL_HAT_CENTERED, m_ActiveFlags := JACTIVE_NONE,
                m_Amount := fun i => if i < L.MAX_AXES then 0 else s.m_Amount i }, stopped) := by
  unfold CJoystick.ReleaseJoysticks CJoystick.Reset
  simp only [if_true]
  rw [resetAxes_fold]
  rfl

/-- C13, refuted as stated: a button held since tick 1000 and a hat held since tick 1000;
after the teardown the press timestamp is still 1000 in both cases. -/
theorem release_keeps_press_timestamps :
    (CJoystick.ReleaseJoysticks sampleLimits true heldButton).1.m_pressTicksButton = 1000 ∧
    (CJoystick.ReleaseJoysticks sampleLimits true heldHat).1.m_pressTicksHat = 1000 := by
  decide

/-- C13, amended: for every state, after `ReleaseJoysticks` the device table and the name
table are empty, no class is active, the active button id and hat id are 0, the hat state is
centred and every stored axis sample (index below `MAX_AXES`) is 0; the button and hat press
timestamps are what they were before the call. -/
theorem release_postcondition (L : Limits) (stopped : Bool) (s : CJoystick) :
    (CJoystick.ReleaseJoysticks L stopped s).1.m_Joysticks = [] ∧
    (CJoystick.ReleaseJoysticks L stopped s).1.m_JoystickNames = [] ∧
    (CJoystick.ReleaseJoysticks L stopped s).1.IsButtonActive = false ∧
    (CJoystick.ReleaseJoysticks L stopped s).1.IsHatActive = false ∧
    (CJoystick.ReleaseJoysticks L stopped s).1.IsAxisActive = false ∧
    (CJoystick.ReleaseJoysticks L stopped s).1.m_ButtonId = 0 ∧
    (CJoystick.ReleaseJoysticks L stopped s).1.m_HatId = 0 ∧
    (CJoystick.ReleaseJoysticks L stopped s).1.m_HatState = SDL_HAT_CENTERED ∧
    (∀ i : Nat, i < L.MAX_AXES → (CJoystick.ReleaseJoysticks L stopped s).1.m_Amount i = 0) ∧
    (CJoystick.ReleaseJoysticks L stopped s).1.m_pressTicksButton = s.m_pressTicksButton ∧
    (CJoystick.ReleaseJoysticks L stopped s).1.m_pressTicksHat = s.m_pressTicksHat := by
  rw [releaseJoysticks_eq]
  refine ⟨rfl, rfl, rfl, rfl, rfl, rfl, rfl, rfl, ?_, rfl, rfl⟩
  intro i hi
  simp [hi]

/-- The amended C13 at a concrete input: after the teardown of the state with a button held,
the stored sample of axis 5 is 0. -/
theorem release_postcondition_witness :
    5 < sampleLimits.MAX_AXES ∧
    (CJoystick.ReleaseJoysticks sampleLimits true heldButton).1.m_Amount 5 = 0 :=
  ⟨by decide,
    (release_postcondition sampleLimits true heldButton).2.2.2.2.2.2.2.2.1 5 (by decide)⟩

/-- C14: for every state, `ReleaseJoysticks` applied twice gives the same state and the same
return value as applied once, when the subsystem reports the same stop result both times;
the device table is empty after the first call and after the second. -/
theorem release_idempotent (L : Limits) (stopped : Bool) (s : CJoystick) :
    CJoystick.ReleaseJoysticks L stopped (CJoystick.ReleaseJoysticks L stopped s).1 =
      CJoystick.ReleaseJoysticks L stopped s ∧
    (CJoystick.ReleaseJoysticks L stopped s).1.m_Joysticks = [] ∧
    (CJoystick.ReleaseJoysticks L stopped
      (CJoystick.ReleaseJoysticks L stopped s).1).1.m_Joysticks = [] := by
  rw [releaseJoysticks_eq L stopped (CJoystick.ReleaseJoysticks L stopped s).1,
    releaseJoysticks_eq L stopped s]
  refine ⟨?_, rfl, rfl⟩
  simp only [Prod.mk.injEq, and_true]
  congr 1
  funext i
  by_cases hi : i < L.MAX_AXES
  · simp [hi]
  · simp [hi]

/-! ## Theorems: hat decomposition -/

/-- C15: for every raw hat value (so for every 8-bit one), the decomposition of the polling
path and that of the event path agree; `up` is set iff the value has the UP bit, `right` iff
it has the RIGHT bit, `down` only if it has the DOWN bit, `left` only if it has the LEFT bit;
`up` and `down` are never both set, nor `left` and `right`; and `UP|RIGHT` sets exactly `up`
and `right`. -/
theorem hat_decomposition (v : Nat) :
    CJoystick.pollHat v = CJoystick.eventHat v ∧
    ((CJoystick.pollHat v).up = true ↔ v &&& SDL_HAT_UP ≠ 0) ∧
    ((CJoystick.pollHat v).right = true ↔ v &&& SDL_HAT_RIGHT ≠ 0) ∧
    ((CJoystick.pollHat v).down = true → v &&& SDL_HAT_DOWN ≠ 0) ∧
    ((CJoystick.pollHat v).left = true → v &&& SDL_HAT_LEFT ≠ 0) ∧
    ¬ ((CJoystick.pollHat v).up = true ∧ (CJoystick.pollHat v).down = true) ∧
    ¬ ((CJoystick.pollHat v).left = true ∧ (CJoystick.pollHat v).right = true) ∧
    CJoystick.pollHat (SDL_HAT_UP ||| SDL_HAT_RIGHT) =
      { up := true, down := false, right := true, left := false } := by
  refine ⟨rfl, ?_, ?_, ?_, ?_, ?_, ?_, by decide⟩
  · simp [CJoystick.pollHat]
  · simp [CJoystick.pollHat]
  · simp only [CJoystick.pollHat, Bool.and_eq_true, decide_eq_true_eq]
    exact fun h => h.2
  · simp only [CJoystick.pollHat, Bool.and_eq_true, decide_eq_true_eq]
    exact fun h => h.2
  · simp only [CJoystick.pollHat, Bool.and_eq_true, decide_eq_true_eq, Bool.not_eq_true_eq_eq_false,
      decide_eq_false_iff_not, Bool.not_eq_true']
    intro h
    exact h.2.1 h.1
  · simp only [CJoystick.pollHat, Bool.and_eq_true, decide_eq_true_eq, Bool.not_eq_true_eq_eq_false,
      decide_eq_false_iff_not, Bool.not_eq_true']
    intro h
    exact h.1.1 h.2

/-! ## Theorems: event mode -/

/-- C16: when the joystick is enabled, a button-down event for button index `button` at tick
`ticks` leaves the button class active with the active id `button + 1` and the press
timestamp `ticks`; a button-up event, whatever button it names, leaves the button class
inactive with the press timestamp 0, and `GetButton` then returns false with the id 0. -/
theorem event_mode_buttons (L : Limits) (handler : Bool) (ticks which button : Nat)
    (s : CJoystick) (hen : s.IsEnabled = true) :
    (CJoystick.UpdateEvent L handler ticks (.JOYBUTTONDOWN which button) s).1.IsButtonActive
      = true ∧
    (CJoystick.UpdateEvent L handler ticks (.JOYBUTTONDOWN which button) s).1.m_ButtonId
      = (button : Int) + 1 ∧
    (CJoystick.UpdateEvent L handler ticks
      (.JOYBUTTONDOWN which button) s).1.m_pressTicksButton = ticks ∧
    (CJoystick.UpdateEvent L handler ticks (.JOYBUTTONUP which button) s).1.IsButtonActive
      = false ∧
    (CJoystick.UpdateEvent L handler ticks
      (.JOYBUTTONUP which button) s).1.m_pressTicksButton = 0 ∧
    ∀ (now : Nat) (id : Int) (consider_repeat : Bool),
      ((CJoystick.UpdateEvent L handler ticks (.JOYBUTTONUP which button) s).1.GetButton
        now id consider_repeat).1 = false ∧
      ((CJoystick.UpdateEvent L handler ticks (.JOYBUTTONUP which button) s).1.GetButton
        now id consider_repeat).2.1 = 0 := by
  unfold CJoystick.UpdateEvent
  simp only [hen, Bool.not_true, Bool.false_eq_true, if_false]
  refine ⟨rfl, rfl, rfl, rfl, rfl, ?_⟩
  intro now id consider_repeat
  simp [CJoystick.GetButton, CJoystick.SetButtonActive, CJoystick.IsButtonActive]

/-- C16 at a concrete input: in the enabled state with nothing active, the event that
button 3 of device 0 went down at tick 1000 makes button id 4 the active one. -/
theorem event_mode_buttons_witness :
    idle.IsEnabled = true ∧
    (CJoystick.UpdateEvent sampleLimits false 1000 (.JOYBUTTONDOWN 0 3) idle).1.m_ButtonId
      = 4 :=
  ⟨rfl, (event_mode_buttons sampleLimits false 1000 0 3 idle rfl).2.1⟩

/-- The state after an axis-motion event whose axis id is in range. -/
theorem updateEvent_axis_state (L : Limits) (handler : Bool) (ticks which axis : Nat)
    (value : Int) (s : CJoystick) (hen : s.IsEnabled = true)
    (ha : (axis : Int) + 1 < (L.MAX_AXES : Int)) :
    (CJoystick.UpdateEvent L handler ticks (.JOYAXISMOTION which axis value) s).1 =
      { (CJoystick.GetAxisWithMaxAmount
          { s with m_NumAxes :=
                     ((s.m_Joysticks[which]?).map (fun joy => (joy.axes.length : Int))).getD 0,
                   m_JoyId := (which : Int),
                   m_Amount := Function.update s.m_Amount (axis + 1) value }).1 with
        m_AxisId := (CJoystick.GetAxisWithMaxAmount
          { s with m_NumAxes :=
                     ((s.m_Joysticks[which]?).map (fun joy => (joy.axes.length : Int))).getD 0,
                   m_JoyId := (which : Int),
                   m_Amount := Function.update s.m_Amount (axis + 1) value }).2 } := by
  have hrange : ¬ ((axis : Int) + 1 ≤ 0 ∨ (axis : Int) + 1 ≥ (L.MAX_AXES : Int)) := by omega
  have hnat : ((axis : Int) + 1).toNat = axis + 1 := by omega
  simp only [CJoystick.UpdateEvent, hen, Bool.not_true, Bool.false_eq_true, if_false, hrange,
    hnat]
  by_cases hv : value = 0
  · subst hv
    simp only [if_true]
  · simp only [hv, if_false]

/-- The scan of `GetAxisWithMaxAmount` reads the samples, the axis count and the threshold
only. -/
theorem axisScan_congr (s t : CJoystick) (hA : t.m_Amount = s.m_Amount)
    (hN : t.m_NumAxes = s.m_NumAxes) (hD : t.m_DeadzoneRange = s.m_DeadzoneRange) :
    CJoystick.axisScan t = CJoystick.axisScan s := by
  unfold CJoystick.axisScan
  rw [hN]
  have hstep : CJoystick.axisStep t = CJoystick.axisStep s := by
    funext acc i
    simp only [CJoystick.axisStep, hA, hD]
  rw [hstep]

/-! ## Theorems: snapshot delivery -/

/-- When no device of the table shows any activity, the handler receives one snapshot for
each device. -/
theorem update_quiet_snapshots (L : Limits) (ticks : Nat) (s : CJoystick)
    (hen : s.IsEnabled = true) (hne : s.m_Joysticks ≠ []) (hd : 0 ≤ s.m_DeadzoneRange)
    (hq : ∀ q ∈ s.m_Joysticks, quiet L s.m_DeadzoneRange q) :
    (CJoystick.Update L true ticks s).2.length = s.m_Joysticks.length := by
  rw [update_eq L true ticks s hen hne]
  obtain ⟨s', out', hloop, -, -, -, hlen⟩ :=
    pollLoop_quiet L true s.m_DeadzoneRange hd [] s.m_Joysticks hq 0 s (-1) (-1) [] rfl
  rw [List.append_nil] at hloop
  simp only [hloop, CJoystick.pollLoop]
  simpa using hlen

/-- C18, the failing input: two open devices, the first with a button pressed, the joystick
enabled and a handler supplied. The polling pass hands over one snapshot, that of the first
device; the second device gets none. -/
theorem snapshots_stop_at_first_active_device :
    buttonPadFirst.IsEnabled = true ∧ buttonPadFirst.m_Joysticks.length = 2 ∧
    (CJoystick.Update sampleLimits true 1000 buttonPadFirst).2.length = 1 ∧
    (CJoystick.Update sampleLimits true 1000 buttonPadFirst).2.map (fun g => g.name) = ["b"] := by
  decide

/-! ## Theorems: the deadzone setting -/

/-- The value `SetDeadzone` returns. -/
theorem setDeadzone_value (s : CJoystick) (v : ℚ) :
    (s.SetDeadzone v).2 = max 0 (min 1 v) := by
  simp only [CJoystick.SetDeadzone]
  by_cases h0 : v < 0
  · have h1 : ¬ (0 : ℚ) > 1 := by norm_num
    rw [if_pos h0, if_neg h1, min_eq_right (by linarith), max_eq_left (by linarith)]
  · rw [if_neg h0]
    by_cases h1 : v > 1
    · rw [if_pos h1, min_eq_left (by linarith), max_eq_right (by norm_num)]
    · rw [if_neg h1, min_eq_right (by linarith), max_eq_right (by linarith)]

/-- C19: for every fraction `v`, `SetDeadzone(v)` returns `max(0, min(1, v))`, which is `v`
itself when `0 ≤ v ≤ 1`; calling it again with the returned value returns the same value and
leaves the same state; the threshold it stores is the truncation of the returned value times
`MAX_AXISAMOUNT`, and lies between 0 and `MAX_AXISAMOUNT`. -/
theorem setDeadzone_clamping (s : CJoystick) (v : ℚ) :
    (s.SetDeadzone v).2 = max 0 (min 1 v) ∧
    (0 ≤ v → v ≤ 1 → (s.SetDeadzone v).2 = v) ∧
    (s.SetDeadzone v).1.SetDeadzone (s.SetDeadzone v).2 = s.SetDeadzone v ∧
    (s.SetDeadzone v).1.m_DeadzoneRange =
      CJoystick.truncate ((s.SetDeadzone v).2 * MAX_AXISAMOUNT) ∧
    0 ≤ (s.SetDeadzone v).1.m_DeadzoneRange ∧
    (s.SetDeadzone v).1.m_DeadzoneRange ≤ MAX_AXISAMOUNT := by
  have hval := setDeadzone_value s v
  have hrange := setDeadzone_threshold_range s v
  refine ⟨hval, ?_, ?_, rfl, hrange.1, hrange.2⟩
  · intro h0 h1
    rw [hval, min_eq_right h1, max_eq_right h0]
  · have hlo : ¬ (s.SetDeadzone v).2 < 0 := by
      rw [hval]; exact not_lt.mpr (le_max_left _ _)
    have hhi : ¬ (s.SetDeadzone v).2 > 1 := by
      rw [hval]
      exact not_lt.mpr (max_le (by norm_num) (min_le_left _ _))
    have hstep : ∀ (t : CJoystick) (w : ℚ), ¬ w < 0 → ¬ w > 1 →
        t.SetDeadzone w = ({ t with m_DeadzoneRange := CJoystick.truncate (w * MAX_AXISAMOUNT) }, w) := by
      intro t w h0 h1
      simp only [CJoystick.SetDeadzone, h0, h1, if_false]
    rw [hstep _ _ hlo hhi]
    rfl

/-- C19 at a concrete input: `SetDeadzone(1/2)` returns 1/2 and stores the threshold
16384. -/
theorem setDeadzone_clamping_witness :
    (0 : ℚ) ≤ 1 / 2 ∧ (1 / 2 : ℚ) ≤ 1 ∧ (idle.SetDeadzone (1 / 2)).2 = 1 / 2 ∧
    (idle.SetDeadzone (1 / 2)).1.m_DeadzoneRange = 16384 :=
  ⟨by norm_num, by norm_num,
    (setDeadzone_clamping idle (1 / 2)).2.1 (by norm_num) (by norm_num),
    by norm_num [CJoystick.SetDeadzone, CJoystick.truncate, MAX_AXISAMOUNT]⟩

/-! ## Theorems: the queries -/

/-- A polling pass does not switch the joystick on or off. -/
theorem update_enabled (L : Limits) (handler : Bool) (ticks : Nat) (s : CJoystick) :
    (CJoystick.Update L handler ticks s).1.IsEnabled = s.IsEnabled := by
  by_cases hrun : s.IsEnabled = true ∧ s.m_Joysticks ≠ []
  · obtain ⟨hen, hne⟩ := hrun
    rw [update_eq L handler ticks s hen hne]
    simp only
    obtain ⟨-, -, -, hE, -, -, -, -, -, -, -, -⟩ :=
      pollLoop_sameSettings L handler s.m_Joysticks 0 s (-1) (-1) []
    generalize CJoystick.pollLoop L handler 0 s.m_Joysticks s (-1) (-1) [] = r at hE
    unfold CJoystick.IsEnabled
    rw [(pollSettleButton_frame _ _ _).1, (pollSettleHat_frame _ _ _).1, hE]
  · have hidle : s.IsEnabled = false ∨ s.m_Joysticks = [] := by
      by_cases hen : s.IsEnabled = true
      · right
        by_contra hne
        exact hrun ⟨hen, hne⟩
      · left
        simpa using hen
    rw [update_idle L handler ticks s hidle]

/-- An event does nothing to a disabled joystick and leaves an enabled one enabled. -/
theorem updateEvent_enabled (L : Limits) (handler : Bool) (ticks : Nat)
    (joyEvent : SDL_Event) (s : CJoystick) :
    (s.IsEnabled = false → (CJoystick.UpdateEvent L handler ticks joyEvent s).1 = s) ∧
    (s.IsEnabled = true →
      (CJoystick.UpdateEvent L handler ticks joyEvent s).1.IsEnabled = true) := by
  unfold CJoystick.UpdateEvent
  constructor
  · intro hen
    simp only [hen, Bool.not_false, if_true]
  · intro hen
    simp only [hen, Bool.not_true, Bool.false_eq_true, if_false]
    cases joyEvent with
    | JOYBUTTONDOWN which button => exact hen
    | JOYAXISMOTION which axis value =>
      simp only
      split_ifs <;> exact hen
    | JOYHATMOTION which hat value => exact hen
    | JOYBALLMOTION => exact hen
    | JOYBUTTONUP which button => exact hen
    | other => exact hen

/-- What `GetButton` leaves alone: everything but the statics of its timer. -/
theorem getButton_frame (s : CJoystick) (ticks : Nat) (id : Int) (consider_repeat : Bool) :
    (s.GetButton ticks id consider_repeat).2.2 =
      { s with buttonStatics := (s.GetButton ticks id consider_repeat).2.2.buttonStatics } := by
  unfold CJoystick.GetButton
  dsimp only
  split_ifs <;> rfl

/-- What `GetHat` leaves alone: everything but the statics of its timer. -/
theorem getHat_frame (s : CJoystick) (ticks : Nat) (consider_repeat : Bool) :
    (s.GetHat ticks consider_repeat).2.2.2 =
      { s with hatStatics := (s.GetHat ticks consider_repeat).2.2.2.hatStatics } := by
  unfold CJoystick.GetHat
  dsimp only
  split_ifs <;> rfl
/-- The acquisition of the devices leaves the enabled flag and the activation flags. -/
theorem initialize_frame (initOk : Bool) (deadzone : ℚ)
    (opened : List (Option SDL_Joystick × String)) (s : CJoystick) :
    (CJoystick.Initialize initOk deadzone opened s).m_joystickEnabled = s.m_joystickEnabled ∧
    (CJoystick.Initialize initOk deadzone opened s).m_ActiveFlags = s.m_ActiveFlags := by
  unfold CJoystick.Initialize
  dsimp only
  split_ifs <;> exact ⟨rfl, rfl⟩

/-- The teardown leaves no class active. -/
theorem releaseJoysticks_flags (L : Limits) (stopped : Bool) (s : CJoystick) :
    (CJoystick.ReleaseJoysticks L stopped s).1.m_ActiveFlags = JACTIVE_NONE ∧
    (CJoystick.ReleaseJoysticks L stopped s).1.m_joystickEnabled = s.m_joystickEnabled := by
  rw [releaseJoysticks_eq]
  exact ⟨rfl, rfl⟩

/-- One call keeps the guard of the queries sound: a class is active only while the
joystick is enabled. -/
theorem perform_guard (L : Limits) (s : CJoystick) (a : Action)
    (h : s.IsEnabled = true ∨ (s.IsButtonActive = false ∧ s.IsHatActive = false)) :
    (perform L s a).IsEnabled = true ∨
      ((perform L s a).IsButtonActive = false ∧ (perform L s a).IsHatActive = false) := by
  cases a with
  | poll handler ticks samples =>
    have h1 : (s.refresh samples).IsEnabled = true ∨
        ((s.refresh samples).IsButtonActive = false ∧
          (s.refresh samples).IsHatActive = false) := by
      unfold CJoystick.refresh
      split_ifs
      · exact h
      · exact h
    show (CJoystick.Update L handler ticks (s.refresh samples)).1.IsEnabled = true ∨
      ((CJoystick.Update L handler ticks (s.refresh samples)).1.IsButtonActive = false ∧
        (CJoystick.Update L handler ticks (s.refresh samples)).1.IsHatActive = false)
    by_cases hen : (s.refresh samples).IsEnabled = true
    · left
      rw [update_enabled]
      exact hen
    · have hoff : (s.refresh samples).IsEnabled = false := by simpa using hen
      rw [update_idle L handler ticks _ (Or.inl hoff)]
      exact h1
  | event handler ticks joyEvent =>
    show (CJoystick.UpdateEvent L handler ticks joyEvent s).1.IsEnabled = true ∨
      ((CJoystick.UpdateEvent L handler ticks joyEvent s).1.IsButtonActive = false ∧
        (CJoystick.UpdateEvent L handler ticks joyEvent s).1.IsHatActive = false)
    by_cases hen : s.IsEnabled = true
    · left
      exact (updateEvent_enabled L handler ticks joyEvent s).2 hen
    · have hoff : s.IsEnabled = false := by simpa using hen
      rw [(updateEvent_enabled L handler ticks joyEvent s).1 hoff]
      exact h
  | getButton ticks id consider_repeat =>
    show (s.GetButton ticks id consider_repeat).2.2.IsEnabled = true ∨
      ((s.GetButton ticks id consider_repeat).2.2.IsButtonActive = false ∧
        (s.GetButton ticks id consider_repeat).2.2.IsHatActive = false)
    rw [getButton_frame]
    exact h
  | getHat ticks consider_repeat =>
    show (s.GetHat ticks consider_repeat).2.2.2.IsEnabled = true ∨
      ((s.GetHat ticks consider_repeat).2.2.2.IsButtonActive = false ∧
        (s.GetHat ticks consider_repeat).2.2.2.IsHatActive = false)
    rw [getHat_frame]
    exact h
  | setDeadzone val => exact h
  | setEnabled enabled initOk deadzone opened stopped =>
    show (CJoystick.SetEnabled L enabled initOk deadzone opened stopped s).IsEnabled = true ∨
      ((CJoystick.SetEnabled L enabled initOk deadzone opened stopped s).IsButtonActive
          = false ∧
        (CJoystick.SetEnabled L enabled initOk deadzone opened stopped s).IsHatActive = false)
    unfold CJoystick.SetEnabled
    split_ifs
    · left
      unfold CJoystick.IsEnabled
      rw [(initialize_frame initOk deadzone opened _).1]
    · right
      unfold CJoystick.IsButtonActive CJoystick.IsHatActive
      simp only [(releaseJoysticks_flags L stopped s).1]
      exact ⟨rfl, rfl⟩
    · exact h
  | acquire initOk deadzone opened =>
    show (CJoystick.Initialize initOk deadzone opened s).IsEnabled = true ∨
      ((CJoystick.Initialize initOk deadzone opened s).IsButtonActive = false ∧
        (CJoystick.Initialize initOk deadzone opened s).IsHatActive = false)
    unfold CJoystick.IsEnabled CJoystick.IsButtonActive CJoystick.IsHatActive
    rw [(initialize_frame initOk deadzone opened s).1,
      (initialize_frame initOk deadzone opened s).2]
    exact h
  | release stopped =>
    right
    show (CJoystick.ReleaseJoysticks L stopped s).1.IsButtonActive = false ∧
      (CJoystick.ReleaseJoysticks L stopped s).1.IsHatActive = false
    unfold CJoystick.IsButtonActive CJoystick.IsHatActive
    rw [(releaseJoysticks_flags L stopped s).1]
    exact ⟨rfl, rfl⟩
  | reacquire initOk deadzone opened stopped =>
    right
    show (CJoystick.Reinitialize L initOk deadzone opened stopped s).1.IsButtonActive = false ∧
      (CJoystick.Reinitialize L initOk deadzone opened stopped s).1.IsHatActive = false
    unfold CJoystick.Reinitialize CJoystick.IsButtonActive CJoystick.IsHatActive
    split_ifs
    · simp only [(releaseJoysticks_flags L stopped s).1]
      exact ⟨rfl, rfl⟩
    · simp only [(initialize_frame initOk deadzone opened _).2,
        (releaseJoysticks_flags L stopped s).1]
      exact ⟨rfl, rfl⟩

/-- A sequence of calls keeps the guard of the queries sound. -/
theorem run_guard (L : Limits) (acts : List Action) :
    ∀ s : CJoystick,
      (s.IsEnabled = true ∨ (s.IsButtonActive = false ∧ s.IsHatActive = false)) →
      ((run L s acts).IsEnabled = true ∨
        ((run L s acts).IsButtonActive = false ∧ (run L s acts).IsHatActive = false)) := by
  induction acts with
  | nil => intro s h; exact h
  | cons a rest ih =>
    intro s h
    exact ih (perform L s a) (perform_guard L s a h)

/-- The constructed object has no class active. -/
theorem ctor_flags (L : Limits) :
    (CJoystick.ctor L).IsButtonActive = false ∧ (CJoystick.ctor L).IsHatActive = false := by
  exact ⟨rfl, rfl⟩

/-- In every state the object can be in, a class is active only while the joystick is
enabled. -/
theorem reachable_guard (L : Limits) (s : CJoystick) (h : Reachable L s) :
    s.IsEnabled = true ∨ (s.IsButtonActive = false ∧ s.IsHatActive = false) := by
  obtain ⟨acts, rfl⟩ := h
  exact run_guard L acts _ (Or.inr (ctor_flags L))
/-- C20: for every state and both values of `consider_repeat`, `GetButton` and `GetHat`
leave the active button id, the active hat id, the hat state, the activation flags, both
press timestamps and all stored axis samples unchanged (they write the statics of their own
timer only); and in every state the object can be in, when the class is active a query
without repeat returns true with the active id (and `GetHat` the hat state as position). -/
theorem queries_keep_activation (L : Limits) (s : CJoystick) (ticks : Nat) (id : Int)
    (consider_repeat : Bool) :
    ((s.GetButton ticks id consider_repeat).2.2.m_ButtonId = s.m_ButtonId ∧
      (s.GetButton ticks id consider_repeat).2.2.m_HatId = s.m_HatId ∧
      (s.GetButton ticks id consider_repeat).2.2.m_HatState = s.m_HatState ∧
      (s.GetButton ticks id consider_repeat).2.2.m_ActiveFlags = s.m_ActiveFlags ∧
      (s.GetButton ticks id consider_repeat).2.2.m_pressTicksButton = s.m_pressTicksButton ∧
      (s.GetButton ticks id consider_repeat).2.2.m_pressTicksHat = s.m_pressTicksHat ∧
      (s.GetButton ticks id consider_repeat).2.2.m_Amount = s.m_Amount) ∧
    ((s.GetHat ticks consider_repeat).2.2.2.m_ButtonId = s.m_ButtonId ∧
      (s.GetHat ticks consider_repeat).2.2.2.m_HatId = s.m_HatId ∧
      (s.GetHat ticks consider_repeat).2.2.2.m_HatState = s.m_HatState ∧
      (s.GetHat ticks consider_repeat).2.2.2.m_ActiveFlags = s.m_ActiveFlags ∧
      (s.GetHat ticks consider_repeat).2.2.2.m_pressTicksButton = s.m_pressTicksButton ∧
      (s.GetHat ticks consider_repeat).2.2.2.m_pressTicksHat = s.m_pressTicksHat ∧
      (s.GetHat ticks consider_repeat).2.2.2.m_Amount = s.m_Amount) ∧
    (Reachable L s → s.IsButtonActive = true →
      (s.GetButton ticks id false).1 = true ∧
      (s.GetButton ticks id false).2.1 = s.m_ButtonId) ∧
    (Reachable L s → s.IsHatActive = true →
      (s.GetHat ticks false).1 = true ∧ (s.GetHat ticks false).2.1 = s.m_HatId ∧
      (s.GetHat ticks false).2.2.1 = (s.m_HatState : Int)) := by
  refine ⟨?_, ?_, ?_, ?_⟩
  · rw [getButton_frame]
    exact ⟨rfl, rfl, rfl, rfl, rfl, rfl, rfl⟩
  · rw [getHat_frame]
    exact ⟨rfl, rfl, rfl, rfl, rfl, rfl, rfl⟩
  · intro hr hact
    have hen : s.IsEnabled = true := by
      rcases reachable_guard L s hr with hen | ⟨hoff, -⟩
      · exact hen
      · rw [hoff] at hact; exact absurd hact (by decide)
    simp [CJoystick.GetButton, hen, hact]
  · intro hr hact
    have hen : s.IsEnabled = true := by
      rcases reachable_guard L s hr with hen | ⟨-, hoff⟩
      · exact hen
      · rw [hoff] at hact; exact absurd hact (by decide)
    simp [CJoystick.GetHat, hen, hact]

/-- C20 at a concrete input: the object is constructed, enabled with one device found and
polled while the second hat of that device is pushed up; a query without repeat then returns
true with the id 2. -/
theorem queries_keep_activation_witness :
    Reachable sampleLimits pushedAfterEnable ∧ pushedAfterEnable.IsHatActive = true ∧
    (pushedAfterEnable.GetHat 1000 false).1 = true ∧
    (pushedAfterEnable.GetHat 1000 false).2.1 = pushedAfterEnable.m_HatId ∧
    pushedAfterEnable.m_HatId = 2 :=
  ⟨⟨enableAndPush, rfl⟩, by decide,
    ((queries_keep_activation sampleLimits pushedAfterEnable 1000 0 false).2.2.2
      ⟨enableAndPush, rfl⟩ (by decide)).1,
    ((queries_keep_activation sampleLimits pushedAfterEnable 1000 0 false).2.2.2
      ⟨enableAndPush, rfl⟩ (by decide)).2.1,
    by decide⟩

/-! ## Theorems: axis events out of range -/

/-- The state after an axis-motion event whose axis id is out of range: the axis count of
the named device is stored and nothing else is written. -/
theorem updateEvent_axis_out_of_range (L : Limits) (handler : Bool) (ticks which axis : Nat)
    (value : Int) (s : CJoystick) (hen : s.IsEnabled = true)
    (hout : (axis : Int) + 1 ≤ 0 ∨ (axis : Int) + 1 ≥ (L.MAX_AXES : Int)) :
    (CJoystick.UpdateEvent L handler ticks (.JOYAXISMOTION which axis value) s).1 =
      { s with m_NumAxes :=
          ((s.m_Joysticks[which]?).map (fun joy => (joy.axes.length : Int))).getD 0 } := by
  simp only [CJoystick.UpdateEvent, hen, Bool.not_true, Bool.false_eq_true, if_false, hout,
    if_true]

/-! ## Theorems: greatest-deviation selection -/

/-- The function `abs` of the C library is the absolute value. -/
theorem cabs_eq_abs (x : Int) : CJoystick.cabs x = |x| := by
  unfold CJoystick.cabs
  split_ifs with h
  · exact (abs_of_neg h).symm
  · exact (abs_of_nonneg (not_lt.mp h)).symm

/-- What `GetAxisWithMaxAmount` computes, with the samples taken as a function of the
index: it returns 0 with the axis class inactive if and only if no sample at the indices
`1..n` is beyond the threshold, and otherwise the lowest index of greatest absolute value. -/
theorem axisScan_selection (s : CJoystick) (hd : 0 ≤ s.m_DeadzoneRange) :
    (((s.GetAxisWithMaxAmount).2 = 0 ∧ (s.GetAxisWithMaxAmount).1.IsAxisActive = false) ↔
      ∀ i : Nat, 1 ≤ i → (i : Int) ≤ s.m_NumAxes → |s.m_Amount i| ≤ s.m_DeadzoneRange) ∧
    ((∃ i : Nat, 1 ≤ i ∧ (i : Int) ≤ s.m_NumAxes ∧ |s.m_Amount i| > s.m_DeadzoneRange) →
      (s.GetAxisWithMaxAmount).1.IsAxisActive = true ∧
      ∃ a : Nat, (s.GetAxisWithMaxAmount).2 = (a : Int) ∧ 1 ≤ a ∧ (a : Int) ≤ s.m_NumAxes ∧
        |s.m_Amount a| > s.m_DeadzoneRange ∧
        (∀ i : Nat, 1 ≤ i → (i : Int) ≤ s.m_NumAxes → |s.m_Amount i| ≤ |s.m_Amount a|) ∧
        (∀ b : Nat, 1 ≤ b → b < a →
          ¬ (|s.m_Amount b| > s.m_DeadzoneRange ∧
            ∀ i : Nat, 1 ≤ i → (i : Int) ≤ s.m_NumAxes → |s.m_Amount i| ≤ |s.m_Amount b|))) := by
  have hle : ∀ i : Nat, ((i : Int) ≤ s.m_NumAxes ↔ i ≤ s.m_NumAxes.toNat) ∨ i = 0 := by
    intro i
    by_cases hi : i = 0
    · exact Or.inr hi
    · left
      omega
  have hin : ∀ i : Nat, 1 ≤ i → ((i : Int) ≤ s.m_NumAxes ↔ i ≤ s.m_NumAxes.toNat) := by
    intro i h1
    rcases hle i with h | h
    · exact h
    · omega
  simp only [CJoystick.GetAxisWithMaxAmount, CJoystick.axisScan, CJoystick.SetAxisActive,
    CJoystick.IsAxisActive]
  rcases axisFold_spec s hd s.m_NumAxes.toNat with
    ⟨h0, hall⟩ | ⟨a, ha1, ha2, hr, hgt, hmax, hfirst⟩
  · simp only [h0]
    have hquiet : ∀ i : Nat, 1 ≤ i → (i : Int) ≤ s.m_NumAxes →
        |s.m_Amount i| ≤ s.m_DeadzoneRange := by
      intro i h1 h2
      rw [← cabs_eq_abs]
      exact hall i h1 ((hin i h1).mp h2)
    constructor
    · constructor
      · intro _
        exact hquiet
      · intro _
        simp
    · rintro ⟨i, h1, h2, h3⟩
      exact absurd (hquiet i h1 h2) (not_le.mpr h3)
  · simp only [hr]
    have hpos : (0 : Int) < CJoystick.cabs (s.m_Amount a) := lt_of_le_of_lt hd hgt
    have hne : (0 : Int) ≠ CJoystick.cabs (s.m_Amount a) := ne_of_lt hpos
    constructor
    · constructor
      · rintro ⟨hz, -⟩
        have hz' : (a : Int) = 0 := hz
        omega
      · intro hq
        have := hq a ha1 ((hin a ha1).mpr ha2)
        rw [← cabs_eq_abs] at this
        exact absurd this (not_le.mpr hgt)
    · intro _
      refine ⟨by simp [hne], a, rfl, ha1, (hin a ha1).mpr ha2, ?_, ?_, ?_⟩
      · rw [← cabs_eq_abs]; exact hgt
      · intro i h1 h2
        rw [← cabs_eq_abs, ← cabs_eq_abs]
        exact hmax i h1 ((hin i h1).mp h2)
      · rintro b hb1 hba ⟨-, hbmax⟩
        have h1 := hfirst b hb1 hba
        have h2 := hbmax a ha1 ((hin a ha1).mpr ha2)
        rw [← cabs_eq_abs, ← cabs_eq_abs] at h2
        exact absurd h2 (not_le.mpr h1)

/-! ## Theorems: the indices the axis scan reads -/

/-- The scan of `GetAxisWithMaxAmount` is the loop body folded over the indices it reads. -/
theorem axisScan_reads (s : CJoystick) :
    CJoystick.axisScan s = (CJoystick.axisScanReads s).foldl (CJoystick.axisStep s) (0, 0) :=
  rfl

/-- The scan reads the indices from 1 up to the stored axis count. -/
theorem mem_axisScanReads (s : CJoystick) (i : Nat) :
    i ∈ CJoystick.axisScanReads s ↔ 1 ≤ i ∧ (i : Int) ≤ s.m_NumAxes := by
  unfold CJoystick.axisScanReads
  rw [List.mem_range'_1]
  omega

/-- The axis count the scan of a polling pass runs with is the one the pass leaves. -/
theorem pollAxesReads_eq (L : Limits) (joy : SDL_Joystick) (s : CJoystick) :
    CJoystick.pollAxesReads L joy s = CJoystick.axisScanReads (CJoystick.pollAxes L joy s) :=
  rfl

/-- The axis count the scan of an in-range axis event runs with is the one the event
leaves. -/
theorem eventAxisReads_eq (L : Limits) (handler : Bool) (ticks which axis : Nat) (value : Int)
    (s : CJoystick) (hen : s.IsEnabled = true) (ha : (axis : Int) + 1 < (L.MAX_AXES : Int)) :
    CJoystick.eventAxisReads L which axis s =
      CJoystick.axisScanReads
        (CJoystick.UpdateEvent L handler ticks (.JOYAXISMOTION which axis value) s).1 := by
  have hrange : ¬ ((axis : Int) + 1 ≤ 0 ∨ (axis : Int) + 1 ≥ (L.MAX_AXES : Int)) := by omega
  rw [updateEvent_axis_state L handler ticks which axis value s hen ha]
  simp only [CJoystick.eventAxisReads, hrange, if_false]
  rfl

/-- In a polling pass the scan reads indices from 1 to `MAX_AXES` at most, and below
`MAX_AXES` when the device reports fewer than `MAX_AXES` axes. -/
theorem pollAxesReads_bound (L : Limits) (joy : SDL_Joystick) (s : CJoystick) (i : Nat)
    (hi : i ∈ CJoystick.pollAxesReads L joy s) :
    1 ≤ i ∧ i ≤ L.MAX_AXES ∧ (joy.axes.length < L.MAX_AXES → i < L.MAX_AXES) := by
  unfold CJoystick.pollAxesReads at hi
  rw [mem_axisScanReads] at hi
  obtain ⟨h1, h2⟩ := hi
  simp only at h2
  split_ifs at h2 with hgt
  · have h3 : i ≤ L.MAX_AXES := by exact_mod_cast h2
    exact ⟨h1, h3, fun hlt => by omega⟩
  · have h3 : i ≤ joy.axes.length := by exact_mod_cast h2
    exact ⟨h1, by omega, fun hlt => by omega⟩

/-- In a polling pass over a device that reports `MAX_AXES` axes or more, the scan reads the
index `MAX_AXES`, whatever the value of the constant. -/
theorem pollAxesReads_overrun (L : Limits) (joy : SDL_Joystick) (s : CJoystick)
    (hpos : 1 ≤ L.MAX_AXES) (hwide : L.MAX_AXES ≤ joy.axes.length) :
    L.MAX_AXES ∈ CJoystick.pollAxesReads L joy s := by
  unfold CJoystick.pollAxesReads
  rw [mem_axisScanReads]
  refine ⟨hpos, ?_⟩
  simp only
  split_ifs with hgt
  · exact le_refl _
  · exact_mod_cast hwide

set_option maxRecDepth 20000 in
/-- C23, the failing input: with `MAX_AXES = 64`, the enabled joystick has one open device
that reports 64 axes, all at rest. In a polling pass the scan of `GetAxisWithMaxAmount`
reads the index 64, and the pass leaves the axis count 64; the event that axis 0 of the
device moved makes the scan read the index 64 as well. The ingest paths write no index
above 63. -/
theorem axis_scan_reads_index_max_axes :
    widePad.IsEnabled = true ∧ wideJoy.axes.length = sampleLimits.MAX_AXES ∧
    sampleLimits.MAX_AXES ∈ CJoystick.pollAxesReads sampleLimits wideJoy widePad ∧
    (CJoystick.Update sampleLimits false 1000 widePad).1.m_NumAxes = 64 ∧
    sampleLimits.MAX_AXES ∈
      CJoystick.axisScanReads (CJoystick.Update sampleLimits false 1000 widePad).1 ∧
    sampleLimits.MAX_AXES ∈ CJoystick.eventAxisReads sampleLimits 0 0 widePad ∧
    (CJoystick.UpdateEvent sampleLimits false 1000 (.JOYAXISMOTION 0 0 0) widePad).1.m_NumAxes
      = 64 := by
  decide

/-! ## Theorems: calls within the bounds of the tables and of the samples -/

/-- The scan reads within `m_Amount` exactly when the stored axis count is below
`MAX_AXES`, or there is nothing to read. -/
theorem scanInBounds_iff (L : Limits) (s : CJoystick) :
    CJoystick.scanInBounds L s = true ↔ (s.m_NumAxes < (L.MAX_AXES : Int) ∨ s.m_NumAxes ≤ 0) := by
  unfold CJoystick.scanInBounds
  rw [List.all_eq_true]
  constructor
  · intro h
    by_cases hn : s.m_NumAxes ≤ 0
    · exact Or.inr hn
    · left
      have hmem : s.m_NumAxes.toNat ∈ CJoystick.axisScanReads s := by
        rw [mem_axisScanReads]
        omega
      have := h _ hmem
      simp only [decide_eq_true_eq] at this
      omega
  · intro h i hi
    rw [mem_axisScanReads] at hi
    simp only [decide_eq_true_eq]
    omega

set_option maxRecDepth 20000 in
/-- C22, refuted as stated: with `MAX_AXES = 64`, the threshold 3276, the axis count 64 and
every sample of the array at rest, the loop of `GetAxisWithMaxAmount` reads the index 64,
which is past the array, so the call has no defined result there, rather than returning 0
with the axis class inactive. -/
theorem selection_reads_past_the_samples :
    0 ≤ wideScan.m_DeadzoneRange ∧ wideScan.m_NumAxes = (sampleLimits.MAX_AXES : Int) ∧
    (∀ i : Nat, i < sampleLimits.MAX_AXES → wideScan.m_Amount i = 0) ∧
    sampleLimits.MAX_AXES ∈ CJoystick.axisScanReads wideScan ∧
    (CJoystick.GetAxisWithMaxAmountChecked sampleLimits wideScan).isNone = true := by
  refine ⟨by decide, by decide, fun _ _ => rfl, by decide, by decide⟩

/-- C22, amended: for every state with threshold `d ≥ 0` and axis count `n` below
`MAX_AXES` (so that the indices `1..n` lie in the array of samples), the call of
`GetAxisWithMaxAmount` reads within the array, and it returns 0 and marks the axis class
inactive if and only if no stored sample at the indices `1..n` has absolute value greater
than `d`; otherwise it marks the axis class active and returns the lowest index `a` in
`1..n` with `|sample[a]| > d` and `|sample[a]| ≥ |sample[i]|` for every `i` in `1..n`. -/
theorem greatest_deviation_selection (L : Limits) (s : CJoystick)
    (hd : 0 ≤ s.m_DeadzoneRange) (hn : s.m_NumAxes < (L.MAX_AXES : Int)) :
    CJoystick.GetAxisWithMaxAmountChecked L s = some s.GetAxisWithMaxAmount ∧
    (∀ i ∈ CJoystick.axisScanReads s, i < L.MAX_AXES) ∧
    (((s.GetAxisWithMaxAmount).2 = 0 ∧ (s.GetAxisWithMaxAmount).1.IsAxisActive = false) ↔
      ∀ i : Nat, 1 ≤ i → (i : Int) ≤ s.m_NumAxes → |s.m_Amount i| ≤ s.m_DeadzoneRange) ∧
    ((∃ i : Nat, 1 ≤ i ∧ (i : Int) ≤ s.m_NumAxes ∧ |s.m_Amount i| > s.m_DeadzoneRange) →
      (s.GetAxisWithMaxAmount).1.IsAxisActive = true ∧
      ∃ a : Nat, (s.GetAxisWithMaxAmount).2 = (a : Int) ∧ 1 ≤ a ∧ (a : Int) ≤ s.m_NumAxes ∧
        a < L.MAX_AXES ∧
        |s.m_Amount a| > s.m_DeadzoneRange ∧
        (∀ i : Nat, 1 ≤ i → (i : Int) ≤ s.m_NumAxes → |s.m_Amount i| ≤ |s.m_Amount a|) ∧
        (∀ b : Nat, 1 ≤ b → b < a →
          ¬ (|s.m_Amount b| > s.m_DeadzoneRange ∧
            ∀ i : Nat, 1 ≤ i → (i : Int) ≤ s.m_NumAxes → |s.m_Amount i| ≤ |s.m_Amount b|))) := by
  have hb : CJoystick.scanInBounds L s = true := (scanInBounds_iff L s).mpr (Or.inl hn)
  have hsel := axisScan_selection s hd
  refine ⟨?_, ?_, hsel.1, ?_⟩
  · unfold CJoystick.GetAxisWithMaxAmountChecked
    rw [if_pos hb]
  · intro i hi
    rw [mem_axisScanReads] at hi
    omega
  · intro hex
    obtain ⟨hact, a, h1, h2, h3, h4, h5, h6⟩ := hsel.2 hex
    exact ⟨hact, a, h1, h2, h3, by omega, h4, h5, h6⟩

/-- The amended C22 at a concrete input: with `MAX_AXES = 64`, the threshold 3276 and the
samples 5000, -20000, 20000 at the indices 1, 2, 3 the call reads within the array, the axis
class becomes active and the index 2 is returned, the lower of the two indices of greatest
deviation. -/
theorem greatest_deviation_selection_witness :
    0 ≤ threeAxes.m_DeadzoneRange ∧ threeAxes.m_NumAxes < (sampleLimits.MAX_AXES : Int) ∧
    (CJoystick.GetAxisWithMaxAmountChecked sampleLimits threeAxes).isSome = true ∧
    (threeAxes.GetAxisWithMaxAmount).1.IsAxisActive = true ∧
    (threeAxes.GetAxisWithMaxAmount).2 = 2 :=
  ⟨by decide, by decide,
    by
      rw [(greatest_deviation_selection sampleLimits threeAxes (by decide) (by decide)).1]
      rfl,
    ((greatest_deviation_selection sampleLimits threeAxes (by decide) (by decide)).2.2.2
      ⟨2, by decide, by decide, by decide⟩).1,
    by decide⟩

/-- An axis event that names a device of the table with fewer than `MAX_AXES` axes, or whose
axis id is out of range, makes no access out of bounds. -/
theorem eventInBounds_axis (L : Limits) (handler : Bool) (which axis : Nat) (value : Int)
    (s : CJoystick) (hwhich : which < s.m_Joysticks.length)
    (hname : which < s.m_JoystickNames.length)
    (hax : ((axis : Int) + 1 ≤ 0 ∨ (axis : Int) + 1 ≥ (L.MAX_AXES : Int)) ∨
      ∀ joy : SDL_Joystick, s.m_Joysticks[which]? = some joy → joy.axes.length < L.MAX_AXES) :
    CJoystick.eventInBounds L handler (.JOYAXISMOTION which axis value) s = true := by
  unfold CJoystick.eventInBounds
  simp only [hwhich, hname, decide_True, Bool.or_true, Bool.and_self, Bool.true_and]
  rw [List.all_eq_true]
  intro i hi
  unfold CJoystick.eventAxisReads at hi
  simp only at hi
  split_ifs at hi with hr
  · simp at hi
  · rcases hax with hout | hlen
    · exact absurd hout hr
    · rw [mem_axisScanReads] at hi
      have hsome : s.m_Joysticks[which]? = some (s.m_Joysticks[which]) :=
        List.getElem?_eq_getElem hwhich
      have hl := hlen _ hsome
      simp only [hsome, Option.map_some', Option.getD_some] at hi
      simp only [decide_eq_true_eq]
      omega

/-- The checked event call of an enabled joystick has the result of the call when every
access is within bounds. -/
theorem updateEventChecked_of_inBounds (L : Limits) (handler : Bool) (ticks : Nat)
    (joyEvent : SDL_Event) (s : CJoystick) (hen : s.IsEnabled = true)
    (hb : CJoystick.eventInBounds L handler joyEvent s = true) :
    CJoystick.UpdateEventChecked L handler ticks joyEvent s =
      some (CJoystick.UpdateEvent L handler ticks joyEvent s) := by
  unfold CJoystick.UpdateEventChecked
  rw [if_neg (by simp [hen]), if_pos hb]

/-- C21, refuted as stated: with `MAX_AXES = 64`, the enabled joystick has an empty device
table and receives the event that axis 63 (id 64, out of range) of device 0 moved; the call
indexes `m_Joysticks[0]` before the range test and has no defined result. -/
theorem malformed_axis_event_outside_table :
    idle.IsEnabled = true ∧ idle.m_Joysticks = [] ∧
    (((63 : Nat) : Int) + 1 ≤ 0 ∨ ((63 : Nat) : Int) + 1 ≥ (sampleLimits.MAX_AXES : Int)) ∧
    (CJoystick.UpdateEventChecked sampleLimits false 1000 (.JOYAXISMOTION 0 63 20000)
      idle).isNone = true := by
  refine ⟨rfl, rfl, by decide, by decide⟩

/-- C21, amended: when the joystick is enabled and an axis-motion event names a device of the
table (an index within the device table and the name table), and its one-based axis id is
out of range (at most 0, or `MAX_AXES` or more), the call makes no access out of bounds and
leaves every stored axis sample, the active axis id, the active button and hat ids, the hat
state, the activation flags and both press timestamps as they were; the axis count of the
named device is the only member written. -/
theorem malformed_axis_dropped (L : Limits) (handler : Bool) (ticks which axis : Nat)
    (value : Int) (s : CJoystick) (hen : s.IsEnabled = true)
    (hwhich : which < s.m_Joysticks.length) (hname : which < s.m_JoystickNames.length)
    (hout : (axis : Int) + 1 ≤ 0 ∨ (axis : Int) + 1 ≥ (L.MAX_AXES : Int)) :
    CJoystick.UpdateEventChecked L handler ticks (.JOYAXISMOTION which axis value) s =
      some (CJoystick.UpdateEvent L handler ticks (.JOYAXISMOTION which axis value) s) ∧
    (CJoystick.UpdateEvent L handler ticks (.JOYAXISMOTION which axis value) s).1.m_Amount
      = s.m_Amount ∧
    (CJoystick.UpdateEvent L handler ticks (.JOYAXISMOTION which axis value) s).1.m_AxisId
      = s.m_AxisId ∧
    (CJoystick.UpdateEvent L handler ticks (.JOYAXISMOTION which axis value) s).1.m_ButtonId
      = s.m_ButtonId ∧
    (CJoystick.UpdateEvent L handler ticks (.JOYAXISMOTION which axis value) s).1.m_HatId
      = s.m_HatId ∧
    (CJoystick.UpdateEvent L handler ticks (.JOYAXISMOTION which axis value) s).1.m_HatState
      = s.m_HatState ∧
    (CJoystick.UpdateEvent L handler ticks (.JOYAXISMOTION which axis value) s).1.m_ActiveFlags
      = s.m_ActiveFlags ∧
    (CJoystick.UpdateEvent L handler ticks
      (.JOYAXISMOTION which axis value) s).1.m_pressTicksButton = s.m_pressTicksButton ∧
    (CJoystick.UpdateEvent L handler ticks
      (.JOYAXISMOTION which axis value) s).1.m_pressTicksHat = s.m_pressTicksHat ∧
    (CJoystick.UpdateEvent L handler ticks (.JOYAXISMOTION which axis value) s).1 =
      { s with m_NumAxes := (((s.m_Joysticks.get ⟨which, hwhich⟩).axes.length : Nat) : Int) } := by
  refine ⟨updateEventChecked_of_inBounds L handler ticks _ s hen
    (eventInBounds_axis L handler which axis value s hwhich hname (Or.inl hout)), ?_⟩
  rw [updateEvent_axis_out_of_range L handler ticks which axis value s hen hout]
  refine ⟨rfl, rfl, rfl, rfl, rfl, rfl, rfl, rfl, ?_⟩
  have hsome : s.m_Joysticks[which]? = some (s.m_Joysticks.get ⟨which, hwhich⟩) :=
    List.getElem?_eq_getElem hwhich
  simp only [hsome, Option.map_some', Option.getD_some]

/-- The amended C21 at a concrete input: with `MAX_AXES = 64` and two devices in the table,
the event for the zero-based axis 63 (id 64) of device 0 with value 20000 has a defined
result and leaves the stored sample at index 63 and the active axis id as they were. -/
theorem malformed_axis_dropped_witness :
    axisPadFirst.IsEnabled = true ∧ 0 < axisPadFirst.m_Joysticks.length ∧
    0 < axisPadFirst.m_JoystickNames.length ∧
    (((63 : Nat) : Int) + 1 ≤ 0 ∨ ((63 : Nat) : Int) + 1 ≥ (sampleLimits.MAX_AXES : Int)) ∧
    (CJoystick.UpdateEventChecked sampleLimits false 1000 (.JOYAXISMOTION 0 63 20000)
      axisPadFirst).isSome = true ∧
    (CJoystick.UpdateEvent sampleLimits false 1000 (.JOYAXISMOTION 0 63 20000)
      axisPadFirst).1.m_Amount 63 = axisPadFirst.m_Amount 63 ∧
    (CJoystick.UpdateEvent sampleLimits false 1000 (.JOYAXISMOTION 0 63 20000)
      axisPadFirst).1.m_AxisId = axisPadFirst.m_AxisId :=
  ⟨rfl, by decide, by decide, by decide,
    by
      rw [(malformed_axis_dropped sampleLimits false 1000 0 63 20000 axisPadFirst rfl
        (by decide) (by decide) (by decide)).1]
      rfl,
    congrFun (malformed_axis_dropped sampleLimits false 1000 0 63 20000 axisPadFirst rfl
      (by decide) (by decide) (by decide)).2.1 63,
    (malformed_axis_dropped sampleLimits false 1000 0 63 20000 axisPadFirst rfl
      (by decide) (by decide) (by decide)).2.2.1⟩

set_option maxRecDepth 20000 in
/-- C17, refuted as stated: with `MAX_AXES = 64`, the enabled joystick with an empty device
table receives the event that axis 1 (id 2, in range) of device 0 moved to 20000; the call
indexes `m_Joysticks[0]` and has no defined result. And the enabled joystick whose one
device reports 64 axes receives the event that axis 0 (id 1) of that device moved to 20000;
the selection then reads the index 64, past the stored samples, and has no defined
result. -/
theorem axis_event_without_defined_result :
    idle.IsEnabled = true ∧ idle.m_Joysticks = [] ∧
    (0 : Int) < ((1 : Nat) : Int) + 1 ∧ ((1 : Nat) : Int) + 1 < (sampleLimits.MAX_AXES : Int) ∧
    (CJoystick.UpdateEventChecked sampleLimits false 1000 (.JOYAXISMOTION 0 1 20000)
      idle).isNone = true ∧
    widePad.IsEnabled = true ∧ widePad.m_Joysticks = [wideJoy] ∧
    wideJoy.axes.length = sampleLimits.MAX_AXES ∧
    (0 : Int) < ((0 : Nat) : Int) + 1 ∧ ((0 : Nat) : Int) + 1 < (sampleLimits.MAX_AXES : Int) ∧
    sampleLimits.MAX_AXES ∈ CJoystick.eventAxisReads sampleLimits 0 0 widePad ∧
    (CJoystick.UpdateEventChecked sampleLimits false 1000 (.JOYAXISMOTION 0 0 20000)
      widePad).isNone = true := by
  refine ⟨rfl, rfl, by decide, by decide, by decide, rfl, rfl, by decide, by decide, by decide,
    by decide, by decide⟩

/-- C17, amended: when the joystick is enabled and an axis-motion event names a device of the
table (an index within the device table and the name table) that reports fewer than
`MAX_AXES` axes, for the zero-based axis `axis` (one-based id `axis + 1` below `MAX_AXES`)
with raw value `value`, the call makes no access out of bounds; afterwards the stored sample
of that axis is `value` (so 0 when the value is 0), every other stored sample is unchanged,
the button and hat ids, the hat state, the button and hat activation flags and both press
timestamps are unchanged, and the active axis id is what `GetAxisWithMaxAmount` selects
over the stored samples, reading within the array. -/
theorem event_mode_axis_frame (L : Limits) (handler : Bool) (ticks which axis : Nat)
    (value : Int) (s : CJoystick) (hen : s.IsEnabled = true)
    (hwhich : which < s.m_Joysticks.length) (hname : which < s.m_JoystickNames.length)
    (hax : (s.m_Joysticks.get ⟨which, hwhich⟩).axes.length < L.MAX_AXES)
    (ha : (axis : Int) + 1 < (L.MAX_AXES : Int)) :
    CJoystick.UpdateEventChecked L handler ticks (.JOYAXISMOTION which axis value) s =
      some (CJoystick.UpdateEvent L handler ticks (.JOYAXISMOTION which axis value) s) ∧
    (CJoystick.UpdateEvent L handler ticks (.JOYAXISMOTION which axis value) s).1.m_Amount
      (axis + 1) = value ∧
    (∀ i : Nat, i ≠ axis + 1 →
      (CJoystick.UpdateEvent L handler ticks (.JOYAXISMOTION which axis value) s).1.m_Amount i
        = s.m_Amount i) ∧
    (CJoystick.UpdateEvent L handler ticks (.JOYAXISMOTION which axis value) s).1.m_ButtonId
      = s.m_ButtonId ∧
    (CJoystick.UpdateEvent L handler ticks (.JOYAXISMOTION which axis value) s).1.m_HatId
      = s.m_HatId ∧
    (CJoystick.UpdateEvent L handler ticks (.JOYAXISMOTION which axis value) s).1.m_HatState
      = s.m_HatState ∧
    (CJoystick.UpdateEvent L handler ticks (.JOYAXISMOTION which axis value) s).1.IsButtonActive
      = s.IsButtonActive ∧
    (CJoystick.UpdateEvent L handler ticks (.JOYAXISMOTION which axis value) s).1.IsHatActive
      = s.IsHatActive ∧
    (CJoystick.UpdateEvent L handler ticks
      (.JOYAXISMOTION which axis value) s).1.m_pressTicksButton = s.m_pressTicksButton ∧
    (CJoystick.UpdateEvent L handler ticks
      (.JOYAXISMOTION which axis value) s).1.m_pressTicksHat = s.m_pressTicksHat ∧
    (CJoystick.UpdateEvent L handler ticks (.JOYAXISMOTION which axis value) s).1.m_AxisId =
      (CJoystick.GetAxisWithMaxAmount
        (CJoystick.UpdateEvent L handler ticks (.JOYAXISMOTION which axis value) s).1).2 ∧
    CJoystick.scanInBounds L
      (CJoystick.UpdateEvent L handler ticks (.JOYAXISMOTION which axis value) s).1 = true := by
  have hsome : s.m_Joysticks[which]? = some (s.m_Joysticks.get ⟨which, hwhich⟩) :=
    List.getElem?_eq_getElem hwhich
  have hlen : ∀ joy : SDL_Joystick, s.m_Joysticks[which]? = some joy →
      joy.axes.length < L.MAX_AXES := by
    intro joy hj
    rw [hsome] at hj
    cases hj
    exact hax
  refine ⟨updateEventChecked_of_inBounds L handler ticks _ s hen
    (eventInBounds_axis L handler which axis value s hwhich hname (Or.inr hlen)), ?_⟩
  rw [updateEvent_axis_state L handler ticks which axis value s hen ha]
  refine ⟨?_, ?_, rfl, rfl, rfl, rfl, rfl, rfl, rfl, ?_, ?_⟩
  · simp [CJoystick.GetAxisWithMaxAmount, CJoystick.SetAxisActive]
  · intro i hi
    simp [CJoystick.GetAxisWithMaxAmount, CJoystick.SetAxisActive, Function.update_noteq hi]
  · simp only [CJoystick.GetAxisWithMaxAmount]
    exact congrArg Prod.snd (axisScan_congr _ _ rfl rfl rfl).symm
  · rw [scanInBounds_iff]
    left
    simp only [CJoystick.GetAxisWithMaxAmount, CJoystick.SetAxisActive, hsome, Option.map_some',
      Option.getD_some]
    exact_mod_cast hax

/-- The amended C17 at a concrete input: device 0 of the table, which has two axes, reports
its second axis at 20000; the call has a defined result, the stored sample of axis id 2
becomes 20000 and axis id 2 becomes the active axis. -/
theorem event_mode_axis_frame_witness :
    axisPadFirst.IsEnabled = true ∧ ((1 : Nat) : Int) + 1 < (sampleLimits.MAX_AXES : Int) ∧
    (CJoystick.UpdateEventChecked sampleLimits false 1000 (.JOYAXISMOTION 0 1 20000)
      axisPadFirst).isSome = true ∧
    (CJoystick.UpdateEvent sampleLimits false 1000 (.JOYAXISMOTION 0 1 20000)
      axisPadFirst).1.m_Amount 2 = 20000 ∧
    (CJoystick.UpdateEvent sampleLimits false 1000 (.JOYAXISMOTION 0 1 20000)
      axisPadFirst).1.m_AxisId = 2 :=
  ⟨rfl, by decide,
    by
      rw [(event_mode_axis_frame sampleLimits false 1000 0 1 20000 axisPadFirst rfl
        (by decide) (by decide) (by decide) (by decide)).1]
      rfl,
    (event_mode_axis_frame sampleLimits false 1000 0 1 20000 axisPadFirst rfl
      (by decide) (by decide) (by decide) (by decide)).2.1,
    by decide⟩

end SDLJoystick
